import Mathlib

/-!
# Cellular_Automata_BareMetal: the evolutionary automaton of `src/ca.c`

Shallow embedding of `ca.h` / `ca.c`.

Conventions of the embedding.

* `uint8_t`, `uint16_t`, `uint32_t` values are natural numbers; every store
  that can leave the range of its C type is followed by an explicit
  `% 256`, `% 65536` or `% 4294967296`.
* `int largeur_grille`, `int hauteur_grille` are natural numbers (a loop
  `for (i = 0; i < n; i++)` does not run for `n <= 0`).
* A pointer that the code tests against `NULL` is an `Option`; a buffer is a
  function from the cell index to the record stored there, and only the
  indices below `largeur_grille * hauteur_grille` belong to the buffer.
* The rule text is a list of characters; the terminating NUL is the end of
  the list (a NUL character inside the list terminates as well).
* `float` arithmetic is not interpreted.  Each `float` expression whose value
  reaches the integer state is a field of `Flottants`, applied to the integer
  values the C expression reads; the general theorems hold for every `Flottants`.  The
  two exceptions are comparisons that are exact for every input the code can
  produce (`calculer_fertilite(age) > 0.1f` and the quadrant test of
  `determiner_espece`); they are written with integers, see there.
-/

namespace CA

/-! ## Constants of `ca.h` -/

def DENSITE_MINIMUM : Nat := 15
def DENSITE_MAXIMUM : Nat := 80
def BONUS_CLUSTERING : Nat := 6
def AGE_MAXIMUM : Nat := 1200
def FERTILITE_DEBUT : Nat := 5
def FERTILITE_OPTIMALE : Nat := 30
def FERTILITE_DECLIN : Nat := 150
def FACTEUR_HEREDITE : Nat := 5
def TAUX_MUTATION : Nat := 8
def VARIATION_MUTATION : Nat := 15
def INSTABILITE_GENERATION : Nat := 1
def SEUIL_INSTABILITE_AGE : Nat := 500
def SEUIL_DENSITE_FATALE : Nat := 999
def PREDATION_PRESSURE : Nat := 15
def PREDATION_CYCLE : Nat := 80
def EPIDEMIC_CYCLE : Nat := 120
def FOOD_SCARCITY_CYCLE : Nat := 90
def CHANCE_MORT_DENSITE : Nat := 0
def ACCELERATION_VIEILLISSEMENT : Nat := 200
def FACTEUR_ACCELERATION : Nat := 2
def CONSOMMATION_NUTRIMENTS : Nat := 1
def REGENERATION_NUTRIMENTS : Nat := 3
def NUTRIMENTS_INITIAUX : Nat := 100
def FORCE_POLARISATION_INITIALE : Nat := 128
def HERITAGE_RACE_PROBABILITE : Nat := 70
def MIXITE_GENETIQUE_CHANCE : Nat := 20
def RYTHME_MOUVEMENT_RAPIDE : Nat := 50
def RYTHME_MOUVEMENT_LENT : Nat := 100
def BASE_MUTATION_RATE : Nat := 3
def RESISTANCE_EVOLUTION_RATE : Nat := 12
def MIGRATION_PRESSURE_THRESHOLD : Nat := 6
def TERRITORIAL_COMPETITION : Nat := 8
def SEUIL_COMPETITION : Nat := 5
def STRESS_COMPETITION : Nat := 2

/-- Values of `enum RaceCellule`. -/
def RACE_EXPLORATRICE : Nat := 0
def RACE_COLONISATRICE : Nat := 1
def RACE_NOMADE : Nat := 2
def RACE_ADAPTATIVE : Nat := 3
def NOMBRE_RACES : Nat := 4

/-- Values of `enum DirectionPolarisation`. -/
def DIRECTION_NORD : Nat := 0
def DIRECTION_NORD_EST : Nat := 1
def DIRECTION_EST : Nat := 2
def DIRECTION_SUD_EST : Nat := 3
def DIRECTION_SUD : Nat := 4
def DIRECTION_SUD_OUEST : Nat := 5
def DIRECTION_OUEST : Nat := 6
def DIRECTION_NORD_OUEST : Nat := 7
def NOMBRE_DIRECTIONS : Nat := 8

/-! ## Data model -/

/-- The record `CelluleEvolutive`; the two enum fields hold the enum's integer. -/
structure CelluleEvolutive where
  vivante : Nat
  age : Nat
  genotype_survie : Nat
  genotype_naissance : Nat
  sante : Nat
  race : Nat
  polarisation : Nat
  force_polarisation : Nat
  compteur_mouvement : Nat
  fitness_reproductif : Nat
  efficacite_energetique : Nat
  espece_id : Nat
  resistance_maladie : Nat
  camouflage_predation : Nat
  territorialite : Nat
  adaptabilite_stress : Nat
  generation_naissance : Nat
deriving DecidableEq, Repr

/-- The record `EnvironnementLocal`. -/
structure EnvironnementLocal where
  nutriments : Nat
  temperature : Nat
  pression_predation : Nat
  pathogenes_present : Nat
  toxicite_locale : Nat
  competition_territoriale : Nat
deriving DecidableEq, Repr

/-- The cell record written by `nettoyer_grille`. -/
def cellule_defaut : CelluleEvolutive :=
  { vivante := 0, age := 0, genotype_survie := 128, genotype_naissance := 128, sante := 0,
    race := RACE_EXPLORATRICE, polarisation := DIRECTION_NORD, force_polarisation := 0,
    compteur_mouvement := 0, fitness_reproductif := 50, efficacite_energetique := 128,
    espece_id := 0, resistance_maladie := 100, camouflage_predation := 100,
    territorialite := 100, adaptabilite_stress := 100, generation_naissance := 0 }

/-- The environment record written by `nettoyer_grille`. -/
def environnement_defaut : EnvironnementLocal :=
  { nutriments := NUTRIMENTS_INITIAUX, temperature := 128, pression_predation := 0,
    pathogenes_present := 0, toxicite_locale := 0, competition_territoriale := 0 }

/-- A cell buffer, indexed by `ligne * largeur + colonne`. -/
abbrev Grille := Nat → CelluleEvolutive

/-- The environment buffer, indexed like a cell buffer. -/
abbrev GrilleEnv := Nat → EnvironnementLocal

/-- The record `AutomateCellulaire`. -/
structure AutomateCellulaire where
  largeur_grille : Nat
  hauteur_grille : Nat
  regles_format_texte : Option (List Char)
  masque_conditions_naissance : Nat
  masque_conditions_survie : Nat
  grille_cellules_actuelles : Option Grille
  grille_cellules_suivantes : Option Grille
  grille_environnement : GrilleEnv
  generation_actuelle : Nat
  population_totale : Nat

/-- The loop `for (int i = 0; i < n; i++) s = corps(i, s);`. -/
def boucle {σ : Type} (n : Nat) (corps : Nat → σ → σ) (s : σ) : σ :=
  match n with
  | 0 => s
  | k + 1 => corps k (boucle k corps s)

/-- The store `g[i] = v` into a buffer. -/
def ecrire {α : Type} (g : Nat → α) (i : Nat) (v : α) : Nat → α :=
  fun j => if j = i then v else g j

/-! ## `analyser_regles_automate` -/

/-- The test `c >= '0' && c <= '8'`. -/
def est_chiffre_voisins (c : Char) : Bool :=
  decide (48 ≤ c.toNat) && decide (c.toNat ≤ 56)

/-- The statement `masque |= (1u << (c - '0'))` on a 16-bit mask. -/
def ajouter_chiffre (masque : Nat) (c : Char) : Nat :=
  if est_chiffre_voisins c then (masque ||| (1 <<< (c.toNat - 48))) % 65536 else masque

/-- The first `while` of the parser: reads the birth digits up to `'/'` or
the end of the text, and returns the mask with the rest of the text. -/
def lire_naissance : List Char → Nat → Nat × List Char
  | [], masque => (masque, [])
  | c :: reste, masque =>
    if c.toNat = 0 ∨ c = '/' then (masque, c :: reste)
    else lire_naissance reste (ajouter_chiffre masque c)

/-- The second `while` of the parser: reads the survival digits up to the end of
the text. -/
def lire_survie : List Char → Nat → Nat
  | [], masque => masque
  | c :: reste, masque =>
    if c.toNat = 0 then masque
    else lire_survie reste (ajouter_chiffre masque c)

/-- The function `analyser_regles_automate` of `ca.c`. -/
def analyser_regles_automate (a : AutomateCellulaire) : AutomateCellulaire :=
  match a.regles_format_texte with
  | none => a
  | some texte =>
    let a0 := { a with masque_conditions_naissance := 0, masque_conditions_survie := 0 }
    match texte with
    | [] => a0
    | c :: reste =>
      if c ≠ 'B' then a0
      else
        let (naissance, apres) := lire_naissance reste 0
        let apres_barre :=
          match apres with
          | d :: suite => if d = '/' then suite else apres
          | [] => apres
        let survie :=
          match apres_barre with
          | d :: suite => if d = 'S' then lire_survie suite 0 else 0
          | [] => 0
        { a0 with masque_conditions_naissance := naissance, masque_conditions_survie := survie }

/-- The distance `(x > dimension / 2) ? x - dimension / 2 : dimension / 2 - x` of a
coordinate to the centre of its axis. -/
def distance_centre (x dimension : Nat) : Nat :=
  if x > dimension / 2 then x - dimension / 2 else dimension / 2 - x

/-- The automaton `a` with `regles_format_texte` pointing to `texte`. -/
def avec_regles (a : AutomateCellulaire) (texte : List Char) : AutomateCellulaire :=
  { a with regles_format_texte := some texte }

/-! ## Pseudo-random generator and the uninterpreted `float` expressions -/

/-- The statement `generateur = generateur * 1103515245u + 12345u` on `uint32_t`. -/
def lcg (g : Nat) : Nat := (g * 1103515245 + 12345) % 4294967296

/-- The `float` expressions of `ca.c` whose value reaches the integer state.
Each field stands for the C expression named in its comment, as a function of
the integers that expression reads: the value of the expression when its evaluation
returns. -/
structure Flottants where
  /-- Value of `(int)(NUTRIMENTS_INITIAUX * calculer_disponibilite_nourriture(generation))`. -/
  nutriments_max : Nat → Int
  /-- Value of `calculer_pression_predation(generation, x, y, largeur, hauteur)`. -/
  calculer_pression_predation : Nat → Nat → Nat → Nat → Nat → Nat
  /-- Value of `calculer_pathogenes(generation, densite_locale)`. -/
  calculer_pathogenes : Nat → Nat → Nat
  /-- Outcome of `(float)(generateur % 1000) / 1000.0f > survival_probability`, from
  `resistance_maladie`, `pathogenes_present` and `generateur % 1000`. -/
  meurt_de_maladie : Nat → Nat → Nat → Bool
  /-- Outcome of `(float)(generateur % 1000) / 1000.0f > escape_probability && predation_risk > 0.2f`,
  from `camouflage_predation`, `pression_predation` and `generateur % 1000`. -/
  meurt_de_predation : Nat → Nat → Nat → Bool
  /-- Outcome of `seuil_naissance < probabilite_naissance`, from the fertile parents, `colonne`,
  `ligne`, `generation_actuelle`, `largeur`, `hauteur` and `generateur % 1000`. -/
  naissance_probable : List CelluleEvolutive → Nat → Nat → Nat → Nat → Nat → Nat → Bool
  /-- Value of `(uint32_t)(stress_level * STRESS_MUTATION_MULTIPLIER)`, from `pathogenes_present`,
  `pression_predation`, `toxicite_locale` and `nombre_voisins_vivants`. -/
  mutation_stress : Nat → Nat → Nat → Nat → Nat
  /-- Value of `(int)((DENSITE_MAXIMUM - DENSITE_MINIMUM) * distance_normalisee)` in
  `initialiser_grille_centre`, from `colonne`, `ligne`, `largeur` and `hauteur`. -/
  reduction_densite : Nat → Nat → Nat → Nat → Int

/-! ## The `binary32` evaluation of `simple_sin`, of the predation pressure and of the
centre-weighted density

The fields of `Flottants` give the values of the `float` expressions when their
evaluation returns.  The expressions of `nutriments_max`, `calculer_pression_predation`
and `calculer_pathogenes`, which `mettre_a_jour_environnement` evaluates, call
`simple_sin`, whose two loops are modelled here on the `binary32` values (each operation
rounded to the nearest value, ties to even), with a bound on the number of evaluations
of a loop test. -/

/-- The power `2 ^ e` for an integer exponent. -/
def deux_puissance (e : Int) : ℚ :=
  if 0 ≤ e then ((2 ^ e.toNat : Nat) : ℚ) else 1 / ((2 ^ (-e).toNat : Nat) : ℚ)

/-- The number of halvings that bring `n` below 2, at most `k` of them: the exponent `e`
with `2 ^ e ≤ n < 2 ^ (e + 1)` when `0 < n < 2 ^ k`. -/
def exposant_entier (k n : Nat) : Nat :=
  match k with
  | 0 => 0
  | k + 1 => if n < 2 then 0 else exposant_entier k (n / 2) + 1

/-- The exponent `e` with `2 ^ e ≤ q < 2 ^ (e + 1)`, for `q > 0`: the difference of the
exponents of the numerator and of the denominator, or one less. -/
def exposant_binaire (q : ℚ) : Int :=
  let e : Int := (exposant_entier q.num.natAbs q.num.natAbs : Int) -
    (exposant_entier q.den q.den : Int)
  if deux_puissance e ≤ q then e else e - 1

/-- The integer nearest to `m ≥ 0`, the even one when `m` is halfway between two. -/
def entier_le_plus_proche (m : ℚ) : Int :=
  let f := Rat.floor m
  let r := m - f
  if 2 * r < 1 then f else if 2 * r > 1 then f + 1 else if f % 2 = 0 then f else f + 1

/-- The `binary32` value nearest to `q`, ties to the even significand: a multiple of
`2 ^ (e - 23)` where `e` is the exponent of `|q|`, not below -126 (subnormal values).
Values of magnitude `2 ^ 128` or more, which `binary32` rounds to an infinity, do not
occur in the expressions evaluated below. -/
def arrondi_binaire32 (q : ℚ) : ℚ :=
  if q = 0 then 0
  else
    let a := if q < 0 then -q else q
    let pas := deux_puissance (max (exposant_binaire a) (-126) - 23)
    let n := entier_le_plus_proche (a / pas)
    if q < 0 then -((n : ℚ) * pas) else (n : ℚ) * pas

/-- The constant `3.14159f`. -/
def PI_F : ℚ := arrondi_binaire32 (314159 / 100000)

/-- The constant `6.28318f`. -/
def DEUX_PI_F : ℚ := arrondi_binaire32 (628318 / 100000)

/-- The loop `while (x > 3.14159f) x -= 6.28318f;` of `simple_sin`, with at most
`carburant` evaluations of its test: `none` when the test is still true after them. -/
def normaliser_haut (carburant : Nat) (x : ℚ) : Option ℚ :=
  match carburant with
  | 0 => none
  | n + 1 => if x > PI_F then normaliser_haut n (arrondi_binaire32 (x - DEUX_PI_F)) else some x

/-- The loop `while (x < -3.14159f) x += 6.28318f;` of `simple_sin`, with at most
`carburant` evaluations of its test. -/
def normaliser_bas (carburant : Nat) (x : ℚ) : Option ℚ :=
  match carburant with
  | 0 => none
  | n + 1 => if x < -PI_F then normaliser_bas n (arrondi_binaire32 (x + DEUX_PI_F)) else some x

/-- The function `simple_sin` of `ca.c` on a `binary32` argument: its two loops, each with
at most `carburant` evaluations of its test, then
`x * (1.0f - x2/6.0f + x2*x2/120.0f)` with `x2 = x * x`.  The result is `none` when a
loop has not ended within the bound. -/
def simple_sin (carburant : Nat) (x : ℚ) : Option ℚ :=
  match normaliser_haut carburant x with
  | none => none
  | some x1 =>
    match normaliser_bas carburant x1 with
    | none => none
    | some x =>
      let x2 := arrondi_binaire32 (x * x)
      some (arrondi_binaire32 (x *
        arrondi_binaire32 (arrondi_binaire32 (1 - arrondi_binaire32 (x2 / 6)) +
          arrondi_binaire32 (arrondi_binaire32 (x2 * x2) / 120))))

/-- The value `cycle_predation` of `calculer_pression_predation`, the argument of its call
of `simple_sin`: `2.0f * 3.14159f * generation / PREDATION_CYCLE`, the `uint32_t`
generation and the `int` constant being converted to `float`. -/
def cycle_predation (generation : Nat) : ℚ :=
  arrondi_binaire32 (arrondi_binaire32 (arrondi_binaire32 (2 * PI_F) *
    arrondi_binaire32 (generation : ℚ)) / (PREDATION_CYCLE : ℚ))

/-- The value `cycle_epidemie` of `calculer_pathogenes`, the argument of its call of
`simple_sin`: `2.0f * 3.14159f * generation / EPIDEMIC_CYCLE`. -/
def cycle_epidemie (generation : Nat) : ℚ :=
  arrondi_binaire32 (arrondi_binaire32 (arrondi_binaire32 (2 * PI_F) *
    arrondi_binaire32 (generation : ℚ)) / (EPIDEMIC_CYCLE : ℚ))

/-- The argument `cycle_nourriture + 1.57f` of the call of `simple_sin` in
`calculer_disponibilite_nourriture`, with
`cycle_nourriture = 2.0f * 3.14159f * generation / FOOD_SCARCITY_CYCLE`. -/
def phase_nourriture (generation : Nat) : ℚ :=
  arrondi_binaire32 (arrondi_binaire32 (arrondi_binaire32 (arrondi_binaire32 (2 * PI_F) *
    arrondi_binaire32 (generation : ℚ)) / (FOOD_SCARCITY_CYCLE : ℚ)) +
    arrondi_binaire32 (157 / 100))

/-- Whether a call of `mettre_a_jour_environnement` returns when each loop of `simple_sin`
is given at most `carburant` evaluations of its test.  The function evaluates
`simple_sin` once in `calculer_disponibilite_nourriture` and then, for each cell, once
in `calculer_pression_predation` and once in `calculer_pathogenes`, on arguments that
depend on the generation only; its own loops are bounded. -/
def mettre_a_jour_environnement_retourne (carburant largeur hauteur generation : Nat) : Bool :=
  (simple_sin carburant (phase_nourriture generation)).isSome &&
    (largeur * hauteur == 0 ||
      ((simple_sin carburant (cycle_predation generation)).isSome &&
        (simple_sin carburant (cycle_epidemie generation)).isSome))

/-- The value `pression_finale` of `calculer_pression_predation` of `ca.c` on `binary32`
values, for `largeur / 2` and `hauteur / 2` not zero, `x ≤ largeur` and `y ≤ hauteur`:
the function first evaluates `simple_sin(cycle_predation)`, and the result is `none` when
that call has not returned.  The function returns 255 or the conversion of this value
to `uint8_t`, which is what the field `calculer_pression_predation` of `Flottants` stands
for. -/
def pression_finale_binaire32 (carburant generation x y largeur hauteur : Nat) : Option ℚ :=
  match simple_sin carburant (cycle_predation generation) with
  | none => none
  | some s =>
    let intensite_base := arrondi_binaire32 (1 / 2 + arrondi_binaire32 (1 / 2 * s))
    let distance_bord_x := arrondi_binaire32
      (arrondi_binaire32 ((if x < largeur / 2 then x else largeur - x : Nat) : ℚ) /
        arrondi_binaire32 ((largeur / 2 : Nat) : ℚ))
    let distance_bord_y := arrondi_binaire32
      (arrondi_binaire32 ((if y < hauteur / 2 then y else hauteur - y : Nat) : ℚ) /
        arrondi_binaire32 ((hauteur / 2 : Nat) : ℚ))
    let distance_centre := arrondi_binaire32
      (1 - arrondi_binaire32 (arrondi_binaire32 (distance_bord_x + distance_bord_y) / 2))
    some (arrondi_binaire32 (arrondi_binaire32 (intensite_base *
      arrondi_binaire32 (arrondi_binaire32 (3 / 10) +
        arrondi_binaire32 (arrondi_binaire32 (7 / 10) * distance_centre))) *
      (PREDATION_PRESSURE : ℚ)))

/-- The value `(int)((DENSITE_MAXIMUM - DENSITE_MINIMUM) * distance_normalisee)` of
`initialiser_grille_centre` on `binary32` values, for `largeur / 2` and `hauteur / 2` not
zero: `distance_x` and `distance_y` are the quotients of the `int` distances to the
centre, converted to `float`, by `largeur / 2` and `hauteur / 2`, `distance_normalisee`
is `(distance_x + distance_y) / 2.0f`, and the conversion to `int` of the product, which
is not negative, drops its fraction. -/
def reduction_densite_binaire32 (colonne ligne largeur hauteur : Nat) : Int :=
  let distance_x := arrondi_binaire32
    (arrondi_binaire32 (distance_centre colonne largeur : ℚ) /
      arrondi_binaire32 ((largeur / 2 : Nat) : ℚ))
  let distance_y := arrondi_binaire32
    (arrondi_binaire32 (distance_centre ligne hauteur : ℚ) /
      arrondi_binaire32 ((hauteur / 2 : Nat) : ℚ))
  let distance_normalisee := arrondi_binaire32 (arrondi_binaire32 (distance_x + distance_y) / 2)
  Rat.floor (arrondi_binaire32
    (arrondi_binaire32 ((DENSITE_MAXIMUM - DENSITE_MINIMUM : Nat) : ℚ) * distance_normalisee))

/-- The test `calculer_fertilite(age) > 0.1f`, branch by branch as in
`calculer_fertilite`, each comparison cross-multiplied:
`(age - 5) / 25 > 0.1` is `10 * (age - 5) > 25` and
`1 - (age - 150) / 1050 > 0.1` is `10 * (age - 150) < 9 * 1050`.
For an 8-bit age the quotient is never within 0.02 of the threshold, so the
rounding of the `float` division does not change the outcome. -/
def fertilite_depasse_seuil (age : Nat) : Bool :=
  if age < FERTILITE_DEBUT then false
  else if age ≥ AGE_MAXIMUM then false
  else if age ≤ FERTILITE_OPTIMALE then
    decide (10 * (age - FERTILITE_DEBUT) > FERTILITE_OPTIMALE - FERTILITE_DEBUT)
  else if age ≤ FERTILITE_DECLIN then true
  else decide (10 * (age - FERTILITE_DECLIN) < 9 * (AGE_MAXIMUM - FERTILITE_DECLIN))

/-- The function `calculer_fertilite` of `ca.c` in exact arithmetic: each `float`
quotient is the rational quotient of its two integer operands. -/
def calculer_fertilite (age : Nat) : ℚ :=
  if age < FERTILITE_DEBUT then 0
  else if age ≥ AGE_MAXIMUM then 0
  else if age ≤ FERTILITE_OPTIMALE then
    ((age - FERTILITE_DEBUT : Nat) : ℚ) / ((FERTILITE_OPTIMALE - FERTILITE_DEBUT : Nat) : ℚ)
  else if age ≤ FERTILITE_DECLIN then 1
  else 1 - ((age - FERTILITE_DECLIN : Nat) : ℚ) / ((AGE_MAXIMUM - FERTILITE_DECLIN : Nat) : ℚ)

/-- The value `distance_bord_x` (or `distance_bord_y`) of `calculer_pression_predation` in
exact arithmetic, for the coordinate `x` of a grid of width (or height) `largeur`; the
divisor `largeur / 2` is the integer quotient. -/
def distance_bord (x largeur : Nat) : ℚ :=
  if x < largeur / 2 then (x : ℚ) / ((largeur / 2 : Nat) : ℚ)
  else ((largeur : ℚ) - (x : ℚ)) / ((largeur / 2 : Nat) : ℚ)

/-- The value `distance_centre` of `calculer_pression_predation` in exact arithmetic. -/
def distance_centre_predation (x y largeur hauteur : Nat) : ℚ :=
  1 - (distance_bord x largeur + distance_bord y hauteur) / 2

/-- The factor `0.3f + 0.7f * distance_centre` of `calculer_pression_predation` in exact
arithmetic. -/
def facteur_spatial_predation (x y largeur hauteur : Nat) : ℚ :=
  3 / 10 + 7 / 10 * distance_centre_predation x y largeur hauteur

/-- The value `pression_finale` of `calculer_pression_predation` in exact arithmetic, from
the value `intensite_base` of the generation. -/
def pression_finale (intensite_base : ℚ) (x y largeur hauteur : Nat) : ℚ :=
  intensite_base * facteur_spatial_predation x y largeur hauteur * (PREDATION_PRESSURE : ℚ)

/-- The function `determiner_espece` of `ca.c`.  The parent array is not read, only its
length; `(float)x / largeur < 0.5f` is written `2 * x < largeur` (the quotient is
exactly 0.5 or at least `1 / (2 * largeur)` away from it). -/
def determiner_espece (nombre_parents position_x position_y largeur hauteur : Nat) : Nat :=
  if nombre_parents = 0 then 0
  else if 2 * position_x < largeur ∧ 2 * position_y < hauteur then 1
  else if 2 * position_x ≥ largeur ∧ 2 * position_y < hauteur then 2
  else if 2 * position_x < largeur ∧ 2 * position_y ≥ hauteur then 3
  else 4

/-- The function `obtenir_coordonnees_direction` of `ca.c`; the result is
`(delta_x + 1, delta_y + 1)`, so that it is a pair of naturals. -/
def obtenir_coordonnees_direction (direction : Nat) : Nat × Nat :=
  match direction with
  | 0 => (1, 0)
  | 1 => (2, 0)
  | 2 => (2, 1)
  | 3 => (2, 2)
  | 4 => (1, 2)
  | 5 => (0, 2)
  | 6 => (0, 1)
  | 7 => (0, 0)
  | _ => (1, 1)

/-- The function `doit_se_deplacer` of `ca.c`. -/
def doit_se_deplacer (cellule : CelluleEvolutive) (nombre_voisins : Nat) : Bool :=
  match cellule.race with
  | 0 => decide (nombre_voisins ≤ 2) &&
      decide (cellule.compteur_mouvement % RYTHME_MOUVEMENT_RAPIDE = 0)
  | 1 => decide (nombre_voisins = 0) &&
      decide (cellule.compteur_mouvement % RYTHME_MOUVEMENT_LENT = 0)
  | 2 => decide (cellule.compteur_mouvement % RYTHME_MOUVEMENT_RAPIDE = 0)
  | 3 => (decide (nombre_voisins > 4) || decide (nombre_voisins = 0)) &&
      decide (cellule.compteur_mouvement % (RYTHME_MOUVEMENT_RAPIDE + 1) = 0)
  | _ => false

/-- The function `calculer_race_herite` of `ca.c`; returns the race and the advanced
generator. -/
def calculer_race_herite (parents : List CelluleEvolutive) (generateur : Nat) : Nat × Nat :=
  match parents with
  | [] => (RACE_EXPLORATRICE, generateur)
  | p0 :: reste =>
    let mixite_presente := reste.any (fun p => decide (p.race ≠ p0.race))
    let g := lcg generateur
    if mixite_presente ∧ g % 100 < MIXITE_GENETIQUE_CHANCE then (RACE_ADAPTATIVE, g)
    else if g % 100 < HERITAGE_RACE_PROBABILITE then (p0.race, g)
    else ((g / 256) % NOMBRE_RACES, g)

/-- The function `calculer_polarisation_herite` of `ca.c`; `variation` is
`(g % 5) - 2`, so `direction_moyenne + variation + 8` is `direction_moyenne + g % 5 + 6`. -/
def calculer_polarisation_herite (parents : List CelluleEvolutive) (generateur : Nat) :
    Nat × Nat :=
  if parents.length = 0 then (DIRECTION_NORD, generateur)
  else
    let somme_directions := (parents.map (fun p => p.polarisation)).sum
    let direction_moyenne := somme_directions / parents.length
    let g := lcg generateur
    ((direction_moyenne + g % 5 + 6) % NOMBRE_DIRECTIONS, g)

/-- The value of `base + m` in `uint32_t` arithmetic, where `int m = tirage - amplitude`
(the operand `m` is converted to `uint32_t` before the addition). -/
def ajouter_mutation_u32 (base tirage amplitude : Nat) : Nat :=
  (base + (tirage + 4294967296 - amplitude) % 4294967296) % 4294967296

/-- The expression `(v + m < 0) ? 0 : (v + m > 255) ? 255 : v + m` where `v` is a
`uint32_t` and `m` an `int`: both comparisons are made on the `uint32_t` sum. -/
def borner_mutation_u32 (base tirage amplitude : Nat) : Nat :=
  let somme := ajouter_mutation_u32 base tirage amplitude
  if somme < 0 then 0 else if somme > 255 then 255 else somme

/-- The function `calculer_age_herite` of `ca.c`; returns the age and the advanced
generator. -/
def calculer_age_herite (parents : List CelluleEvolutive) (generateur : Nat) : Nat × Nat :=
  if parents.length = 0 then (0, generateur)
  else
    let somme_ages := (parents.map (fun p => p.age)).sum % 4294967296
    let age_moyen_parents := somme_ages / parents.length
    let age_herite := (age_moyen_parents * FACTEUR_HEREDITE) % 4294967296 / 100
    let g := lcg generateur
    let age_mute :=
      if g % 100 < TAUX_MUTATION then
        let somme := ajouter_mutation_u32 age_herite ((g / 256) % (2 * VARIATION_MUTATION + 1))
          VARIATION_MUTATION
        if somme < 0 then 0 else somme
      else age_herite
    (if age_mute > 255 then 255 else age_mute, g)

/-! ## `mettre_a_jour_environnement` -/

/-- The index of the toroidal neighbour of `(ligne, colonne)` at offset
`(dl - 1, dc - 1)`: `((ligne + decalage_ligne + hauteur) % hauteur) * largeur +
(colonne + decalage_colonne + largeur) % largeur`. -/
def position_voisin (largeur hauteur ligne colonne dl dc : Nat) : Nat :=
  ((ligne + dl + hauteur - 1) % hauteur) * largeur + (colonne + dc + largeur - 1) % largeur

/-- The density loop of `mettre_a_jour_environnement`: number of live cells in the
toroidal 3x3 block around `(ligne, colonne)`, the cell itself included. -/
def densite_locale (actuelles : Grille) (largeur hauteur ligne colonne : Nat) : Nat :=
  boucle 3 (fun dy d => boucle 3 (fun dx d =>
    if (actuelles (position_voisin largeur hauteur ligne colonne dy dx)).vivante ≠ 0
    then d + 1 else d) d) 0

/-- The nutrient update of one environment cell, with `nutriments_max` an `int`
and the stores truncated to `uint8_t`. -/
def maj_nutriments (nutriments : Nat) (nutriments_max : Int) : Nat :=
  if (nutriments : Int) < nutriments_max then
    let n1 := (nutriments + REGENERATION_NUTRIMENTS) % 256
    if (n1 : Int) > nutriments_max then (nutriments_max % 256).toNat else n1
  else if (nutriments : Int) > nutriments_max then (nutriments + 255) % 256
  else nutriments

/-- The toxicity update of one environment cell. -/
def maj_toxicite (toxicite densite : Nat) : Nat :=
  if densite > 6 then ((densite - 6) * 20) % 256
  else if toxicite > 0 then (toxicite + 251) % 256 else 0

/-- The body of the two loops of `mettre_a_jour_environnement` for one cell. -/
def maj_environnement_cellule (F : Flottants) (largeur hauteur generation : Nat)
    (actuelles : Grille) (ligne colonne : Nat) (env : EnvironnementLocal) :
    EnvironnementLocal :=
  let densite := densite_locale actuelles largeur hauteur ligne colonne
  { env with
    nutriments := maj_nutriments env.nutriments (F.nutriments_max generation)
    pression_predation :=
      F.calculer_pression_predation generation colonne ligne largeur hauteur % 256
    pathogenes_present := F.calculer_pathogenes generation densite % 256
    competition_territoriale :=
      if densite > MIGRATION_PRESSURE_THRESHOLD then (densite * TERRITORIAL_COMPETITION) % 256
      else 0
    toxicite_locale := maj_toxicite env.toxicite_locale densite }

/-- The function `mettre_a_jour_environnement` of `ca.c`: the environment buffer after
the update. -/
def mettre_a_jour_environnement (F : Flottants) (largeur hauteur generation : Nat)
    (actuelles : Grille) (environnement : GrilleEnv) : GrilleEnv :=
  boucle hauteur (fun ligne e => boucle largeur (fun colonne e =>
    ecrire e (ligne * largeur + colonne)
      (maj_environnement_cellule F largeur hauteur generation actuelles ligne colonne
        (e (ligne * largeur + colonne)))) e) environnement

/-! ## `calculer_generation_suivante`: evaluation of one cell -/

/-- The neighbour scan of the cell pass: `nombre_voisins_vivants` and the array
`voisins_parents` (in scan order) of the live neighbours whose fertility exceeds 0.1. -/
def collecter_voisins (actuelles : Grille) (largeur hauteur ligne colonne : Nat) :
    Nat × List CelluleEvolutive :=
  boucle 3 (fun dl st => boucle 3 (fun dc st =>
    if dl = 1 ∧ dc = 1 then st
    else
      let voisin := actuelles (position_voisin largeur hauteur ligne colonne dl dc)
      if voisin.vivante ≠ 0 then
        (st.1 + 1,
          if fertilite_depasse_seuil voisin.age ∧ st.2.length < 8 then st.2 ++ [voisin]
          else st.2)
      else st) st) (0, [])

/-- What the cell pass holds for one cell when it leaves the loop body: the record
`*cellule_suivante`, the record `*environnement`, the generator and the population
counter. -/
structure Issue where
  cellule : CelluleEvolutive
  environnement : EnvironnementLocal
  generateur : Nat
  population : Nat
deriving DecidableEq

/-- The record `*cellule_suivante` at a `continue` of the survival branch: the five
fields written at the top of the loop body, with `age` and `sante` as last written. -/
def laisser_morte (s : CelluleEvolutive) (age sante : Nat) : CelluleEvolutive :=
  { s with vivante := 0, age := age, genotype_survie := 0, genotype_naissance := 0,
           sante := sante }

/-- The age written by `cellule_suivante->age = cellule_actuelle->age + increment_age`. -/
def vieillir (age : Nat) : Nat :=
  (age + (if age > ACCELERATION_VIEILLISSEMENT then FACTEUR_ACCELERATION else 1)) % 256

/-- The resource accounting of the survival branch: the nutrients left and the health
written to `cellule_suivante->sante`.  The debit `environnement->nutriments -=
consommation_base` is a store to a `uint8_t`. -/
def comptabiliser_ressources (nombre_voisins_vivants nutriments sante : Nat) : Nat × Nat :=
  if nombre_voisins_vivants ≥ SEUIL_COMPETITION then
    let ressources_disponibles := nutriments / (1 + nombre_voisins_vivants / 2)
    if ressources_disponibles ≥ CONSOMMATION_NUTRIMENTS then
      ((nutriments + 256 - CONSOMMATION_NUTRIMENTS) % 256,
        if sante > STRESS_COMPETITION then sante - STRESS_COMPETITION else sante)
    else (nutriments, if sante > 3 then sante - 3 else 0)
  else
    if nutriments ≥ CONSOMMATION_NUTRIMENTS then
      ((nutriments + 256 - CONSOMMATION_NUTRIMENTS) % 256,
        if sante < 100 then sante + 1 else 100)
    else (nutriments, if sante > 2 then sante - 2 else 0)

/-- The natural decline of health with age, past `FERTILITE_DECLIN`. -/
def declin_naturel (age sante : Nat) : Nat :=
  if age > FERTILITE_DECLIN then
    let perte_age := (age - FERTILITE_DECLIN) / 20
    if sante > perte_age then sante - perte_age else 0
  else sante

/-- The mask `masque_survie_adapte` of the rule evaluation.  For
`nombre_voisins_vivants = 0` the C expression `1u << (nombre_voisins_vivants - 1)` has a
negative shift count; the embedding takes the count modulo 32, as the x86 shift does. -/
def masque_survie_adapte (masque genotype_survie nombre_voisins_vivants : Nat) : Nat :=
  if genotype_survie > 128 then
    (masque ||| (1 <<< (nombre_voisins_vivants + 1))) % 65536
  else if genotype_survie < 64 then
    (masque &&& (4294967295 - 1 <<< ((nombre_voisins_vivants + 31) % 32))) % 65536
  else masque

/-- The rule evaluation at the end of the survival branch, from the point where every death
cause has been passed: the cell survives and is copied forward, or is left dead. -/
def appliquer_regle (masque_survie : Nat) (actuelle s : CelluleEvolutive)
    (env : EnvironnementLocal) (age sante generateur population nombre_voisins_vivants : Nat) :
    Issue :=
  if masque_survie_adapte masque_survie actuelle.genotype_survie nombre_voisins_vivants &&&
      (1 <<< nombre_voisins_vivants) ≠ 0 then
    { cellule :=
        { s with
          vivante := 1, age := age, sante := sante
          genotype_survie := actuelle.genotype_survie
          genotype_naissance := actuelle.genotype_naissance
          race := actuelle.race
          polarisation := actuelle.polarisation
          force_polarisation := actuelle.force_polarisation
          compteur_mouvement := (actuelle.compteur_mouvement + 1) % 256
          fitness_reproductif := actuelle.fitness_reproductif
          efficacite_energetique := actuelle.efficacite_energetique
          espece_id := actuelle.espece_id
          resistance_maladie := actuelle.resistance_maladie
          camouflage_predation := actuelle.camouflage_predation
          territorialite := actuelle.territorialite
          adaptabilite_stress := actuelle.adaptabilite_stress
          generation_naissance := actuelle.generation_naissance }
      environnement := env, generateur := generateur
      population := (population + 1) % 4294967296 }
  else ⟨laisser_morte s age sante, env, generateur, population⟩

/-- The shift count `nombre_voisins_vivants - 1` of the low-genotype branch of the rule
evaluation, an `int`. -/
def decalage_genotype_faible (nombre_voisins_vivants : Nat) : Int :=
  (nombre_voisins_vivants : Int) - 1

/-- The value `instabilite_totale` of the survival branch, from the age written to the next
record and the generation, on `uint32_t`. -/
def instabilite_totale (age generation : Nat) : Nat :=
  ((if age > SEUIL_INSTABILITE_AGE then (age - SEUIL_INSTABILITE_AGE) / 10 else 0) +
    (generation * INSTABILITE_GENERATION) % 4294967296 / 10000) % 4294967296

/-- The genetic-instability and forced-density checks, followed by the rule evaluation. -/
def evaluer_instabilite (masque_survie generation : Nat) (actuelle s : CelluleEvolutive)
    (env : EnvironnementLocal) (age sante generateur population nombre_voisins_vivants : Nat) :
    Issue :=
  let instabilite_totale :=
    ((if age > SEUIL_INSTABILITE_AGE then (age - SEUIL_INSTABILITE_AGE) / 10 else 0) +
      (generation * INSTABILITE_GENERATION) % 4294967296 / 10000) % 4294967296
  let g1 := lcg generateur
  if g1 % 1000 < instabilite_totale ∧ (g1 / 256) % 100 < 10 then
    ⟨laisser_morte s age sante, env, g1, population⟩
  else if nombre_voisins_vivants ≥ SEUIL_DENSITE_FATALE then
    let g2 := lcg g1
    if g2 % 100 < CHANCE_MORT_DENSITE then ⟨laisser_morte s age sante, env, g2, population⟩
    else appliquer_regle masque_survie actuelle s env age sante g2 population
      nombre_voisins_vivants
  else appliquer_regle masque_survie actuelle s env age sante g1 population
    nombre_voisins_vivants

/-- The survival branch of the cell pass (`if (cellule_actuelle->vivante)`). -/
def evaluer_survie (F : Flottants) (masque_survie generation : Nat)
    (actuelle s : CelluleEvolutive) (env : EnvironnementLocal)
    (generateur population nombre_voisins_vivants : Nat) : Issue :=
  let age := vieillir actuelle.age
  if age ≥ AGE_MAXIMUM then ⟨laisser_morte s age 0, env, generateur, population⟩
  else
    let r := comptabiliser_ressources nombre_voisins_vivants env.nutriments actuelle.sante
    let env1 := { env with nutriments := r.1 }
    let sante1 := declin_naturel age r.2
    let g1 := if env1.pathogenes_present > 0 then lcg generateur else generateur
    if env1.pathogenes_present > 0 ∧
        F.meurt_de_maladie actuelle.resistance_maladie env1.pathogenes_present (g1 % 1000) then
      ⟨laisser_morte s age sante1, env1, g1, population⟩
    else
      let g2 := if env1.pression_predation > 0 then lcg g1 else g1
      if env1.pression_predation > 0 ∧
          F.meurt_de_predation actuelle.camouflage_predation env1.pression_predation
            (g2 % 1000) then
        ⟨laisser_morte s age sante1, env1, g2, population⟩
      else
        let sante2 :=
          if env1.toxicite_locale > 100 then (if sante1 > 2 then sante1 - 2 else 0) else sante1
        if sante2 < 1 then ⟨laisser_morte s age sante2, env1, g2, population⟩
        else evaluer_instabilite masque_survie generation actuelle s env1 age sante2 g2
          population nombre_voisins_vivants

/-- The loop `for (i...) somme += parents[i]->champ;` on a `uint8_t` accumulator. -/
def somme_u8 (valeurs : List Nat) : Nat :=
  valeurs.foldl (fun somme v => (somme + v) % 256) 0

/-- The loop `for (i...) somme += parents[i]->champ;` on a `uint32_t` accumulator. -/
def somme_u32 (valeurs : List Nat) : Nat :=
  valeurs.foldl (fun somme v => (somme + v) % 4294967296) 0

/-- The expression `(v + m < 0) ? 0 : (v + m > 255) ? 255 : v + m` where `v` is a
`uint8_t` (promoted to `int`) and `int m = tirage - 20`. -/
def borner_mutation_genotype (genotype tirage : Nat) : Nat :=
  let somme : Int := (genotype : Int) + ((tirage : Int) - 20)
  if somme < 0 then 0 else if somme > 255 then 255 else somme.toNat

/-- The birth branch of the cell pass from the point where the birth is decided
(`cellule_suivante->vivante = 1`) up to the dispersal check, with `p0 :: reste` the
fertile parents: the record `*cellule_suivante` and the generator at that point. -/
def heriter_traits (F : Flottants) (largeur hauteur generation ligne colonne : Nat)
    (p0 : CelluleEvolutive) (reste : List CelluleEvolutive) (s : CelluleEvolutive)
    (env : EnvironnementLocal) (generateur nombre_voisins_vivants : Nat) :
    CelluleEvolutive × Nat :=
  let parents := p0 :: reste
  let nombre_parents_fertiles := parents.length
  let age := calculer_age_herite parents generateur
  let race := calculer_race_herite parents age.2
  let polarisation := calculer_polarisation_herite parents race.2
  let g0 := polarisation.2
  let force_polarisation := (FORCE_POLARISATION_INITIALE + g0 % 64) % 256
  let fitness_herite :=
    somme_u32 (parents.map (fun p => p.fitness_reproductif)) / nombre_parents_fertiles
  let efficacite_herite :=
    somme_u32 (parents.map (fun p => p.efficacite_energetique)) / nombre_parents_fertiles
  let taux_mutation_adaptatif :=
    (BASE_MUTATION_RATE + F.mutation_stress env.pathogenes_present env.pression_predation
      env.toxicite_locale nombre_voisins_vivants % 4294967296) % 4294967296
  let g1 := lcg g0
  let fitness_mute :=
    if g1 % 100 < taux_mutation_adaptatif then
      borner_mutation_u32 fitness_herite ((g1 / 256) % 21) 10
    else fitness_herite
  let g2 := lcg g1
  let efficacite_mutee :=
    if g2 % 100 < taux_mutation_adaptatif then
      borner_mutation_u32 efficacite_herite ((g2 / 256) % 21) 10
    else efficacite_herite
  let resistance_moyenne :=
    somme_u32 (parents.map (fun p => p.resistance_maladie)) / nombre_parents_fertiles
  let g3 := lcg g2
  let resistance_mutee :=
    if g3 % 100 < RESISTANCE_EVOLUTION_RATE then
      borner_mutation_u32 resistance_moyenne ((g3 / 256) % 31) 15
    else resistance_moyenne
  let camouflage_moyen :=
    somme_u32 (parents.map (fun p => p.camouflage_predation)) / nombre_parents_fertiles
  let g4 := lcg g3
  let camouflage_mute :=
    if g4 % 100 < taux_mutation_adaptatif then
      borner_mutation_u32 camouflage_moyen ((g4 / 256) % 21) 10
    else camouflage_moyen
  ({ s with
      vivante := 1, age := age.1, genotype_survie := 0, genotype_naissance := 0, sante := 0
      race := race.1
      polarisation := polarisation.1
      force_polarisation := force_polarisation
      compteur_mouvement := 0
      fitness_reproductif := fitness_mute % 256
      efficacite_energetique := efficacite_mutee % 256
      resistance_maladie := resistance_mutee % 256
      camouflage_predation := camouflage_mute % 256
      territorialite := ajouter_mutation_u32 p0.territorialite (g4 % 21) 10 % 256
      adaptabilite_stress := ajouter_mutation_u32 p0.adaptabilite_stress ((g4 / 256) % 21) 10 % 256
      generation_naissance := generation % 256
      espece_id := determiner_espece nombre_parents_fertiles colonne ligne largeur hauteur },
    g4)

/-- The genotype inheritance of a confirmed birth: the two genotypes written and the
advanced generator. -/
def heriter_genotypes (parents : List CelluleEvolutive) (generateur nombre_voisins_vivants : Nat) :
    Nat × Nat × Nat :=
  let nombre_parents_fertiles := parents.length
  let genotype_moyen_survie :=
    somme_u8 (parents.map (fun p => p.genotype_survie)) / nombre_parents_fertiles
  let genotype_moyen_naissance :=
    somme_u8 (parents.map (fun p => p.genotype_naissance)) / nombre_parents_fertiles
  let taux_mutation_local :=
    if nombre_voisins_vivants ≥ SEUIL_COMPETITION then TAUX_MUTATION * 2 else TAUX_MUTATION
  let g := lcg generateur
  if g % 100 < taux_mutation_local then
    (borner_mutation_genotype genotype_moyen_survie ((g / 256) % 41),
      borner_mutation_genotype genotype_moyen_naissance ((g / 65536) % 41), g)
  else (genotype_moyen_survie, genotype_moyen_naissance, g)

/-- The birth branch of the cell pass from the point where the birth is decided: trait
inheritance, dispersal check, then genotypes, health, nutrient debit and population. -/
def faire_naitre (F : Flottants) (largeur hauteur generation ligne colonne : Nat)
    (p0 : CelluleEvolutive) (reste : List CelluleEvolutive) (s : CelluleEvolutive)
    (env : EnvironnementLocal) (generateur population nombre_voisins_vivants : Nat) : Issue :=
  let h := heriter_traits F largeur hauteur generation ligne colonne p0 reste s env generateur
    nombre_voisins_vivants
  if nombre_voisins_vivants ≥ 3 ∧ lcg h.2 % 100 < 60 then
    ⟨{ h.1 with vivante := 0 }, env, lcg h.2, population⟩
  else
    let gt := heriter_genotypes (p0 :: reste)
      (if nombre_voisins_vivants ≥ 3 then lcg h.2 else h.2) nombre_voisins_vivants
    { cellule :=
        { h.1 with genotype_survie := gt.1, genotype_naissance := gt.2.1, sante := 50 }
      environnement :=
        { env with nutriments := (env.nutriments + 256 - CONSOMMATION_NUTRIMENTS * 2) % 256 }
      generateur := gt.2.2
      population := (population + 1) % 4294967296 }

/-- The birth branch of the cell pass (`else` of `if (cellule_actuelle->vivante)`). -/
def evaluer_naissance (F : Flottants) (largeur hauteur masque_naissance generation : Nat)
    (ligne colonne : Nat) (parents : List CelluleEvolutive) (s : CelluleEvolutive)
    (env : EnvironnementLocal) (generateur population nombre_voisins_vivants : Nat) : Issue :=
  match parents with
  | [] => ⟨laisser_morte s 0 0, env, generateur, population⟩
  | p0 :: reste =>
    if env.nutriments ≥ CONSOMMATION_NUTRIMENTS * 2 then
      let g := lcg generateur
      if masque_naissance &&& (1 <<< nombre_voisins_vivants) ≠ 0 ∧
          F.naissance_probable (p0 :: reste) colonne ligne generation largeur hauteur
            (g % 1000) then
        faire_naitre F largeur hauteur generation ligne colonne p0 reste s env g population
          nombre_voisins_vivants
      else ⟨laisser_morte s 0 0, env, g, population⟩
    else ⟨laisser_morte s 0 0, env, generateur, population⟩

/-- The body of the two loops of the cell pass for the cell `(ligne, colonne)`:
from the stale record `s` of the next buffer, the local environment, the generator and
the population counter to their values at the end of the body. -/
def evaluer_cellule (F : Flottants) (largeur hauteur masque_naissance masque_survie
    generation : Nat) (actuelles : Grille) (ligne colonne : Nat) (s : CelluleEvolutive)
    (env : EnvironnementLocal) (generateur population : Nat) : Issue :=
  let voisins := collecter_voisins actuelles largeur hauteur ligne colonne
  let actuelle := actuelles (ligne * largeur + colonne)
  if actuelle.vivante ≠ 0 then
    evaluer_survie F masque_survie generation actuelle s env generateur population voisins.1
  else
    evaluer_naissance F largeur hauteur masque_naissance generation ligne colonne voisins.2 s
      env generateur population voisins.1

/-! ## `calculer_generation_suivante`: the passes and the step -/

/-- The variables that the cell pass updates: the next buffer, the environment buffer,
the local `generateur` and `automate->population_totale`. -/
structure EtatPasse where
  suivantes : Grille
  environnement : GrilleEnv
  generateur : Nat
  population : Nat

/-- The body of the two loops of the cell pass, on the buffers. -/
def traiter_cellule (F : Flottants) (largeur hauteur masque_naissance masque_survie
    generation : Nat) (actuelles : Grille) (ligne colonne : Nat) (st : EtatPasse) : EtatPasse :=
  let position_cellule := ligne * largeur + colonne
  let r := evaluer_cellule F largeur hauteur masque_naissance masque_survie generation
    actuelles ligne colonne (st.suivantes position_cellule) (st.environnement position_cellule)
    st.generateur st.population
  { suivantes := ecrire st.suivantes position_cellule r.cellule
    environnement := ecrire st.environnement position_cellule r.environnement
    generateur := r.generateur
    population := r.population }

/-- The cell pass (step 2 of `calculer_generation_suivante`). -/
def passe_cellules (F : Flottants) (largeur hauteur masque_naissance masque_survie
    generation : Nat) (actuelles : Grille) (st : EtatPasse) : EtatPasse :=
  boucle hauteur (fun ligne st => boucle largeur (fun colonne st =>
    traiter_cellule F largeur hauteur masque_naissance masque_survie generation actuelles
      ligne colonne st) st) st

/-- The record left at the old position of a relocated cell. -/
def vider_position (cellule : CelluleEvolutive) : CelluleEvolutive :=
  { cellule with vivante := 0, age := 0, sante := 0, race := RACE_EXPLORATRICE,
                 polarisation := DIRECTION_NORD, force_polarisation := 0,
                 compteur_mouvement := 0 }

/-- The body of the two loops of the movement pass for the cell `(ligne, colonne)`, on
the current buffer (after the exchange) and the generator. -/
def deplacer_cellule (largeur hauteur ligne colonne : Nat) (st : Grille × Nat) : Grille × Nat :=
  let position_cellule := ligne * largeur + colonne
  let cellule := st.1 position_cellule
  if cellule.vivante ≠ 0 ∧ doit_se_deplacer cellule 0 then
    let delta := obtenir_coordonnees_direction cellule.polarisation
    let nouvelle_ligne := (ligne + delta.2 + hauteur - 1) % hauteur
    let nouvelle_colonne := (colonne + delta.1 + largeur - 1) % largeur
    let nouvelle_position := nouvelle_ligne * largeur + nouvelle_colonne
    if (st.1 nouvelle_position).vivante = 0 then
      let g := lcg st.2
      if g % 100 < 30 then
        (ecrire (ecrire st.1 nouvelle_position cellule) position_cellule
          (vider_position cellule), g)
      else (st.1, g)
    else st
  else st

/-- The index `nouvelle_position` of the movement pass for a cell at `(ligne, colonne)`
with the given polarisation. -/
def destination_mouvement (largeur hauteur ligne colonne polarisation : Nat) : Nat :=
  ((ligne + (obtenir_coordonnees_direction polarisation).2 + hauteur - 1) % hauteur) * largeur +
    (colonne + (obtenir_coordonnees_direction polarisation).1 + largeur - 1) % largeur

/-- The movement pass (step 4 of `calculer_generation_suivante`). -/
def passe_mouvement (largeur hauteur : Nat) (st : Grille × Nat) : Grille × Nat :=
  boucle hauteur (fun ligne st => boucle largeur (fun colonne st =>
    deplacer_cellule largeur hauteur ligne colonne st) st) st

/-- The grid and the generator of the movement pass when its scan (rows from 0, columns
from 0 within a row) has handled the first `k` cells: the body `deplacer_cellule` applied
to the cells of index `0` to `k - 1`, where the cell of index `i` is the one of row
`i / largeur`, column `i % largeur`. -/
def etat_mouvement (largeur hauteur : Nat) (st : Grille × Nat) (k : Nat) : Grille × Nat :=
  boucle k (fun i st => deplacer_cellule largeur hauteur (i / largeur) (i % largeur) st) st

/-- The seed of the step: `generation_actuelle * 0x9E3779B9` on `uint32_t`. -/
def graine_generation (generation : Nat) : Nat := (generation * 0x9E3779B9) % 4294967296

/-- The function `calculer_generation_suivante` of `ca.c`: the state that a call leaves
when it returns.  With both buffers present the call starts with
`mettre_a_jour_environnement`, and returns only if that call does (see
`mettre_a_jour_environnement_retourne`). -/
def calculer_generation_suivante (F : Flottants) (a : AutomateCellulaire) :
    AutomateCellulaire :=
  match a.grille_cellules_actuelles, a.grille_cellules_suivantes with
  | some actuelles, some suivantes =>
    let largeur := a.largeur_grille
    let hauteur := a.hauteur_grille
    let generateur := graine_generation a.generation_actuelle
    let environnement := mettre_a_jour_environnement F largeur hauteur a.generation_actuelle
      actuelles a.grille_environnement
    let st := passe_cellules F largeur hauteur a.masque_conditions_naissance
      a.masque_conditions_survie a.generation_actuelle actuelles
      ⟨suivantes, environnement, generateur, 0⟩
    let m :=
      if a.generation_actuelle % 10 = 0 then passe_mouvement largeur hauteur
        (st.suivantes, st.generateur)
      else (st.suivantes, st.generateur)
    { a with
      grille_cellules_actuelles := some m.1
      grille_cellules_suivantes := some actuelles
      grille_environnement := st.environnement
      population_totale := st.population
      generation_actuelle := (a.generation_actuelle + 1) % 4294967296 }
  | _, _ => a

/-- The number of cells of a buffer of `n` cells with `vivante != 0`. -/
def compter_vivantes (g : Grille) (n : Nat) : Nat :=
  boucle n (fun i k => if (g i).vivante ≠ 0 then k + 1 else k) 0

/-- The automaton after `n` calls of `calculer_generation_suivante`. -/
def iterer (F : Flottants) (n : Nat) (a : AutomateCellulaire) : AutomateCellulaire :=
  match n with
  | 0 => a
  | k + 1 => calculer_generation_suivante F (iterer F k a)

/-- The variables of the cell pass at its end, in a step of `a` on the buffers
`actuelles` and `suivantes`. -/
def etat_apres_passe (F : Flottants) (a : AutomateCellulaire) (actuelles suivantes : Grille) :
    EtatPasse :=
  passe_cellules F a.largeur_grille a.hauteur_grille a.masque_conditions_naissance
    a.masque_conditions_survie a.generation_actuelle actuelles
    ⟨suivantes, mettre_a_jour_environnement F a.largeur_grille a.hauteur_grille
      a.generation_actuelle actuelles a.grille_environnement,
      graine_generation a.generation_actuelle, 0⟩

/-- The current buffer at the end of a step of `a` on the buffers `actuelles` and
`suivantes`: the buffer written by the cell pass, after the movement pass when it runs. -/
def grille_apres_mouvement (F : Flottants) (a : AutomateCellulaire)
    (actuelles suivantes : Grille) : Grille :=
  if a.generation_actuelle % 10 = 0 then
    (passe_mouvement a.largeur_grille a.hauteur_grille
      ((etat_apres_passe F a actuelles suivantes).suivantes,
        (etat_apres_passe F a actuelles suivantes).generateur)).1
  else (etat_apres_passe F a actuelles suivantes).suivantes

/-! ## The initialisers -/

/-- The function `calculer_seuil_probabilite` of `ca.c`: `(0xFFFFFFFFu / 100) *
densite_pourcentage` on `uint32_t`, the `int` argument being converted to `uint32_t`. -/
def calculer_seuil_probabilite (densite_pourcentage : Int) : Nat :=
  (((4294967295 / 100 : Nat) : Int) * densite_pourcentage % 4294967296).toNat

/-- The three buffers that `nettoyer_grille` writes; the next buffer is written through a
pointer that the initialisers do not test. -/
structure Tampons where
  actuelles : Grille
  suivantes : Option Grille
  environnement : GrilleEnv

/-- The function `nettoyer_grille` of `ca.c`.  The C code dereferences the next buffer
without a test; the embedding leaves an absent next buffer absent. -/
def nettoyer_grille (largeur hauteur : Nat) (t : Tampons) : Tampons :=
  boucle (largeur * hauteur) (fun i t =>
    { actuelles := ecrire t.actuelles i cellule_defaut
      suivantes := t.suivantes.map (fun g => ecrire g i cellule_defaut)
      environnement := ecrire t.environnement i environnement_defaut }) t

/-- The generator `(graine_aleatoire != 0) ? graine_aleatoire : 0x12345678`. -/
def graine_effective (graine_aleatoire : Nat) : Nat :=
  if graine_aleatoire ≠ 0 then graine_aleatoire else 0x12345678

/-- The record written to a cell that the uniform or the centre-weighted initialiser makes
alive, from the generator value `g` that selected it, and the generator after the
second draw. -/
def cellule_initiale (g colonne ligne largeur hauteur : Nat) (c : CelluleEvolutive) :
    CelluleEvolutive × Nat :=
  let g2 := lcg g
  ({ c with
      vivante := 1
      age := FERTILITE_DEBUT + g % (FERTILITE_OPTIMALE - FERTILITE_DEBUT)
      genotype_survie := 100 + g % 56
      genotype_naissance := 100 + (g / 256) % 56
      sante := 50
      race := g % NOMBRE_RACES
      polarisation := (g / 16) % NOMBRE_DIRECTIONS
      force_polarisation := FORCE_POLARISATION_INITIALE + g % 64
      compteur_mouvement := g % RYTHME_MOUVEMENT_LENT
      fitness_reproductif := 30 + g % 40
      efficacite_energetique := 80 + g % 80
      espece_id := determiner_espece 0 colonne ligne largeur hauteur
      resistance_maladie := 80 + g2 % 50
      camouflage_predation := 70 + (g2 / 256) % 60
      territorialite := 60 + (g2 / 65536) % 70
      adaptabilite_stress := 85 + (g2 / 16777216) % 40
      generation_naissance := 0 },
    g2)

/-- The body of the two loops of `initialiser_grille_uniforme` and of
`initialiser_grille_centre` for the cell `(ligne, colonne)`, with the threshold `seuil` of
that cell, on the current buffer and the generator. -/
def semer_cellule (largeur hauteur seuil ligne colonne : Nat) (st : Grille × Nat) :
    Grille × Nat :=
  let g := lcg st.2
  if g < seuil then
    let r := cellule_initiale g colonne ligne largeur hauteur (st.1 (ligne * largeur + colonne))
    (ecrire st.1 (ligne * largeur + colonne) r.1, r.2)
  else (st.1, g)

/-- The function `initialiser_grille_uniforme` of `ca.c`. -/
def initialiser_grille_uniforme (a : AutomateCellulaire) (graine_aleatoire : Nat) :
    AutomateCellulaire :=
  match a.grille_cellules_actuelles with
  | none => a
  | some actuelles =>
    let largeur := a.largeur_grille
    let hauteur := a.hauteur_grille
    let t := nettoyer_grille largeur hauteur
      ⟨actuelles, a.grille_cellules_suivantes, a.grille_environnement⟩
    let densite := (DENSITE_MINIMUM + DENSITE_MAXIMUM) / 2
    let seuil := calculer_seuil_probabilite densite
    let st := boucle hauteur (fun ligne st => boucle largeur (fun colonne st =>
      semer_cellule largeur hauteur seuil ligne colonne st) st)
      (t.actuelles, graine_effective graine_aleatoire)
    { a with
      grille_cellules_actuelles := some st.1
      grille_cellules_suivantes := t.suivantes
      grille_environnement := t.environnement }

/-- The function `initialiser_grille_centre` of `ca.c`; the `float` part of the density is
the field `reduction_densite` of `Flottants`. -/
def initialiser_grille_centre (F : Flottants) (a : AutomateCellulaire)
    (graine_aleatoire : Nat) : AutomateCellulaire :=
  match a.grille_cellules_actuelles with
  | none => a
  | some actuelles =>
    let largeur := a.largeur_grille
    let hauteur := a.hauteur_grille
    let t := nettoyer_grille largeur hauteur
      ⟨actuelles, a.grille_cellules_suivantes, a.grille_environnement⟩
    let st := boucle hauteur (fun ligne st => boucle largeur (fun colonne st =>
      semer_cellule largeur hauteur
        (calculer_seuil_probabilite
          ((DENSITE_MAXIMUM : Int) - F.reduction_densite colonne ligne largeur hauteur))
        ligne colonne st) st)
      (t.actuelles, graine_effective graine_aleatoire)
    { a with
      grille_cellules_actuelles := some st.1
      grille_cellules_suivantes := t.suivantes
      grille_environnement := t.environnement }

/-- The second generator step of the clustered initialiser:
`generateur_2 * 1664525u + 1013904223u` on `uint32_t`. -/
def lcg2 (g : Nat) : Nat := (g * 1664525 + 1013904223) % 4294967296

/-- The threshold `seuil_probabilite` of the clustered initialiser before the neighbour
bonus: `seuil_base + (variation_max * (largeur + hauteur - distance_totale)) /
(largeur + hauteur)`, every operation on `uint32_t`. -/
def seuil_clusters (largeur hauteur ligne colonne : Nat) : Nat :=
  let seuil_base := calculer_seuil_probabilite DENSITE_MINIMUM
  let variation_max :=
    (calculer_seuil_probabilite DENSITE_MAXIMUM + 4294967296 - seuil_base) % 4294967296
  let distance_totale := distance_centre colonne largeur + distance_centre ligne hauteur
  (seuil_base +
    (variation_max * ((largeur + hauteur - distance_totale) % 4294967296)) % 4294967296 /
      ((largeur + hauteur) % 4294967296)) % 4294967296

/-- The body of the neighbour loop of the clustered initialiser for the offset
`(dy - 1, dx - 1)`: the count `n` is incremented when the neighbour is in bounds and has
`vivante == 1`. -/
def compter_voisin_vivant (actuelles : Grille) (largeur hauteur ligne colonne dy dx n : Nat) :
    Nat :=
  if dx = 1 ∧ dy = 1 then n
  else if 1 ≤ colonne + dx ∧ colonne + dx - 1 < largeur ∧
      1 ≤ ligne + dy ∧ ligne + dy - 1 < hauteur then
    if (actuelles ((ligne + dy - 1) * largeur + (colonne + dx - 1))).vivante = 1 then n + 1
    else n
  else n

/-- The neighbour loop of the clustered initialiser: the number of in-bounds Moore
neighbours of `(ligne, colonne)` with `vivante == 1`. -/
def voisins_deja_vivants (actuelles : Grille) (largeur hauteur ligne colonne : Nat) : Nat :=
  boucle 3 (fun dy n => boucle 3 (fun dx n =>
    compter_voisin_vivant actuelles largeur hauteur ligne colonne dy dx n) n) 0

/-- The body of the two loops of `initialiser_grille_clusters` for the cell
`(ligne, colonne)`, on the current buffer and the two generators. -/
def semer_cluster (largeur hauteur ligne colonne : Nat) (st : Grille × Nat × Nat) :
    Grille × Nat × Nat :=
  let g1 := lcg st.2.1
  let g2 := lcg2 st.2.2
  let seuil_avant_bonus := seuil_clusters largeur hauteur ligne colonne
  let seuil_probabilite :=
    if voisins_deja_vivants st.1 largeur hauteur ligne colonne > 0 then
      (seuil_avant_bonus + calculer_seuil_probabilite BONUS_CLUSTERING) % 4294967296
    else seuil_avant_bonus
  let valeur_combinee := ((g1 ^^^ (g2 / 8)) + (ligne * 7 + colonne * 11)) % 4294967296
  if valeur_combinee < seuil_probabilite then
    (ecrire st.1 (ligne * largeur + colonne)
      { st.1 (ligne * largeur + colonne) with
        vivante := 1
        age := FERTILITE_DEBUT + g1 % (FERTILITE_OPTIMALE - FERTILITE_DEBUT)
        genotype_survie := 100 + g1 % 56
        genotype_naissance := 100 + (g2 / 256) % 56
        sante := 50 },
      g1, g2)
  else (st.1, g1, g2)

/-- The function `initialiser_grille_clusters` of `ca.c`. -/
def initialiser_grille_clusters (a : AutomateCellulaire) (graine_aleatoire : Nat) :
    AutomateCellulaire :=
  match a.grille_cellules_actuelles with
  | none => a
  | some actuelles =>
    let largeur := a.largeur_grille
    let hauteur := a.hauteur_grille
    let generateur_1 := graine_effective graine_aleatoire
    let generateur_2 := generateur_1 ^^^ 0x9ABCDEF0
    let t := nettoyer_grille largeur hauteur
      ⟨actuelles, a.grille_cellules_suivantes, a.grille_environnement⟩
    let st := boucle hauteur (fun ligne st => boucle largeur (fun colonne st =>
      semer_cluster largeur hauteur ligne colonne st) st)
      (t.actuelles, generateur_1, generateur_2)
    { a with
      grille_cellules_actuelles := some st.1
      grille_cellules_suivantes := t.suivantes
      grille_environnement := t.environnement }

/-- Values of `enum TypeInitialisation`. -/
def INIT_ALEATOIRE_UNIFORME : Nat := 0
def INIT_ALEATOIRE_CENTRE : Nat := 1
def INIT_ALEATOIRE_CLUSTERS : Nat := 2

/-- The function `initialiser_grille_selon_type` of `ca.c`. -/
def initialiser_grille_selon_type (F : Flottants) (a : AutomateCellulaire) (type : Nat)
    (graine_aleatoire : Nat) : AutomateCellulaire :=
  match type with
  | 0 => initialiser_grille_uniforme a graine_aleatoire
  | 1 => initialiser_grille_centre F a graine_aleatoire
  | 2 => initialiser_grille_clusters a graine_aleatoire
  | _ => initialiser_grille_clusters a graine_aleatoire

/-- The function `initialiser_grille_aleatoire` of `ca.c`. -/
def initialiser_grille_aleatoire (a : AutomateCellulaire) (graine_aleatoire : Nat) :
    AutomateCellulaire :=
  initialiser_grille_clusters a graine_aleatoire

/-! ## Predicates used in the statements -/

/-- The population counter of an issue is the counter `pop` before the cell, plus one
(on `uint32_t`) exactly when the cell written is alive. -/
def compte_juste (pop : Nat) (r : Issue) : Prop :=
  r.population = if r.cellule.vivante ≠ 0 then (pop + 1) % 4294967296 else pop

/-- Two cell records agree on liveness, and on every field when alive. -/
def cellules_equivalentes (c d : CelluleEvolutive) : Prop :=
  c.vivante = d.vivante ∧ (c.vivante ≠ 0 → c = d)

/-- Two issues agree on the environment, the generator and the population counter, and
their cells are equivalent. -/
def issues_equivalentes (r1 r2 : Issue) : Prop :=
  cellules_equivalentes r1.cellule r2.cellule ∧ r1.environnement = r2.environnement ∧
    r1.generateur = r2.generateur ∧ r1.population = r2.population

/-- Both cell buffers are present and no cell of the current grid is alive. -/
def tous_morts (a : AutomateCellulaire) : Prop :=
  ∃ actuelles suivantes, a.grille_cellules_actuelles = some actuelles ∧
    a.grille_cellules_suivantes = some suivantes ∧
    ∀ i, i < a.largeur_grille * a.hauteur_grille → (actuelles i).vivante = 0

/-- Two states of the cell pass on a buffer of `n` cells, `k` of them visited: same
generator, same population counter, same environment, and equivalent records at the
visited cells of the next buffer. -/
def etats_equivalents (n k : Nat) (x y : EtatPasse) : Prop :=
  x.generateur = y.generateur ∧ x.population = y.population ∧
    (∀ i, i < n → x.environnement i = y.environnement i) ∧
    (∀ i, i < k → cellules_equivalentes (x.suivantes i) (y.suivantes i))

/-- The cell of an issue is dead and its record holds the given age. -/
def morte_a_l_age (age : Nat) (r : Issue) : Prop :=
  r.cellule.vivante = 0 ∧ r.cellule.age = age

/-- The state after an initialiser, on a buffer of `n` cells: the environment and the
next buffer hold the reset records, and every dead cell of the current buffer holds the
reset record. -/
def reinitialise (n : Nat) (r : AutomateCellulaire) : Prop :=
  (∀ i, i < n → r.grille_environnement i = environnement_defaut) ∧
  (∃ gs, r.grille_cellules_suivantes = some gs ∧ ∀ i, i < n → gs i = cellule_defaut) ∧
  (∃ ga, r.grille_cellules_actuelles = some ga ∧
    ∀ i, i < n → (ga i).vivante = 0 → ga i = cellule_defaut)

/-- Two automata hold the same records in the first `n` cells of their current buffers. -/
def memes_cellules (n : Nat) (r1 r2 : AutomateCellulaire) : Prop :=
  ∃ g1 g2, r1.grille_cellules_actuelles = some g1 ∧ r2.grille_cellules_actuelles = some g2 ∧
    ∀ i, i < n → g1 i = g2 i

/-- A record as the clustered initialiser leaves a cell it made alive: age in 5..29, both
genotypes in 100..155, health 50, and the reset value in every other field. -/
def cellule_de_cluster (c : CelluleEvolutive) : Prop :=
  c.vivante = 1 ∧ 5 ≤ c.age ∧ c.age ≤ 29 ∧
  100 ≤ c.genotype_survie ∧ c.genotype_survie ≤ 155 ∧
  100 ≤ c.genotype_naissance ∧ c.genotype_naissance ≤ 155 ∧ c.sante = 50 ∧
  c.race = RACE_EXPLORATRICE ∧ c.polarisation = DIRECTION_NORD ∧ c.force_polarisation = 0 ∧
  c.compteur_mouvement = 0 ∧ c.fitness_reproductif = 50 ∧ c.efficacite_energetique = 128 ∧
  c.espece_id = 0 ∧ c.resistance_maladie = 100 ∧ c.camouflage_predation = 100 ∧
  c.territorialite = 100 ∧ c.adaptabilite_stress = 100 ∧ c.generation_naissance = 0

/-- The generator of the uniform initialiser after `k` cells, as the specification
describes it: from `g0`, stepped once per cell, and once more after each cell whose draw is
below the threshold `seuil`. -/
def generateur_apres_cellules (seuil g0 : Nat) : Nat → Nat
  | 0 => g0
  | k + 1 =>
    if lcg (generateur_apres_cellules seuil g0 k) < seuil then
      lcg (lcg (generateur_apres_cellules seuil g0 k))
    else lcg (generateur_apres_cellules seuil g0 k)

/-- The issue `r` of the survival branch holds a dead record, or the record `actuelle`
with the live flag 1, the age `age`, the health that the branch computed and the
movement counter incremented on `uint8_t`. -/
def survivante_copiee (actuelle : CelluleEvolutive) (age : Nat) (r : Issue) : Prop :=
  r.cellule.vivante ≠ 0 →
    r.cellule =
      { actuelle with
        vivante := 1, age := age, sante := r.cellule.sante
        compteur_mouvement := (actuelle.compteur_mouvement + 1) % 256 }

/-- The issue `r` holds the environment record `env` with at most its nutrients changed,
to a value that is not above that of `env` and at most 2 below it. -/
def environnement_debite (env : EnvironnementLocal) (r : Issue) : Prop :=
  r.environnement = { env with nutriments := r.environnement.nutriments } ∧
  r.environnement.nutriments ≤ env.nutriments ∧
  env.nutriments ≤ r.environnement.nutriments + 2

/-- The automaton `r` has the generation counter, the population counter, the masks, the
rule text and the dimensions of `a`. -/
def memes_parametres (a r : AutomateCellulaire) : Prop :=
  r.generation_actuelle = a.generation_actuelle ∧
  r.population_totale = a.population_totale ∧
  r.masque_conditions_naissance = a.masque_conditions_naissance ∧
  r.masque_conditions_survie = a.masque_conditions_survie ∧
  r.regles_format_texte = a.regles_format_texte ∧
  r.largeur_grille = a.largeur_grille ∧
  r.hauteur_grille = a.hauteur_grille

/-- The automaton `r` is the result of one of the five initialisation functions of `ca.h`
on `a`, for some seed. -/
def issu_d_un_initialiseur (F : Flottants) (a r : AutomateCellulaire) : Prop :=
  ∃ graine, r = initialiser_grille_uniforme a graine ∨
    r = initialiser_grille_centre F a graine ∨
    r = initialiser_grille_clusters a graine ∨
    r = initialiser_grille_aleatoire a graine ∨
    ∃ type, r = initialiser_grille_selon_type F a type graine

/-- The health of a record is in 0..100, and at least 1 when the record is alive. -/
def sante_valide (c : CelluleEvolutive) : Prop :=
  c.sante ≤ 100 ∧ (c.vivante ≠ 0 → 1 ≤ c.sante)

/-- Both cell buffers are present; in the first `n` records, the current buffer holds
valid healths and the next buffer holds healths of at most 100. -/
def sante_dans_les_bornes (n : Nat) (a : AutomateCellulaire) : Prop :=
  ∃ ga gs, a.grille_cellules_actuelles = some ga ∧ a.grille_cellules_suivantes = some gs ∧
    ∀ i, i < n → sante_valide (ga i) ∧ (gs i).sante ≤ 100

/-- The toxicity of an environment record is a multiple of 5 and at most 60. -/
def toxicite_valide (e : EnvironnementLocal) : Prop :=
  e.toxicite_locale % 5 = 0 ∧ e.toxicite_locale ≤ 60

/-! ## Concrete inputs -/

/-- The distance of a coordinate of a 4-wide grid to the nearest edge: `x` when
`x < 4 / 2` and `4 - x` otherwise. -/
def distance_bord_4 (x : Nat) : Nat := if x < 2 then x else 4 - x

/-- The value `(int)((DENSITE_MAXIMUM - DENSITE_MINIMUM) * distance_normalisee)` of
`initialiser_grille_centre` on a 4x4 grid.  There `largeur / 2 = hauteur / 2 = 2`, so
`distance_x` and `distance_y` are 0, 0.5 or 1, `distance_normalisee` is `k / 4` with `k`
the sum of the two integer distances to the centre (0 to 4), and the product
`65 * k / 4` is 0, 16.25, 32.5, 48.75 or 65: every operand and result is a binary
fraction of a few bits, so the `float` operations are exact, and the conversion to `int`
gives 0, 16, 32, 48 or 65 (`reduction_densite_binaire32` on the 16 cells). -/
def reduction_densite_4 (colonne ligne : Nat) : Nat :=
  ((DENSITE_MAXIMUM - DENSITE_MINIMUM) * (distance_centre colonne 4 + distance_centre ligne 4)) /
    4

/-- An interpretation of the `float` expressions, used to run the step on concrete
inputs; the general theorems are proved for every interpretation.  It holds the values
of generation 0 on a 4x4 grid: the seasonal ceiling is `(int)100.18 = 100`; the
predation pressure is `0.5 * (0.3 + 0.7 * (1 - (dx / 2 + dy / 2) / 2)) * 15`, that is
`(120 - 21 * (dx + dy)) / 16`, truncated; the epidemic intensity is `sin 0 = 0`, so
there is no pathogen and no death by disease; the predation risk is at most `7 / 255`,
below 0.2, so there is no death by predation; the stress term is at most
`(0.4 * 7 / 255) * 4`, truncated to 0.  The birth probability depends on the parents;
a decided birth is accepted here when the draw is below 100 (for parents of age 10 the
probability is about 0.10).  The density reduction of the centre-weighted initialiser
is `reduction_densite_4`, its value on a 4x4 grid. -/
def flottants_exemple : Flottants :=
  { nutriments_max := fun _ => 100
    calculer_pression_predation := fun _ x y _ _ =>
      (120 - 21 * (distance_bord_4 x + distance_bord_4 y)) / 16
    calculer_pathogenes := fun _ _ => 0
    meurt_de_maladie := fun _ _ _ => false
    meurt_de_predation := fun _ _ _ => false
    naissance_probable := fun _ _ _ _ _ _ tirage => decide (tirage < 100)
    mutation_stress := fun _ _ _ _ => 0
    reduction_densite := fun colonne ligne _ _ => (reduction_densite_4 colonne ligne : Nat) }

/-- A live cell of the given age, with health 50 and traits in the ranges that the
uniform initialiser draws from. -/
def cellule_vivante (age : Nat) : CelluleEvolutive :=
  { vivante := 1, age := age, genotype_survie := 110, genotype_naissance := 120, sante := 50,
    race := RACE_NOMADE, polarisation := 2, force_polarisation := 130,
    compteur_mouvement := 7, fitness_reproductif := 40, efficacite_energetique := 90,
    espece_id := 0, resistance_maladie := 90, camouflage_predation := 80,
    territorialite := 70, adaptabilite_stress := 95, generation_naissance := 0 }

/-- The all-dead buffer. -/
def grille_vide : Grille := fun _ => cellule_defaut

/-- A 4x4 buffer with one live cell, of age 10, at row 1, column 1. -/
def grille_solitaire : Grille := ecrire grille_vide 5 (cellule_vivante 10)

/-- A 4x4 buffer with a 2x2 block of live cells at rows 1-2, columns 1-2; the cell at
row 1, column 1 has age 255, the others age 10. -/
def grille_bloc : Grille :=
  ecrire (ecrire (ecrire (ecrire grille_vide 5 (cellule_vivante 255)) 6 (cellule_vivante 10))
    9 (cellule_vivante 10)) 10 (cellule_vivante 10)

/-- A 4x4 automaton with the rule `B3/S23`, the given current buffer and generation, a
reset next buffer and a reset environment. -/
def automate_exemple (actuelles : Grille) (generation : Nat) : AutomateCellulaire :=
  { largeur_grille := 4, hauteur_grille := 4,
    regles_format_texte := some ['B', '3', '/', 'S', '2', '3'],
    masque_conditions_naissance := 0x0008, masque_conditions_survie := 0x000C,
    grille_cellules_actuelles := some actuelles, grille_cellules_suivantes := some grille_vide,
    grille_environnement := fun _ => environnement_defaut,
    generation_actuelle := generation, population_totale := 0 }

/-- An automaton without buffers, with the given masks, used to run the parser. -/
def automate_sans_grille (naissance survie : Nat) : AutomateCellulaire :=
  { largeur_grille := 4, hauteur_grille := 4, regles_format_texte := none,
    masque_conditions_naissance := naissance, masque_conditions_survie := survie,
    grille_cellules_actuelles := none, grille_cellules_suivantes := none,
    grille_environnement := fun _ => ⟨0, 0, 0, 0, 0, 0⟩,
    generation_actuelle := 0, population_totale := 0 }

/-- The automaton `automate_exemple` with stale live records in the next buffer and a
stale population counter of 99. -/
def automate_exemple_bis (actuelles : Grille) (generation : Nat) : AutomateCellulaire :=
  { automate_exemple actuelles generation with
    grille_cellules_suivantes := some grille_bloc, population_totale := 99 }

/-- The record at index `i` of the current buffer after one step of `a`. -/
def cellule_apres_etape (F : Flottants) (a : AutomateCellulaire) (i : Nat) : CelluleEvolutive :=
  match (calculer_generation_suivante F a).grille_cellules_actuelles with
  | some g => g i
  | none => cellule_defaut

/-- A fertile live cell (age 10) with reproductive fitness 5. -/
def cellule_fitness_5 : CelluleEvolutive :=
  { cellule_vivante 10 with fitness_reproductif := 5 }

/-- A live cell of age 10 with the given survival genotype. -/
def cellule_genotype (genotype_survie : Nat) : CelluleEvolutive :=
  { cellule_vivante 10 with genotype_survie := genotype_survie }

/-- A 4x4 buffer with a live cell of the given survival genotype at row 1, column 1 and
four live neighbours, at (0,1), (1,0), (1,2) and (2,1). -/
def grille_croix (genotype_survie : Nat) : Grille :=
  ecrire (ecrire (ecrire (ecrire (ecrire grille_vide 5 (cellule_genotype genotype_survie))
    1 (cellule_vivante 10)) 4 (cellule_vivante 10)) 6 (cellule_vivante 10))
    9 (cellule_vivante 10)

/-- A 4x4 buffer with a live cell of the given survival genotype at row 1, column 1 and
three live neighbours, at (0,1), (1,0) and (1,2). -/
def grille_te (genotype_survie : Nat) : Grille :=
  ecrire (ecrire (ecrire (ecrire grille_vide 5 (cellule_genotype genotype_survie))
    1 (cellule_vivante 10)) 4 (cellule_vivante 10)) 6 (cellule_vivante 10)

/-- The record at index `i` of the current buffer after `initialiser_grille_clusters`. -/
def cellule_apres_initialisation (a : AutomateCellulaire) (graine i : Nat) :
    CelluleEvolutive :=
  match (initialiser_grille_clusters a graine).grille_cellules_actuelles with
  | some g => g i
  | none => cellule_defaut

/-- A 4x4 buffer with two live cells of age 10 and survival genotype 130, at (0,0) and
(0,2). -/
def grille_deux_parents : Grille :=
  ecrire (ecrire grille_vide 0 (cellule_genotype 130)) 2 (cellule_genotype 130)

/-- The automaton `automate_exemple` on `grille_deux_parents` at generation 0, with the
masks of the rule `B2/S23`. -/
def automate_deux_parents : AutomateCellulaire :=
  { automate_exemple grille_deux_parents 0 with masque_conditions_naissance := 0x0004 }

/-- A live Explorer of age 10 that points north, with movement counter 49. -/
def cellule_exploratrice : CelluleEvolutive :=
  { cellule_vivante 10 with race := RACE_EXPLORATRICE, polarisation := DIRECTION_NORD,
                            compteur_mouvement := 49 }

/-- A 4x4 buffer with the Explorer `cellule_exploratrice` at (1,1) and four live cells of
age 6, at (1,2), (2,1), (2,2) and (3,3). -/
def grille_exploratrice : Grille :=
  ecrire (ecrire (ecrire (ecrire (ecrire grille_vide 5 cellule_exploratrice)
    6 (cellule_vivante 6)) 9 (cellule_vivante 6)) 10 (cellule_vivante 6))
    15 (cellule_vivante 6)

/-- The automaton `automate_exemple` on `grille_exploratrice` at generation 0, with the
masks of the rule `B3/S234`. -/
def automate_exploratrice : AutomateCellulaire :=
  { automate_exemple grille_exploratrice 0 with masque_conditions_survie := 0x001C }

/-- A live Nomad of age 6 with movement counter 49, the given polarisation and the given
species identifier. -/
def cellule_nomade (polarisation espece : Nat) : CelluleEvolutive :=
  { cellule_vivante 6 with polarisation := polarisation, compteur_mouvement := 49,
                           espece_id := espece }

/-- A 4x4 buffer with a Nomad of species 9 that points south-east at (0,0) and four
Nomads of species 0 that point north, at (0,1), (0,2), (0,3) and (1,0). -/
def grille_nomades : Grille :=
  ecrire (ecrire (ecrire (ecrire (ecrire grille_vide 0 (cellule_nomade DIRECTION_SUD_EST 9))
    1 (cellule_nomade DIRECTION_NORD 0)) 2 (cellule_nomade DIRECTION_NORD 0))
    3 (cellule_nomade DIRECTION_NORD 0)) 4 (cellule_nomade DIRECTION_NORD 0)

/-- A fertile live cell (age 10) with territoriality 3 and stress adaptability 250. -/
def cellule_territoriale : CelluleEvolutive :=
  { cellule_vivante 10 with territorialite := 3, adaptabilite_stress := 250 }

/-- An environment buffer whose records hold nutrients 40 and the reset value in every
other field. -/
def environnement_pauvre : GrilleEnv := fun _ => { environnement_defaut with nutriments := 40 }

/-- A live cell of age 6 (not fertile) with survival genotype 50. -/
def cellule_genotype_faible : CelluleEvolutive :=
  { cellule_vivante 6 with genotype_survie := 50 }

/-- A 4x4 buffer with the single live cell `cellule_genotype_faible` at (1,1). -/
def grille_isolee_faible : Grille := ecrire grille_vide 5 cellule_genotype_faible

/-- The grid and the generator left by the cell pass in the step of
`automate_exemple grille_nomades 0`, on which the movement pass of that step starts. -/
def depart_nomades : Grille × Nat :=
  ((etat_apres_passe flottants_exemple (automate_exemple grille_nomades 0) grille_nomades
      grille_vide).suivantes,
    (etat_apres_passe flottants_exemple (automate_exemple grille_nomades 0) grille_nomades
      grille_vide).generateur)

theorem est_chiffre_voisins_iff (c : Char) :
    est_chiffre_voisins c = true ↔ '0' ≤ c ∧ c ≤ '8' := by
  unfold est_chiffre_voisins
  rw [Char.le_def, Char.le_def, Bool.and_eq_true, decide_eq_true_iff, decide_eq_true_iff]
  exact Iff.rfl

theorem chiffre_toNat (n : Nat) (h : n ≤ 8) : (Char.ofNat (48 + n)).toNat = 48 + n := by
  interval_cases n <;> rfl

theorem chiffre_eq_iff (c : Char) (hc : est_chiffre_voisins c = true) (n : Nat) :
    c.toNat - 48 = n ↔ n ≤ 8 ∧ Char.ofNat (48 + n) = c := by
  unfold est_chiffre_voisins at hc
  rw [Bool.and_eq_true, decide_eq_true_iff, decide_eq_true_iff] at hc
  constructor
  · intro h
    refine ⟨by omega, ?_⟩
    have : 48 + n = c.toNat := by omega
    rw [this, Char.ofNat_toNat]
  · rintro ⟨hn, h⟩
    have := chiffre_toNat n hn
    rw [h] at this
    omega

theorem ajouter_chiffre_lt (m : Nat) (c : Char) (hm : m < 65536) :
    ajouter_chiffre m c < 65536 := by
  unfold ajouter_chiffre
  split
  · exact Nat.mod_lt _ (by norm_num)
  · exact hm

theorem testBit_lt_65536 (m n : Nat) (hm : m < 65536) (h : m.testBit n = true) : n < 16 := by
  by_contra hn
  have h16 : 65536 ≤ 2 ^ n := by
    have : 2 ^ 16 ≤ 2 ^ n := Nat.pow_le_pow_right (by norm_num) (by omega)
    simpa using this
  have := Nat.testBit_lt_two_pow (lt_of_lt_of_le hm h16)
  rw [this] at h
  exact Bool.false_ne_true h

theorem testBit_ajouter_chiffre (m : Nat) (c : Char) (hm : m < 65536)
    (hc : est_chiffre_voisins c = true) (n : Nat) :
    (ajouter_chiffre m c).testBit n = true ↔
      m.testBit n = true ∨ (n ≤ 8 ∧ Char.ofNat (48 + n) = c) := by
  unfold ajouter_chiffre
  rw [if_pos hc, show (65536 : Nat) = 2 ^ 16 by norm_num, Nat.testBit_mod_two_pow,
    Nat.testBit_or, Nat.one_shiftLeft, Nat.testBit_two_pow, Bool.and_eq_true,
    Bool.or_eq_true, decide_eq_true_iff, decide_eq_true_iff, chiffre_eq_iff c hc n]
  constructor
  · rintro ⟨_, h⟩
    exact h
  · intro h
    refine ⟨?_, h⟩
    rcases h with h | h
    · exact testBit_lt_65536 m n hm h
    · omega

theorem lire_survie_chiffres (cs : List Char) :
    ∀ m : Nat, m < 65536 → (∀ c ∈ cs, est_chiffre_voisins c = true) →
      lire_survie cs m < 65536 ∧
      ∀ n, (lire_survie cs m).testBit n = true ↔
        m.testBit n = true ∨ (n ≤ 8 ∧ Char.ofNat (48 + n) ∈ cs) := by
  induction cs with
  | nil =>
    intro m hm _
    simp [lire_survie, hm]
  | cons c reste ih =>
    intro m hm hcs
    have hc : est_chiffre_voisins c = true := hcs c (List.mem_cons_self _ _)
    have hz : c.toNat ≠ 0 := by
      unfold est_chiffre_voisins at hc
      rw [Bool.and_eq_true, decide_eq_true_iff] at hc
      omega
    have hr := ih (ajouter_chiffre m c) (ajouter_chiffre_lt m c hm)
      (fun d hd => hcs d (List.mem_cons_of_mem _ hd))
    rw [lire_survie, if_neg hz]
    refine ⟨hr.1, fun n => ?_⟩
    rw [hr.2 n, testBit_ajouter_chiffre m c hm hc n, List.mem_cons]
    constructor
    · rintro ((h | ⟨h1, h2⟩) | ⟨h1, h2⟩)
      · exact Or.inl h
      · exact Or.inr ⟨h1, Or.inl h2⟩
      · exact Or.inr ⟨h1, Or.inr h2⟩
    · rintro (h | ⟨h1, h2 | h2⟩)
      · exact Or.inl (Or.inl h)
      · exact Or.inl (Or.inr ⟨h1, h2⟩)
      · exact Or.inr ⟨h1, h2⟩

theorem lire_naissance_chiffres (cs suite : List Char)
    (hs : suite = [] ∨ ∃ t, suite = '/' :: t) :
    ∀ m : Nat, (∀ c ∈ cs, est_chiffre_voisins c = true) →
      lire_naissance (cs ++ suite) m = (lire_survie cs m, suite) := by
  induction cs with
  | nil =>
    intro m _
    rcases hs with h | ⟨t, h⟩
    · subst h
      simp [lire_naissance, lire_survie]
    · subst h
      simp [lire_naissance, lire_survie]
  | cons c reste ih =>
    intro m hcs
    have hc : est_chiffre_voisins c = true := hcs c (List.mem_cons_self _ _)
    have hz : c.toNat ≠ 0 := by
      unfold est_chiffre_voisins at hc
      rw [Bool.and_eq_true, decide_eq_true_iff] at hc
      omega
    have hb : c ≠ '/' := by
      intro h
      rw [h] at hc
      exact absurd hc (by decide)
    have hr := ih (ajouter_chiffre m c) (fun d hd => hcs d (List.mem_cons_of_mem _ hd))
    rw [List.cons_append, lire_naissance, if_neg (by simp [hz, hb]), hr, lire_survie,
      if_neg hz]

theorem ajouter_chiffre_autre (m : Nat) (c : Char) (hc : est_chiffre_voisins c = false) :
    ajouter_chiffre m c = m := by
  unfold ajouter_chiffre
  rw [hc]
  rfl

theorem lire_survie_sans_chiffre (cs : List Char) :
    ∀ m : Nat, (∀ c ∈ cs, est_chiffre_voisins c = false) → lire_survie cs m = m := by
  induction cs with
  | nil => intro m _; rfl
  | cons c reste ih =>
    intro m hcs
    rw [lire_survie]
    split
    · rfl
    · rw [ajouter_chiffre_autre m c (hcs c (List.mem_cons_self _ _))]
      exact ih m (fun d hd => hcs d (List.mem_cons_of_mem _ hd))

theorem lire_naissance_sans_chiffre (cs : List Char) :
    ∀ m : Nat, (∀ c ∈ cs, est_chiffre_voisins c = false) →
      (lire_naissance cs m).1 = m ∧
      ∀ c ∈ (lire_naissance cs m).2, est_chiffre_voisins c = false := by
  induction cs with
  | nil => intro m _; simp [lire_naissance]
  | cons c reste ih =>
    intro m hcs
    rw [lire_naissance]
    split
    · exact ⟨rfl, hcs⟩
    · rw [ajouter_chiffre_autre m c (hcs c (List.mem_cons_self _ _))]
      exact ih m (fun d hd => hcs d (List.mem_cons_of_mem _ hd))

/-! ## Loops and buffers: lemmas -/

theorem boucle_succ {σ : Type} (n : Nat) (corps : Nat → σ → σ) (s : σ) :
    boucle (n + 1) corps s = corps n (boucle n corps s) := rfl

/-- Two runs of a loop stay related when each iteration preserves the relation. -/
theorem boucle_rel {σ τ : Type} (R : Nat → σ → τ → Prop) (n : Nat) (f : Nat → σ → σ)
    (g : Nat → τ → τ) (s : σ) (t : τ) (h0 : R 0 s t)
    (hpas : ∀ k, k < n → ∀ s t, R k s t → R (k + 1) (f k s) (g k t)) :
    R n (boucle n f s) (boucle n g t) := by
  induction n with
  | zero => exact h0
  | succ k ih =>
    exact hpas k (Nat.lt_succ_self k) _ _
      (ih (fun j hj s t h => hpas j (Nat.lt_succ_of_lt hj) s t h))

/-- Two runs of the row-major double loop over a `hauteur x largeur` grid stay related;
the index of the relation is the number of cells already visited. -/
theorem boucle_grille_rel {σ τ : Type} (R : Nat → σ → τ → Prop) (largeur hauteur : Nat)
    (f : Nat → Nat → σ → σ) (g : Nat → Nat → τ → τ) (s : σ) (t : τ) (h0 : R 0 s t)
    (hpas : ∀ l c, l < hauteur → c < largeur → ∀ s t,
      R (l * largeur + c) s t → R (l * largeur + c + 1) (f l c s) (g l c t)) :
    R (hauteur * largeur)
      (boucle hauteur (fun l s => boucle largeur (fun c s => f l c s) s) s)
      (boucle hauteur (fun l t => boucle largeur (fun c t => g l c t) t) t) := by
  have h := boucle_rel (fun l s t => R (l * largeur) s t) hauteur
    (fun l s => boucle largeur (fun c s => f l c s) s)
    (fun l t => boucle largeur (fun c t => g l c t) t) s t (by simpa using h0)
    (fun l hl s t hR => by
      have := boucle_rel (fun c s t => R (l * largeur + c) s t) largeur
        (fun c s => f l c s) (fun c t => g l c t) s t (by simpa using hR)
        (fun c hc s t h => hpas l c hl hc s t h)
      simpa [Nat.succ_mul] using this)
  exact h

/-- An invariant of the row-major double loop, indexed by the number of cells visited. -/
theorem boucle_grille_inv {σ : Type} (P : Nat → σ → Prop) (largeur hauteur : Nat)
    (f : Nat → Nat → σ → σ) (s : σ) (h0 : P 0 s)
    (hpas : ∀ l c, l < hauteur → c < largeur → ∀ s,
      P (l * largeur + c) s → P (l * largeur + c + 1) (f l c s)) :
    P (hauteur * largeur)
      (boucle hauteur (fun l s => boucle largeur (fun c s => f l c s) s) s) :=
  boucle_grille_rel (fun k s (_ : Unit) => P k s) largeur hauteur f (fun _ _ u => u) s ()
    h0 (fun l c hl hc s _ h => hpas l c hl hc s h)

theorem position_div (l c largeur : Nat) (hc : c < largeur) :
    (l * largeur + c) / largeur = l := by
  have hW : 0 < largeur := by omega
  rw [Nat.add_comm, Nat.add_mul_div_right _ _ hW, Nat.div_eq_of_lt hc, Nat.zero_add]

theorem position_mod (l c largeur : Nat) (hc : c < largeur) :
    (l * largeur + c) % largeur = c := by
  rw [Nat.add_comm, Nat.add_mul_mod_self_right, Nat.mod_eq_of_lt hc]

theorem position_lt (l c largeur hauteur : Nat) (hl : l < hauteur) (hc : c < largeur) :
    l * largeur + c < hauteur * largeur := by
  have h1 : l * largeur + c < (l + 1) * largeur := by rw [Nat.succ_mul]; omega
  exact lt_of_lt_of_le h1 (Nat.mul_le_mul_right _ hl)

theorem position_voisin_lt (largeur hauteur ligne colonne dl dc : Nat) (hl : ligne < hauteur)
    (hc : colonne < largeur) :
    position_voisin largeur hauteur ligne colonne dl dc < hauteur * largeur :=
  position_lt _ _ _ _ (Nat.mod_lt _ (by omega)) (Nat.mod_lt _ (by omega))

theorem ecrire_meme {α : Type} (g : Nat → α) (i : Nat) (v : α) : ecrire g i v i = v := by
  simp [ecrire]

theorem ecrire_autre {α : Type} (g : Nat → α) (i j : Nat) (v : α) (h : j ≠ i) :
    ecrire g i v j = g j := by
  simp [ecrire, h]

theorem compter_vivantes_succ (g : Grille) (n : Nat) :
    compter_vivantes g (n + 1) =
      compter_vivantes g n + (if (g n).vivante ≠ 0 then 1 else 0) := by
  unfold compter_vivantes
  rw [boucle_succ]
  split <;> rfl

theorem compter_vivantes_le (g : Grille) (n : Nat) : compter_vivantes g n ≤ n := by
  induction n with
  | zero => exact Nat.le_refl 0
  | succ k ih =>
    rw [compter_vivantes_succ]
    split <;> omega

/-- Counting depends only on the liveness of the cells below the bound. -/
theorem compter_vivantes_congr (g g2 : Grille) (n : Nat)
    (h : ∀ i, i < n → ((g i).vivante ≠ 0 ↔ (g2 i).vivante ≠ 0)) :
    compter_vivantes g n = compter_vivantes g2 n := by
  induction n with
  | zero => rfl
  | succ k ih =>
    rw [compter_vivantes_succ, compter_vivantes_succ,
      ih (fun i hi => h i (Nat.lt_succ_of_lt hi))]
    have := h k (Nat.lt_succ_self k)
    by_cases hk : (g k).vivante ≠ 0
    · rw [if_pos hk, if_pos (this.1 hk)]
    · rw [if_neg hk, if_neg (fun h2 => hk (this.2 h2))]

/-- Effect of one store on the number of live cells. -/
theorem compter_vivantes_ecrire (g : Grille) (i : Nat) (v : CelluleEvolutive) (n : Nat) :
    compter_vivantes (ecrire g i v) n + (if i < n ∧ (g i).vivante ≠ 0 then 1 else 0) =
      compter_vivantes g n + (if i < n ∧ v.vivante ≠ 0 then 1 else 0) := by
  induction n with
  | zero => simp [compter_vivantes, boucle]
  | succ k ih =>
    rw [compter_vivantes_succ, compter_vivantes_succ]
    by_cases hik : i = k
    · subst hik
      rw [ecrire_meme]
      simp only [Nat.lt_irrefl, false_and, if_false, Nat.add_zero] at ih
      simp only [Nat.lt_succ_self, true_and]
      rw [ih]
      omega
    · rw [ecrire_autre _ _ _ _ (Ne.symm hik)]
      have hlt : i < k + 1 ↔ i < k := by omega
      simp only [hlt]
      omega

/-! ## Evaluation of one cell: lemmas -/

theorem collecter_voisins_congr (a1 a2 : Grille) (largeur hauteur ligne colonne : Nat)
    (hl : ligne < hauteur) (hc : colonne < largeur)
    (h : ∀ i, i < hauteur * largeur → a1 i = a2 i) :
    collecter_voisins a1 largeur hauteur ligne colonne =
      collecter_voisins a2 largeur hauteur ligne colonne := by
  have hv : ∀ dl dc, a1 (position_voisin largeur hauteur ligne colonne dl dc) =
      a2 (position_voisin largeur hauteur ligne colonne dl dc) :=
    fun dl dc => h _ (position_voisin_lt _ _ _ _ dl dc hl hc)
  simp only [collecter_voisins, hv]

theorem densite_locale_congr (a1 a2 : Grille) (largeur hauteur ligne colonne : Nat)
    (hl : ligne < hauteur) (hc : colonne < largeur)
    (h : ∀ i, i < hauteur * largeur → a1 i = a2 i) :
    densite_locale a1 largeur hauteur ligne colonne =
      densite_locale a2 largeur hauteur ligne colonne := by
  have hv : ∀ dl dc, a1 (position_voisin largeur hauteur ligne colonne dl dc) =
      a2 (position_voisin largeur hauteur ligne colonne dl dc) :=
    fun dl dc => h _ (position_voisin_lt _ _ _ _ dl dc hl hc)
  simp only [densite_locale, hv]

theorem collecter_voisins_tous_morts (a : Grille) (largeur hauteur ligne colonne : Nat)
    (hl : ligne < hauteur) (hc : colonne < largeur)
    (h : ∀ i, i < hauteur * largeur → (a i).vivante = 0) :
    collecter_voisins a largeur hauteur ligne colonne = (0, []) := by
  have hv : ∀ dl dc, (a (position_voisin largeur hauteur ligne colonne dl dc)).vivante = 0 :=
    fun dl dc => h _ (position_voisin_lt _ _ _ _ dl dc hl hc)
  simp [collecter_voisins, boucle, hv]

theorem ite_prop {α : Type} {c : Prop} [Decidable c] (Q : α → Prop) {a b : α}
    (ha : Q a) (hb : Q b) : Q (if c then a else b) := by
  split
  · exact ha
  · exact hb

theorem ite_rel {α β : Type} {c : Prop} [Decidable c] (R : α → β → Prop) {a b : α} {a2 b2 : β}
    (ha : R a a2) (hb : R b b2) : R (if c then a else b) (if c then a2 else b2) := by
  split
  · exact ha
  · exact hb

theorem compte_juste_morte (pop : Nat) (s : CelluleEvolutive) (age sante : Nat)
    (env : EnvironnementLocal) (g : Nat) :
    compte_juste pop ⟨laisser_morte s age sante, env, g, pop⟩ := by
  simp [compte_juste, laisser_morte]

theorem appliquer_regle_population (masque_survie : Nat) (actuelle s : CelluleEvolutive)
    (env : EnvironnementLocal) (age sante g pop n : Nat) :
    compte_juste pop (appliquer_regle masque_survie actuelle s env age sante g pop n) := by
  unfold appliquer_regle
  refine ite_prop (compte_juste pop) ?_ (compte_juste_morte _ _ _ _ _ _)
  simp [compte_juste]

theorem evaluer_instabilite_population (masque_survie generation : Nat)
    (actuelle s : CelluleEvolutive) (env : EnvironnementLocal) (age sante g pop n : Nat) :
    compte_juste pop
      (evaluer_instabilite masque_survie generation actuelle s env age sante g pop n) := by
  unfold evaluer_instabilite
  simp only
  refine ite_prop (compte_juste pop) (compte_juste_morte _ _ _ _ _ _)
    (ite_prop (compte_juste pop)
      (ite_prop (compte_juste pop) (compte_juste_morte _ _ _ _ _ _)
        (appliquer_regle_population _ _ _ _ _ _ _ _ _))
      (appliquer_regle_population _ _ _ _ _ _ _ _ _))

theorem evaluer_survie_population (F : Flottants) (masque_survie generation : Nat)
    (actuelle s : CelluleEvolutive) (env : EnvironnementLocal) (g pop n : Nat) :
    compte_juste pop (evaluer_survie F masque_survie generation actuelle s env g pop n) := by
  unfold evaluer_survie
  simp only
  refine ite_prop (compte_juste pop) (compte_juste_morte _ _ _ _ _ _)
    (ite_prop (compte_juste pop) (compte_juste_morte _ _ _ _ _ _)
      (ite_prop (compte_juste pop) (compte_juste_morte _ _ _ _ _ _)
        (ite_prop (compte_juste pop) (compte_juste_morte _ _ _ _ _ _)
          (evaluer_instabilite_population _ _ _ _ _ _ _ _ _ _))))

theorem faire_naitre_population (F : Flottants) (largeur hauteur generation ligne colonne : Nat)
    (p0 : CelluleEvolutive) (reste : List CelluleEvolutive) (s : CelluleEvolutive)
    (env : EnvironnementLocal) (g pop n : Nat) :
    compte_juste pop
      (faire_naitre F largeur hauteur generation ligne colonne p0 reste s env g pop n) := by
  unfold faire_naitre
  refine ite_prop (compte_juste pop) ?_ ?_
  · simp [compte_juste]
  · simp [compte_juste, heriter_traits]

theorem evaluer_naissance_population (F : Flottants) (largeur hauteur masque_naissance
    generation ligne colonne : Nat) (parents : List CelluleEvolutive) (s : CelluleEvolutive)
    (env : EnvironnementLocal) (g pop n : Nat) :
    compte_juste pop
      (evaluer_naissance F largeur hauteur masque_naissance generation ligne colonne parents s
        env g pop n) := by
  unfold evaluer_naissance
  cases parents with
  | nil => exact compte_juste_morte _ _ _ _ _ _
  | cons p0 reste =>
    simp only
    exact ite_prop (compte_juste pop)
      (ite_prop (compte_juste pop) (faire_naitre_population _ _ _ _ _ _ _ _ _ _ _ _ _)
        (compte_juste_morte _ _ _ _ _ _))
      (compte_juste_morte _ _ _ _ _ _)

/-- The population counter is incremented exactly when the cell written to the next
buffer is alive. -/
theorem evaluer_cellule_population (F : Flottants) (largeur hauteur masque_naissance
    masque_survie generation : Nat) (actuelles : Grille) (ligne colonne : Nat)
    (s : CelluleEvolutive) (env : EnvironnementLocal) (g pop : Nat) :
    compte_juste pop
      (evaluer_cellule F largeur hauteur masque_naissance masque_survie generation actuelles
        ligne colonne s env g pop) := by
  unfold evaluer_cellule
  simp only
  exact ite_prop (compte_juste pop) (evaluer_survie_population _ _ _ _ _ _ _ _ _)
    (evaluer_naissance_population _ _ _ _ _ _ _ _ _ _ _ _ _)

/-! ## The passes: population -/

theorem passe_cellules_population (F : Flottants) (largeur hauteur masque_naissance
    masque_survie generation : Nat) (actuelles : Grille) (st : EtatPasse)
    (h0 : st.population = 0) (hn : hauteur * largeur < 4294967296) :
    (passe_cellules F largeur hauteur masque_naissance masque_survie generation actuelles
      st).population =
    compter_vivantes (passe_cellules F largeur hauteur masque_naissance masque_survie
      generation actuelles st).suivantes (hauteur * largeur) := by
  unfold passe_cellules
  refine boucle_grille_inv (fun k st => st.population = compter_vivantes st.suivantes k)
    largeur hauteur _ st (by simpa [compter_vivantes, boucle] using h0) ?_
  intro l c hl hc st hP
  have hk := position_lt l c largeur hauteur hl hc
  have hle := compter_vivantes_le st.suivantes (l * largeur + c)
  have hr := evaluer_cellule_population F largeur hauteur masque_naissance masque_survie
    generation actuelles l c (st.suivantes (l * largeur + c))
    (st.environnement (l * largeur + c)) st.generateur st.population
  simp only [traiter_cellule]
  rw [compter_vivantes_succ, ecrire_meme, hr,
    compter_vivantes_congr _ st.suivantes (l * largeur + c)
      (fun i hi => by rw [ecrire_autre _ _ _ _ (Nat.ne_of_lt hi)]), ← hP]
  split
  · rw [Nat.mod_eq_of_lt (by omega)]
  · rfl

theorem passe_cellules_population_le (F : Flottants) (largeur hauteur masque_naissance
    masque_survie generation : Nat) (actuelles : Grille) (st : EtatPasse)
    (h0 : st.population = 0) :
    (passe_cellules F largeur hauteur masque_naissance masque_survie generation actuelles
      st).population ≤ hauteur * largeur := by
  unfold passe_cellules
  refine boucle_grille_inv (fun k st => st.population ≤ k) largeur hauteur _ st
    (by simp [h0]) ?_
  intro l c _ _ st hP
  have hr := evaluer_cellule_population F largeur hauteur masque_naissance masque_survie
    generation actuelles l c (st.suivantes (l * largeur + c))
    (st.environnement (l * largeur + c)) st.generateur st.population
  simp only [traiter_cellule]
  rw [hr]
  split
  · exact le_trans (Nat.mod_le _ _) (by omega)
  · omega

theorem relocalisation_compter (g : Grille) (pos np n : Nat) (hp : pos < n) (hnp : np < n)
    (hv : (g pos).vivante ≠ 0) (hd : (g np).vivante = 0) :
    compter_vivantes (ecrire (ecrire g np (g pos)) pos (vider_position (g pos))) n =
      compter_vivantes g n := by
  have hne : pos ≠ np := by
    intro h
    rw [← h] at hd
    exact hv hd
  have e1 := compter_vivantes_ecrire (ecrire g np (g pos)) pos (vider_position (g pos)) n
  have e2 := compter_vivantes_ecrire g np (g pos) n
  rw [ecrire_autre _ _ _ _ hne, if_pos ⟨hp, hv⟩, if_neg (by simp [vider_position])] at e1
  rw [if_neg (fun h => h.2 hd), if_pos ⟨hnp, hv⟩] at e2
  omega

theorem deplacer_cellule_compter (largeur hauteur ligne colonne : Nat) (st : Grille × Nat)
    (hl : ligne < hauteur) (hc : colonne < largeur) :
    compter_vivantes (deplacer_cellule largeur hauteur ligne colonne st).1 (hauteur * largeur) =
      compter_vivantes st.1 (hauteur * largeur) := by
  unfold deplacer_cellule
  simp only
  split
  · rename_i hv
    split
    · rename_i hd
      split
      · exact relocalisation_compter st.1 _ _ _ (position_lt ligne colonne largeur hauteur hl hc)
          (position_lt _ _ _ _ (Nat.mod_lt _ (by omega)) (Nat.mod_lt _ (by omega))) hv.1 hd
      · rfl
    · rfl
  · rfl

theorem passe_mouvement_compter (largeur hauteur : Nat) (st : Grille × Nat) :
    compter_vivantes (passe_mouvement largeur hauteur st).1 (hauteur * largeur) =
      compter_vivantes st.1 (hauteur * largeur) := by
  unfold passe_mouvement
  refine boucle_grille_inv
    (fun _ s => compter_vivantes s.1 (hauteur * largeur) =
      compter_vivantes st.1 (hauteur * largeur))
    largeur hauteur _ st rfl ?_
  intro l c hl hc s hP
  rw [deplacer_cellule_compter largeur hauteur l c s hl hc]
  exact hP

/-! ## The step: lemmas -/

/-- The step on an automaton whose two cell buffers are present. -/
theorem calculer_generation_suivante_presents (F : Flottants) (a : AutomateCellulaire)
    (actuelles suivantes : Grille) (ha : a.grille_cellules_actuelles = some actuelles)
    (hs : a.grille_cellules_suivantes = some suivantes) :
    calculer_generation_suivante F a =
      { a with
        grille_cellules_actuelles := some (grille_apres_mouvement F a actuelles suivantes)
        grille_cellules_suivantes := some actuelles
        grille_environnement := (etat_apres_passe F a actuelles suivantes).environnement
        population_totale := (etat_apres_passe F a actuelles suivantes).population
        generation_actuelle := (a.generation_actuelle + 1) % 4294967296 } := by
  unfold calculer_generation_suivante grille_apres_mouvement etat_apres_passe
  rw [ha, hs]
  simp only
  split <;> rfl

theorem grille_apres_mouvement_compter (F : Flottants) (a : AutomateCellulaire)
    (actuelles suivantes : Grille) :
    compter_vivantes (grille_apres_mouvement F a actuelles suivantes)
        (a.hauteur_grille * a.largeur_grille) =
      compter_vivantes (etat_apres_passe F a actuelles suivantes).suivantes
        (a.hauteur_grille * a.largeur_grille) := by
  unfold grille_apres_mouvement
  split
  · exact passe_mouvement_compter _ _ _
  · rfl

/-! ## Determinism of the step: lemmas -/

theorem cellules_equivalentes_refl (c : CelluleEvolutive) : cellules_equivalentes c c :=
  ⟨rfl, fun _ => rfl⟩

theorem issues_equivalentes_refl (r : Issue) : issues_equivalentes r r :=
  ⟨cellules_equivalentes_refl _, rfl, rfl, rfl⟩

theorem issues_equivalentes_mortes (s1 s2 : CelluleEvolutive) (age sante : Nat)
    (env : EnvironnementLocal) (g pop : Nat) :
    issues_equivalentes ⟨laisser_morte s1 age sante, env, g, pop⟩
      ⟨laisser_morte s2 age sante, env, g, pop⟩ :=
  ⟨⟨rfl, fun h => absurd rfl h⟩, rfl, rfl, rfl⟩

theorem appliquer_regle_equiv (masque_survie : Nat) (actuelle s1 s2 : CelluleEvolutive)
    (env : EnvironnementLocal) (age sante g pop n : Nat) :
    issues_equivalentes (appliquer_regle masque_survie actuelle s1 env age sante g pop n)
      (appliquer_regle masque_survie actuelle s2 env age sante g pop n) := by
  unfold appliquer_regle
  exact ite_rel issues_equivalentes (issues_equivalentes_refl _)
    (issues_equivalentes_mortes _ _ _ _ _ _ _)

theorem evaluer_instabilite_equiv (masque_survie generation : Nat)
    (actuelle s1 s2 : CelluleEvolutive) (env : EnvironnementLocal) (age sante g pop n : Nat) :
    issues_equivalentes
      (evaluer_instabilite masque_survie generation actuelle s1 env age sante g pop n)
      (evaluer_instabilite masque_survie generation actuelle s2 env age sante g pop n) := by
  unfold evaluer_instabilite
  simp only
  exact ite_rel issues_equivalentes (issues_equivalentes_mortes _ _ _ _ _ _ _)
    (ite_rel issues_equivalentes
      (ite_rel issues_equivalentes (issues_equivalentes_mortes _ _ _ _ _ _ _)
        (appliquer_regle_equiv _ _ _ _ _ _ _ _ _ _))
      (appliquer_regle_equiv _ _ _ _ _ _ _ _ _ _))

theorem evaluer_survie_equiv (F : Flottants) (masque_survie generation : Nat)
    (actuelle s1 s2 : CelluleEvolutive) (env : EnvironnementLocal) (g pop n : Nat) :
    issues_equivalentes (evaluer_survie F masque_survie generation actuelle s1 env g pop n)
      (evaluer_survie F masque_survie generation actuelle s2 env g pop n) := by
  unfold evaluer_survie
  simp only
  exact ite_rel issues_equivalentes (issues_equivalentes_mortes _ _ _ _ _ _ _)
    (ite_rel issues_equivalentes (issues_equivalentes_mortes _ _ _ _ _ _ _)
      (ite_rel issues_equivalentes (issues_equivalentes_mortes _ _ _ _ _ _ _)
        (ite_rel issues_equivalentes (issues_equivalentes_mortes _ _ _ _ _ _ _)
          (evaluer_instabilite_equiv _ _ _ _ _ _ _ _ _ _ _))))

/-- Every field of the newborn record is written: it does not depend on the stale
record of the next buffer. -/
theorem heriter_traits_indep (F : Flottants) (largeur hauteur generation ligne colonne : Nat)
    (p0 : CelluleEvolutive) (reste : List CelluleEvolutive) (s1 s2 : CelluleEvolutive)
    (env : EnvironnementLocal) (g n : Nat) :
    heriter_traits F largeur hauteur generation ligne colonne p0 reste s1 env g n =
      heriter_traits F largeur hauteur generation ligne colonne p0 reste s2 env g n := rfl

theorem faire_naitre_equiv (F : Flottants) (largeur hauteur generation ligne colonne : Nat)
    (p0 : CelluleEvolutive) (reste : List CelluleEvolutive) (s1 s2 : CelluleEvolutive)
    (env : EnvironnementLocal) (g pop n : Nat) :
    issues_equivalentes
      (faire_naitre F largeur hauteur generation ligne colonne p0 reste s1 env g pop n)
      (faire_naitre F largeur hauteur generation ligne colonne p0 reste s2 env g pop n) := by
  unfold faire_naitre
  rw [heriter_traits_indep F largeur hauteur generation ligne colonne p0 reste s1 s2 env g n]
  exact issues_equivalentes_refl _

theorem evaluer_naissance_equiv (F : Flottants) (largeur hauteur masque_naissance
    generation ligne colonne : Nat) (parents : List CelluleEvolutive)
    (s1 s2 : CelluleEvolutive) (env : EnvironnementLocal) (g pop n : Nat) :
    issues_equivalentes
      (evaluer_naissance F largeur hauteur masque_naissance generation ligne colonne parents s1
        env g pop n)
      (evaluer_naissance F largeur hauteur masque_naissance generation ligne colonne parents s2
        env g pop n) := by
  unfold evaluer_naissance
  cases parents with
  | nil => exact issues_equivalentes_mortes _ _ _ _ _ _ _
  | cons p0 reste =>
    simp only
    exact ite_rel issues_equivalentes
      (ite_rel issues_equivalentes (faire_naitre_equiv _ _ _ _ _ _ _ _ _ _ _ _ _ _)
        (issues_equivalentes_mortes _ _ _ _ _ _ _))
      (issues_equivalentes_mortes _ _ _ _ _ _ _)

/-- The issue of a cell depends on the stale record of the next buffer only through the
fields of a cell left dead. -/
theorem evaluer_cellule_equiv (F : Flottants) (largeur hauteur masque_naissance
    masque_survie generation : Nat) (actuelles : Grille) (ligne colonne : Nat)
    (s1 s2 : CelluleEvolutive) (env : EnvironnementLocal) (g pop : Nat) :
    issues_equivalentes
      (evaluer_cellule F largeur hauteur masque_naissance masque_survie generation actuelles
        ligne colonne s1 env g pop)
      (evaluer_cellule F largeur hauteur masque_naissance masque_survie generation actuelles
        ligne colonne s2 env g pop) := by
  unfold evaluer_cellule
  simp only
  exact ite_rel issues_equivalentes (evaluer_survie_equiv _ _ _ _ _ _ _ _ _ _)
    (evaluer_naissance_equiv _ _ _ _ _ _ _ _ _ _ _ _ _ _)

theorem evaluer_cellule_congr (F : Flottants) (largeur hauteur masque_naissance
    masque_survie generation : Nat) (a1 a2 : Grille) (ligne colonne : Nat)
    (s : CelluleEvolutive) (env : EnvironnementLocal) (g pop : Nat)
    (hl : ligne < hauteur) (hc : colonne < largeur)
    (h : ∀ i, i < hauteur * largeur → a1 i = a2 i) :
    evaluer_cellule F largeur hauteur masque_naissance masque_survie generation a1
        ligne colonne s env g pop =
      evaluer_cellule F largeur hauteur masque_naissance masque_survie generation a2
        ligne colonne s env g pop := by
  unfold evaluer_cellule
  rw [collecter_voisins_congr a1 a2 largeur hauteur ligne colonne hl hc h,
    h _ (position_lt ligne colonne largeur hauteur hl hc)]

theorem mettre_a_jour_environnement_congr (F : Flottants) (largeur hauteur generation : Nat)
    (a1 a2 : Grille) (e1 e2 : GrilleEnv)
    (ha : ∀ i, i < hauteur * largeur → a1 i = a2 i)
    (he : ∀ i, i < hauteur * largeur → e1 i = e2 i) :
    ∀ i, i < hauteur * largeur →
      mettre_a_jour_environnement F largeur hauteur generation a1 e1 i =
        mettre_a_jour_environnement F largeur hauteur generation a2 e2 i := by
  unfold mettre_a_jour_environnement
  refine boucle_grille_rel
    (fun _ (x y : GrilleEnv) => ∀ i, i < hauteur * largeur → x i = y i)
    largeur hauteur _ _ e1 e2 he ?_
  intro l c hl hc x y hR i hi
  by_cases hi2 : i = l * largeur + c
  · rw [hi2, ecrire_meme, ecrire_meme, hR _ (position_lt l c largeur hauteur hl hc)]
    unfold maj_environnement_cellule
    rw [densite_locale_congr a1 a2 largeur hauteur l c hl hc ha]
  · rw [ecrire_autre _ _ _ _ hi2, ecrire_autre _ _ _ _ hi2]
    exact hR i hi

theorem passe_cellules_equiv (F : Flottants) (largeur hauteur masque_naissance masque_survie
    generation : Nat) (a1 a2 : Grille) (st1 st2 : EtatPasse)
    (ha : ∀ i, i < hauteur * largeur → a1 i = a2 i)
    (he : ∀ i, i < hauteur * largeur → st1.environnement i = st2.environnement i)
    (hg : st1.generateur = st2.generateur) (hp : st1.population = st2.population) :
    etats_equivalents (hauteur * largeur) (hauteur * largeur)
      (passe_cellules F largeur hauteur masque_naissance masque_survie generation a1 st1)
      (passe_cellules F largeur hauteur masque_naissance masque_survie generation a2 st2) := by
  unfold passe_cellules
  refine boucle_grille_rel (fun k x y => etats_equivalents (hauteur * largeur) k x y)
    largeur hauteur _ _ st1 st2 ⟨hg, hp, he, fun i hi => absurd hi (Nat.not_lt_zero i)⟩ ?_
  intro l c hl hc x y hR
  obtain ⟨hg, hp, he, hs⟩ := hR
  have hpos := position_lt l c largeur hauteur hl hc
  have hq := evaluer_cellule_equiv F largeur hauteur masque_naissance masque_survie generation
    a2 l c (x.suivantes (l * largeur + c)) (y.suivantes (l * largeur + c))
    (y.environnement (l * largeur + c)) y.generateur y.population
  have h1 : evaluer_cellule F largeur hauteur masque_naissance masque_survie generation a1 l c
      (x.suivantes (l * largeur + c)) (x.environnement (l * largeur + c)) x.generateur
      x.population =
      evaluer_cellule F largeur hauteur masque_naissance masque_survie generation a2 l c
      (x.suivantes (l * largeur + c)) (y.environnement (l * largeur + c)) y.generateur
      y.population := by
    rw [evaluer_cellule_congr F largeur hauteur masque_naissance masque_survie generation
      a1 a2 l c _ _ _ _ hl hc ha, he _ hpos, hg, hp]
  obtain ⟨hq1, hq2, hq3, hq4⟩ := hq
  simp only [traiter_cellule, h1]
  refine ⟨hq3, hq4, fun i hi => ?_, fun i hi => ?_⟩
  · by_cases hi2 : i = l * largeur + c
    · simp only [hi2, ecrire_meme]
      exact hq2
    · simp only [ecrire_autre _ _ _ _ hi2]
      exact he i hi
  · by_cases hi2 : i = l * largeur + c
    · simp only [hi2, ecrire_meme]
      exact hq1
    · simp only [ecrire_autre _ _ _ _ hi2]
      exact hs i (by omega)

theorem deplacer_cellule_equiv (largeur hauteur ligne colonne : Nat) (x y : Grille × Nat)
    (hl : ligne < hauteur) (hc : colonne < largeur) (hg : x.2 = y.2)
    (h : ∀ i, i < hauteur * largeur → cellules_equivalentes (x.1 i) (y.1 i)) :
    (deplacer_cellule largeur hauteur ligne colonne x).2 =
      (deplacer_cellule largeur hauteur ligne colonne y).2 ∧
    ∀ i, i < hauteur * largeur →
      cellules_equivalentes ((deplacer_cellule largeur hauteur ligne colonne x).1 i)
        ((deplacer_cellule largeur hauteur ligne colonne y).1 i) := by
  have hpos := position_lt ligne colonne largeur hauteur hl hc
  have hcell := h _ hpos
  by_cases hv : (x.1 (ligne * largeur + colonne)).vivante ≠ 0
  · have heq := hcell.2 hv
    have hnp := h _ (position_lt
      ((ligne + (obtenir_coordonnees_direction
        (x.1 (ligne * largeur + colonne)).polarisation).2 + hauteur - 1) % hauteur)
      ((colonne + (obtenir_coordonnees_direction
        (x.1 (ligne * largeur + colonne)).polarisation).1 + largeur - 1) % largeur)
      largeur hauteur (Nat.mod_lt _ (by omega)) (Nat.mod_lt _ (by omega)))
    unfold deplacer_cellule
    simp only
    rw [← heq, ← hg, ← hnp.1]
    refine ite_rel
      (fun (u v : Grille × Nat) => u.2 = v.2 ∧
        ∀ i, i < hauteur * largeur → cellules_equivalentes (u.1 i) (v.1 i))
      (ite_rel
        (fun (u v : Grille × Nat) => u.2 = v.2 ∧
          ∀ i, i < hauteur * largeur → cellules_equivalentes (u.1 i) (v.1 i))
        (ite_rel
          (fun (u v : Grille × Nat) => u.2 = v.2 ∧
            ∀ i, i < hauteur * largeur → cellules_equivalentes (u.1 i) (v.1 i))
          ⟨rfl, fun i hi => ?_⟩ ⟨rfl, h⟩)
        ⟨hg, h⟩)
      ⟨hg, h⟩
    simp only [ecrire]
    split
    · exact cellules_equivalentes_refl _
    · split
      · exact cellules_equivalentes_refl _
      · exact h i hi
  · have hv2 : ¬ (y.1 (ligne * largeur + colonne)).vivante ≠ 0 := by
      rw [← hcell.1]
      exact hv
    unfold deplacer_cellule
    simp only
    rw [if_neg (fun hh => hv hh.1), if_neg (fun hh => hv2 hh.1)]
    exact ⟨hg, h⟩

theorem passe_mouvement_equiv (largeur hauteur : Nat) (x y : Grille × Nat) (hg : x.2 = y.2)
    (h : ∀ i, i < hauteur * largeur → cellules_equivalentes (x.1 i) (y.1 i)) :
    ∀ i, i < hauteur * largeur →
      cellules_equivalentes ((passe_mouvement largeur hauteur x).1 i)
        ((passe_mouvement largeur hauteur y).1 i) := by
  unfold passe_mouvement
  exact (boucle_grille_rel
    (fun _ (u v : Grille × Nat) => u.2 = v.2 ∧
      ∀ i, i < hauteur * largeur → cellules_equivalentes (u.1 i) (v.1 i))
    largeur hauteur _ _ x y ⟨hg, h⟩
    (fun l c hl hc u v hR => deplacer_cellule_equiv largeur hauteur l c u v hl hc hR.1 hR.2)).2

/-! ## Rule parser: claims -/

/-- C1: for a rule text `B<bs>` or `B<bs>/S<ss>` whose digit lists hold only characters
`'0'..'8'`, bit `n` of the birth mask is set iff `n <= 8` and digit `n` occurs in `bs`,
bit `n` of the survival mask is set iff the `/S` segment is present and digit `n` occurs
in `ss`; without `/S` the survival mask is 0, and `B3/S23` gives the masks 0x0008 and
0x000C. -/
theorem analyser_regles_automate_masques (a : AutomateCellulaire) (bs ss : List Char)
    (hbs : ∀ c ∈ bs, '0' ≤ c ∧ c ≤ '8') (hss : ∀ c ∈ ss, '0' ≤ c ∧ c ≤ '8') :
    (∀ n, (analyser_regles_automate
        (avec_regles a ('B' :: bs))).masque_conditions_naissance.testBit n = true ↔
          n ≤ 8 ∧ Char.ofNat (48 + n) ∈ bs) ∧
    (analyser_regles_automate (avec_regles a ('B' :: bs))).masque_conditions_survie = 0 ∧
    (∀ n, (analyser_regles_automate
        (avec_regles a ('B' :: (bs ++ '/' :: 'S' :: ss)))).masque_conditions_naissance.testBit n
          = true ↔ n ≤ 8 ∧ Char.ofNat (48 + n) ∈ bs) ∧
    (∀ n, (analyser_regles_automate
        (avec_regles a ('B' :: (bs ++ '/' :: 'S' :: ss)))).masque_conditions_survie.testBit n
          = true ↔ n ≤ 8 ∧ Char.ofNat (48 + n) ∈ ss) ∧
    (analyser_regles_automate
        (avec_regles a ['B', '3', '/', 'S', '2', '3'])).masque_conditions_naissance = 0x0008 ∧
    (analyser_regles_automate
        (avec_regles a ['B', '3', '/', 'S', '2', '3'])).masque_conditions_survie = 0x000C := by
  have hbs1 : ∀ c ∈ bs, est_chiffre_voisins c = true :=
    fun c hc => (est_chiffre_voisins_iff c).2 (hbs c hc)
  have hss1 : ∀ c ∈ ss, est_chiffre_voisins c = true :=
    fun c hc => (est_chiffre_voisins_iff c).2 (hss c hc)
  have hb := lire_survie_chiffres bs 0 (by norm_num) hbs1
  have hs := lire_survie_chiffres ss 0 (by norm_num) hss1
  have h1 := lire_naissance_chiffres bs [] (Or.inl rfl) 0 hbs1
  have h2 := lire_naissance_chiffres bs ('/' :: 'S' :: ss) (Or.inr ⟨_, rfl⟩) 0 hbs1
  rw [List.append_nil] at h1
  refine ⟨fun n => ?_, ?_, fun n => ?_, fun n => ?_, ?_, ?_⟩
  · simp only [analyser_regles_automate, avec_regles, ne_eq, not_true_eq_false, if_false, h1]
    simpa using hb.2 n
  · simp only [analyser_regles_automate, avec_regles, ne_eq, not_true_eq_false, if_false, h1]
  · simp only [analyser_regles_automate, avec_regles, ne_eq, not_true_eq_false, if_false, h2]
    simpa using hb.2 n
  · simp only [analyser_regles_automate, avec_regles, ne_eq, not_true_eq_false, if_false, h2,
      if_true]
    simpa using hs.2 n
  · rfl
  · rfl

theorem analyser_regles_automate_masques_witness :
    (∀ c ∈ ['3', '6'], '0' ≤ c ∧ c ≤ '8') ∧ (∀ c ∈ ['2', '3'], '0' ≤ c ∧ c ≤ '8') ∧
    ((analyser_regles_automate (avec_regles (automate_sans_grille 0xFFFF 0xFFFF)
        ('B' :: (['3', '6'] ++ '/' :: 'S' :: ['2', '3'])))).masque_conditions_survie.testBit 2
          = true ↔ 2 ≤ 8 ∧ Char.ofNat (48 + 2) ∈ ['2', '3']) :=
  ⟨by decide, by decide,
    (analyser_regles_automate_masques (automate_sans_grille 0xFFFF 0xFFFF)
      ['3', '6'] ['2', '3'] (by decide) (by decide)).2.2.2.1 2⟩

/-- C10: a rule text whose first character is not `B` (the empty text included), or that
contains no digit character `'0'..'8'`, leaves both masks 0, whatever they held before. -/
theorem analyser_regles_automate_mal_formees (a : AutomateCellulaire) (texte : List Char)
    (h : texte.head? ≠ some 'B' ∨ ∀ c ∈ texte, ¬ ('0' ≤ c ∧ c ≤ '8')) :
    (analyser_regles_automate (avec_regles a texte)).masque_conditions_naissance = 0 ∧
    (analyser_regles_automate (avec_regles a texte)).masque_conditions_survie = 0 := by
  cases texte with
  | nil => exact ⟨rfl, rfl⟩
  | cons c reste =>
    by_cases hB : c = 'B'
    · subst hB
      rcases h with h | h
      · exact absurd rfl h
      · have hr : ∀ d ∈ reste, est_chiffre_voisins d = false := fun d hd => by
          have := h d (List.mem_cons_of_mem _ hd)
          rw [← est_chiffre_voisins_iff] at this
          simpa using this
        have hn := lire_naissance_sans_chiffre reste 0 hr
        simp only [analyser_regles_automate, avec_regles, ne_eq, not_true_eq_false, if_false]
        refine ⟨hn.1, ?_⟩
        have key : ∀ l : List Char, (∀ d ∈ l, est_chiffre_voisins d = false) →
            (match l with
              | d :: suite => if d = 'S' then lire_survie suite 0 else 0
              | [] => 0) = 0 := by
          intro l hl
          cases l with
          | nil => rfl
          | cons d suite =>
            simp only
            split
            · exact lire_survie_sans_chiffre suite 0
                (fun e he => hl e (List.mem_cons_of_mem _ he))
            · rfl
        apply key
        generalize (lire_naissance reste 0).2 = apres at hn
        cases apres with
        | nil => exact hn.2
        | cons d suite =>
          simp only
          split
          · exact fun e he => hn.2 e (List.mem_cons_of_mem _ he)
          · exact hn.2
    · simp [analyser_regles_automate, avec_regles, hB]

theorem analyser_regles_automate_mal_formees_witness :
    (['B'].head? ≠ some 'B' ∨ ∀ c ∈ ['B'], ¬ ('0' ≤ c ∧ c ≤ '8')) ∧
    (analyser_regles_automate
      (avec_regles (automate_sans_grille 0x0008 0x000C) ['B'])).masque_conditions_naissance = 0 :=
  ⟨Or.inr (by decide),
    (analyser_regles_automate_mal_formees (automate_sans_grille 0x0008 0x000C)
      ['B'] (Or.inr (by decide))).1⟩

/-! ## Determinism of the step -/

/-- C2: two automata with both buffers present that agree on width, height, both masks,
the generation counter, every cell of the current grid and every environment cell (and
may differ in the next buffer and in the population counter) agree after
`calculer_generation_suivante` on the generation counter, the population counter, every
environment cell, the liveness of every cell and every field of every live cell of the
current grid; the generator of a step starts from `generation * 0x9E3779B9 mod 2^32`. -/
theorem calculer_generation_suivante_deterministe (F : Flottants) (a b : AutomateCellulaire)
    (ga gb sa sb : Grille)
    (ha : a.grille_cellules_actuelles = some ga) (hb : b.grille_cellules_actuelles = some gb)
    (hsa : a.grille_cellules_suivantes = some sa) (hsb : b.grille_cellules_suivantes = some sb)
    (hW : a.largeur_grille = b.largeur_grille) (hH : a.hauteur_grille = b.hauteur_grille)
    (hmn : a.masque_conditions_naissance = b.masque_conditions_naissance)
    (hms : a.masque_conditions_survie = b.masque_conditions_survie)
    (hgen : a.generation_actuelle = b.generation_actuelle)
    (hcel : ∀ i, i < a.largeur_grille * a.hauteur_grille → ga i = gb i)
    (henv : ∀ i, i < a.largeur_grille * a.hauteur_grille →
      a.grille_environnement i = b.grille_environnement i) :
    (calculer_generation_suivante F a).generation_actuelle =
      (calculer_generation_suivante F b).generation_actuelle ∧
    (calculer_generation_suivante F a).population_totale =
      (calculer_generation_suivante F b).population_totale ∧
    (∀ i, i < a.largeur_grille * a.hauteur_grille →
      (calculer_generation_suivante F a).grille_environnement i =
        (calculer_generation_suivante F b).grille_environnement i) ∧
    (∃ ga2 gb2, (calculer_generation_suivante F a).grille_cellules_actuelles = some ga2 ∧
      (calculer_generation_suivante F b).grille_cellules_actuelles = some gb2 ∧
      ∀ i, i < a.largeur_grille * a.hauteur_grille →
        (ga2 i).vivante = (gb2 i).vivante ∧ ((ga2 i).vivante ≠ 0 → ga2 i = gb2 i)) ∧
    (etat_apres_passe F a ga sa).generateur = (etat_apres_passe F b gb sb).generateur ∧
    graine_generation a.generation_actuelle =
      (a.generation_actuelle * 0x9E3779B9) % 4294967296 := by
  rw [Nat.mul_comm] at hcel henv
  have hp : etats_equivalents (a.hauteur_grille * a.largeur_grille)
      (a.hauteur_grille * a.largeur_grille) (etat_apres_passe F a ga sa)
      (etat_apres_passe F b gb sb) := by
    unfold etat_apres_passe
    rw [← hW, ← hH, ← hmn, ← hms, ← hgen]
    exact passe_cellules_equiv F _ _ _ _ _ ga gb _ _ hcel
      (mettre_a_jour_environnement_congr F _ _ _ ga gb _ _ hcel henv) rfl rfl
  obtain ⟨hp1, hp2, hp3, hp4⟩ := hp
  rw [calculer_generation_suivante_presents F a ga sa ha hsa,
    calculer_generation_suivante_presents F b gb sb hb hsb, Nat.mul_comm a.largeur_grille]
  refine ⟨by rw [hgen], hp2, hp3, ⟨_, _, rfl, rfl, ?_⟩, hp1, rfl⟩
  unfold grille_apres_mouvement
  rw [← hW, ← hH, ← hgen]
  split
  · exact passe_mouvement_equiv _ _ _ _ hp1 hp4
  · exact hp4

theorem calculer_generation_suivante_deterministe_witness :
    (automate_exemple grille_bloc 0).grille_cellules_actuelles = some grille_bloc ∧
    (automate_exemple_bis grille_bloc 0).grille_cellules_actuelles = some grille_bloc ∧
    (automate_exemple grille_bloc 0).grille_cellules_suivantes = some grille_vide ∧
    (automate_exemple_bis grille_bloc 0).grille_cellules_suivantes = some grille_bloc ∧
    (automate_exemple grille_bloc 0).population_totale ≠
      (automate_exemple_bis grille_bloc 0).population_totale ∧
    (calculer_generation_suivante flottants_exemple
        (automate_exemple grille_bloc 0)).population_totale =
      (calculer_generation_suivante flottants_exemple
        (automate_exemple_bis grille_bloc 0)).population_totale :=
  ⟨rfl, rfl, rfl, rfl, by decide,
    (calculer_generation_suivante_deterministe flottants_exemple
      (automate_exemple grille_bloc 0) (automate_exemple_bis grille_bloc 0)
      grille_bloc grille_bloc grille_vide grille_bloc rfl rfl rfl rfl rfl rfl rfl rfl rfl
      (fun _ _ => rfl) (fun _ _ => rfl)).2.1⟩

/-! ## The step: generation and population claims -/

/-- C4: after a step on an automaton with both buffers present (whose cell count fits
the 32-bit counter), `population_totale` equals the number of cells of the current grid
with `vivante != 0`, also when the movement pass ran and when births were cancelled. -/
theorem calculer_generation_suivante_population (F : Flottants) (a : AutomateCellulaire)
    (actuelles suivantes : Grille) (ha : a.grille_cellules_actuelles = some actuelles)
    (hs : a.grille_cellules_suivantes = some suivantes)
    (hn : a.largeur_grille * a.hauteur_grille < 4294967296) :
    ∃ g, (calculer_generation_suivante F a).grille_cellules_actuelles = some g ∧
      (calculer_generation_suivante F a).population_totale =
        compter_vivantes g (a.largeur_grille * a.hauteur_grille) := by
  refine ⟨grille_apres_mouvement F a actuelles suivantes, ?_, ?_⟩
  · rw [calculer_generation_suivante_presents F a actuelles suivantes ha hs]
  · rw [calculer_generation_suivante_presents F a actuelles suivantes ha hs,
      Nat.mul_comm a.largeur_grille, grille_apres_mouvement_compter]
    exact passe_cellules_population F _ _ _ _ _ actuelles _ rfl
      (by rw [Nat.mul_comm]; exact hn)

theorem calculer_generation_suivante_population_witness :
    (automate_exemple grille_bloc 0).grille_cellules_actuelles = some grille_bloc ∧
    (automate_exemple grille_bloc 0).grille_cellules_suivantes = some grille_vide ∧
    (automate_exemple grille_bloc 0).largeur_grille *
      (automate_exemple grille_bloc 0).hauteur_grille < 4294967296 ∧
    ∃ g, (calculer_generation_suivante flottants_exemple
        (automate_exemple grille_bloc 0)).grille_cellules_actuelles = some g ∧
      (calculer_generation_suivante flottants_exemple
        (automate_exemple grille_bloc 0)).population_totale =
        compter_vivantes g ((automate_exemple grille_bloc 0).largeur_grille *
          (automate_exemple grille_bloc 0).hauteur_grille) :=
  ⟨rfl, rfl, by decide,
    calculer_generation_suivante_population flottants_exemple (automate_exemple grille_bloc 0)
      grille_bloc grille_vide rfl rfl (by decide)⟩

/-- C7: on an automaton with both buffers present, `population_totale` after a step is
at most `largeur_grille * hauteur_grille`. -/
theorem population_bornee_par_la_grille (F : Flottants)
    (a : AutomateCellulaire) (actuelles suivantes : Grille)
    (ha : a.grille_cellules_actuelles = some actuelles)
    (hs : a.grille_cellules_suivantes = some suivantes) :
    (calculer_generation_suivante F a).population_totale ≤
      a.largeur_grille * a.hauteur_grille := by
  rw [calculer_generation_suivante_presents F a actuelles suivantes ha hs,
    Nat.mul_comm a.largeur_grille]
  exact passe_cellules_population_le F _ _ _ _ _ actuelles _ rfl

theorem population_bornee_par_la_grille_witness :
    (automate_exemple grille_bloc 7).grille_cellules_actuelles = some grille_bloc ∧
    (automate_exemple grille_bloc 7).grille_cellules_suivantes = some grille_vide ∧
    (calculer_generation_suivante flottants_exemple
        (automate_exemple grille_bloc 7)).population_totale ≤
      (automate_exemple grille_bloc 7).largeur_grille *
        (automate_exemple grille_bloc 7).hauteur_grille :=
  ⟨rfl, rfl, population_bornee_par_la_grille flottants_exemple
    (automate_exemple grille_bloc 7) grille_bloc grille_vide rfl rfl⟩

/-! ## The step on an all-dead grid -/

theorem evaluer_cellule_tous_morts (F : Flottants) (largeur hauteur masque_naissance
    masque_survie generation : Nat) (actuelles : Grille) (ligne colonne : Nat)
    (s : CelluleEvolutive) (env : EnvironnementLocal) (g pop : Nat)
    (hl : ligne < hauteur) (hc : colonne < largeur)
    (h : ∀ i, i < hauteur * largeur → (actuelles i).vivante = 0) :
    evaluer_cellule F largeur hauteur masque_naissance masque_survie generation actuelles
      ligne colonne s env g pop = ⟨laisser_morte s 0 0, env, g, pop⟩ := by
  unfold evaluer_cellule
  simp only
  rw [if_neg (by simp [h _ (position_lt ligne colonne largeur hauteur hl hc)]),
    collecter_voisins_tous_morts actuelles largeur hauteur ligne colonne hl hc h]
  rfl

theorem passe_cellules_tous_morts (F : Flottants) (largeur hauteur masque_naissance
    masque_survie generation : Nat) (actuelles : Grille) (st : EtatPasse)
    (h : ∀ i, i < hauteur * largeur → (actuelles i).vivante = 0) :
    (passe_cellules F largeur hauteur masque_naissance masque_survie generation actuelles
      st).population = st.population ∧
    ∀ i, i < hauteur * largeur →
      ((passe_cellules F largeur hauteur masque_naissance masque_survie generation actuelles
        st).suivantes i).vivante = 0 := by
  unfold passe_cellules
  refine boucle_grille_inv
    (fun k s => s.population = st.population ∧ ∀ i, i < k → (s.suivantes i).vivante = 0)
    largeur hauteur _ st ⟨rfl, fun i hi => absurd hi (Nat.not_lt_zero i)⟩ ?_
  intro l c hl hc s hP
  simp only [traiter_cellule,
    evaluer_cellule_tous_morts F largeur hauteur masque_naissance masque_survie generation
      actuelles l c _ _ _ _ hl hc h]
  refine ⟨hP.1, fun i hi => ?_⟩
  by_cases hi2 : i = l * largeur + c
  · rw [hi2, ecrire_meme]
    rfl
  · rw [ecrire_autre _ _ _ _ hi2]
    exact hP.2 i (by omega)

theorem passe_mouvement_tous_morts (largeur hauteur : Nat) (st : Grille × Nat)
    (h : ∀ i, i < hauteur * largeur → (st.1 i).vivante = 0) :
    passe_mouvement largeur hauteur st = st := by
  unfold passe_mouvement
  refine boucle_grille_inv (fun _ s => s = st) largeur hauteur _ st rfl ?_
  intro l c hl hc s hP
  subst hP
  unfold deplacer_cellule
  simp only
  rw [if_neg (by simp [h _ (position_lt l c largeur hauteur hl hc)])]

theorem grille_apres_mouvement_tous_morts (F : Flottants) (a : AutomateCellulaire)
    (actuelles suivantes : Grille)
    (h : ∀ i, i < a.hauteur_grille * a.largeur_grille → (actuelles i).vivante = 0) :
    ∀ i, i < a.hauteur_grille * a.largeur_grille →
      (grille_apres_mouvement F a actuelles suivantes i).vivante = 0 := by
  have hp := (passe_cellules_tous_morts F a.largeur_grille a.hauteur_grille
    a.masque_conditions_naissance a.masque_conditions_survie a.generation_actuelle actuelles
    ⟨suivantes, mettre_a_jour_environnement F a.largeur_grille a.hauteur_grille
      a.generation_actuelle actuelles a.grille_environnement,
      graine_generation a.generation_actuelle, 0⟩ h).2
  unfold grille_apres_mouvement
  split
  · rw [passe_mouvement_tous_morts _ _ _ hp]
    exact hp
  · exact hp

theorem calculer_generation_suivante_tous_morts (F : Flottants) (a : AutomateCellulaire)
    (h : tous_morts a) :
    tous_morts (calculer_generation_suivante F a) ∧
    (calculer_generation_suivante F a).population_totale = 0 ∧
    (calculer_generation_suivante F a).largeur_grille = a.largeur_grille ∧
    (calculer_generation_suivante F a).hauteur_grille = a.hauteur_grille := by
  obtain ⟨actuelles, suivantes, ha, hs, hm⟩ := h
  rw [Nat.mul_comm] at hm
  rw [calculer_generation_suivante_presents F a actuelles suivantes ha hs]
  refine ⟨⟨grille_apres_mouvement F a actuelles suivantes, actuelles, rfl, rfl, ?_⟩, ?_, rfl, rfl⟩
  · show ∀ i, i < a.largeur_grille * a.hauteur_grille → _
    rw [Nat.mul_comm]
    exact grille_apres_mouvement_tous_morts F a actuelles suivantes hm
  · exact (passe_cellules_tous_morts F a.largeur_grille a.hauteur_grille
      a.masque_conditions_naissance a.masque_conditions_survie a.generation_actuelle actuelles
      _ hm).1

theorem iterer_tous_morts (F : Flottants) (n : Nat) (a : AutomateCellulaire)
    (h : tous_morts a) :
    tous_morts (iterer F n a) ∧ (0 < n → (iterer F n a).population_totale = 0) := by
  induction n with
  | zero => exact ⟨h, fun h0 => absurd h0 (Nat.lt_irrefl 0)⟩
  | succ k ih =>
    have hk := calculer_generation_suivante_tous_morts F (iterer F k a) ih.1
    exact ⟨hk.1, fun _ => hk.2.1⟩

/-! ## Where the code departs from the specification -/

/-- C3 (evaluation at a failing input): on the 4x4 automaton with rule `B3/S23` at
generation 0 whose only live cell (age 10, health 50, survival genotype 110) is at row 1,
column 1, the cell is dead after the step (it has no live neighbour) but its record
keeps age 11 and health 51 and holds genotype 0, not the reset defaults 0, 0 and 128;
whatever the `float` expressions return, a live cell of age 10 without live neighbour
under the survival mask of `S23` is left dead with age 11. -/
theorem cellule_morte_garde_son_age :
    (cellule_apres_etape flottants_exemple (automate_exemple grille_solitaire 0) 5).vivante = 0 ∧
    (cellule_apres_etape flottants_exemple (automate_exemple grille_solitaire 0) 5).age = 11 ∧
    (cellule_apres_etape flottants_exemple (automate_exemple grille_solitaire 0) 5).sante = 51 ∧
    (cellule_apres_etape flottants_exemple
      (automate_exemple grille_solitaire 0) 5).genotype_survie = 0 ∧
    cellule_defaut.age = 0 ∧ cellule_defaut.sante = 0 ∧ cellule_defaut.genotype_survie = 128 ∧
    ∀ (F : Flottants) (s : CelluleEvolutive) (env : EnvironnementLocal) (g pop : Nat),
      (evaluer_survie F 0x000C 0 (cellule_vivante 10) s env g pop 0).cellule.vivante = 0 ∧
      (evaluer_survie F 0x000C 0 (cellule_vivante 10) s env g pop 0).cellule.age = 11 := by
  refine ⟨by decide!, by decide!, by decide!, by decide!, rfl, rfl, rfl, ?_⟩
  intro F s env g pop
  have hm : ∀ (e : EnvironnementLocal) (sante g2 : Nat),
      morte_a_l_age 11 ⟨laisser_morte s 11 sante, e, g2, pop⟩ := fun _ _ _ => ⟨rfl, rfl⟩
  have hr : ∀ (e : EnvironnementLocal) (sante g2 : Nat),
      morte_a_l_age 11 (appliquer_regle 0x000C (cellule_vivante 10) s e 11 sante g2 pop 0) := by
    intro e sante g2
    unfold appliquer_regle
    rw [if_neg (by decide)]
    exact hm _ _ _
  have hi : ∀ (e : EnvironnementLocal) (sante g2 : Nat),
      morte_a_l_age 11
        (evaluer_instabilite 0x000C 0 (cellule_vivante 10) s e 11 sante g2 pop 0) := by
    intro e sante g2
    unfold evaluer_instabilite
    simp only
    exact ite_prop (morte_a_l_age 11) (hm _ _ _)
      (ite_prop (morte_a_l_age 11) (ite_prop (morte_a_l_age 11) (hm _ _ _) (hr _ _ _))
        (hr _ _ _))
  have hs : morte_a_l_age 11
      (evaluer_survie F 0x000C 0 (cellule_vivante 10) s env g pop 0) := by
    unfold evaluer_survie
    simp only
    rw [show vieillir (cellule_vivante 10).age = 11 by decide]
    exact ite_prop (morte_a_l_age 11) (hm _ _ _)
      (ite_prop (morte_a_l_age 11) (hm _ _ _)
        (ite_prop (morte_a_l_age 11) (hm _ _ _)
          (ite_prop (morte_a_l_age 11) (hm _ _ _) (hi _ _ _))))
  exact hs

/-- C8 (evaluation at a failing input): with a parent average of 5 and the drawn offset
-10 the clamp expression of the code yields 255, not 0; a dead cell with three fertile
parents of reproductive fitness 5 and generator state 1092 is born with reproductive
fitness 255. -/
theorem mutation_negative_donne_255 :
    borner_mutation_u32 5 0 10 = 255 ∧
    (evaluer_naissance flottants_exemple 4 4 0x0008 0 1 1
      [cellule_fitness_5, cellule_fitness_5, cellule_fitness_5] cellule_defaut
      environnement_defaut 1092 0 3).cellule.vivante = 1 ∧
    (evaluer_naissance flottants_exemple 4 4 0x0008 0 1 1
      [cellule_fitness_5, cellule_fitness_5, cellule_fitness_5] cellule_defaut
      environnement_defaut 1092 0 3).cellule.fitness_reproductif = 255 ∧
    cellule_fitness_5.fitness_reproductif = 5 := by
  refine ⟨by decide!, by decide!, by decide!, rfl⟩

/-- C9 (evaluation at a failing input): on the 4x4 automaton with rule `B3/S23` at
generation 0 holding a 2x2 block of live cells, the cell of age 255 survives the step
and its new age is 1: the age is `(255 + 2) mod 256`, not `min(255, 255 + 2)`. -/
theorem age_reboucle_a_256 :
    vieillir 255 = 1 ∧ vieillir 254 = 0 ∧
    (grille_bloc 5).vivante = 1 ∧ (grille_bloc 5).age = 255 ∧
    (cellule_apres_etape flottants_exemple (automate_exemple grille_bloc 0) 5).vivante = 1 ∧
    (cellule_apres_etape flottants_exemple (automate_exemple grille_bloc 0) 5).age = 1 := by
  refine ⟨by decide, by decide, by decide, by decide, by decide!, by decide!⟩

/-! ## Rule parser: characters that are not neighbour counts -/

theorem lire_survie_filtre (cs : List Char) :
    ∀ m : Nat, (∀ c ∈ cs, c.toNat ≠ 0) →
      lire_survie cs m = lire_survie (cs.filter est_chiffre_voisins) m := by
  induction cs with
  | nil => intro m _; rfl
  | cons c reste ih =>
    intro m hcs
    have hz : c.toNat ≠ 0 := hcs c (List.mem_cons_self _ _)
    have hr := ih (ajouter_chiffre m c) (fun d hd => hcs d (List.mem_cons_of_mem _ hd))
    rw [lire_survie, if_neg hz, hr]
    by_cases hc : est_chiffre_voisins c = true
    · rw [List.filter_cons_of_pos hc, lire_survie, if_neg hz]
    · rw [List.filter_cons_of_neg hc, ajouter_chiffre_autre m c (by simpa using hc)]

theorem lire_naissance_sans_barre (cs suite : List Char)
    (hs : suite = [] ∨ ∃ t, suite = '/' :: t) :
    ∀ m : Nat, (∀ c ∈ cs, c.toNat ≠ 0 ∧ c ≠ '/') →
      lire_naissance (cs ++ suite) m = (lire_survie cs m, suite) := by
  induction cs with
  | nil =>
    intro m _
    rcases hs with h | ⟨t, h⟩
    · subst h
      simp [lire_naissance, lire_survie]
    · subst h
      simp [lire_naissance, lire_survie]
  | cons c reste ih =>
    intro m hcs
    have hc := hcs c (List.mem_cons_self _ _)
    have hr := ih (ajouter_chiffre m c) (fun d hd => hcs d (List.mem_cons_of_mem _ hd))
    rw [List.cons_append, lire_naissance, if_neg (by simp [hc.1, hc.2]), hr, lire_survie,
      if_neg hc.1]

theorem chiffre_sans_nul_ni_barre (c : Char) (hc : est_chiffre_voisins c = true) :
    c.toNat ≠ 0 ∧ c ≠ '/' := by
  constructor
  · unfold est_chiffre_voisins at hc
    rw [Bool.and_eq_true, decide_eq_true_iff] at hc
    omega
  · intro h
    rw [h] at hc
    exact absurd hc (by decide)

/-- The two masks parsed from `B<bs>/S<ss>` when `bs` holds neither NUL nor `/` and `ss`
holds no NUL. -/
theorem analyser_regles_automate_listes (a : AutomateCellulaire) (bs ss : List Char)
    (hbs : ∀ c ∈ bs, c.toNat ≠ 0 ∧ c ≠ '/') (hss : ∀ c ∈ ss, c.toNat ≠ 0) :
    (analyser_regles_automate
      (avec_regles a ('B' :: (bs ++ '/' :: 'S' :: ss)))).masque_conditions_naissance =
        lire_survie (bs.filter est_chiffre_voisins) 0 ∧
    (analyser_regles_automate
      (avec_regles a ('B' :: (bs ++ '/' :: 'S' :: ss)))).masque_conditions_survie =
        lire_survie (ss.filter est_chiffre_voisins) 0 := by
  have h2 := lire_naissance_sans_barre bs ('/' :: 'S' :: ss) (Or.inr ⟨_, rfl⟩) 0 hbs
  simp only [analyser_regles_automate, avec_regles, ne_eq, not_true_eq_false, if_false, h2,
    if_true]
  exact ⟨lire_survie_filtre bs 0 (fun c hc => (hbs c hc).1), lire_survie_filtre ss 0 hss⟩

/-- C11: in a rule text `B<bs>/S<ss>` (a C string, so without NUL) with no `/` in `bs`,
removing from `bs` and from `ss` every character outside `'0'..'8'` leaves both parsed
masks unchanged; `B39/S2x93` parses to the masks of `B3/S23`. -/
theorem analyser_regles_automate_ignore_autres (a : AutomateCellulaire) (bs ss : List Char)
    (hbs : ∀ c ∈ bs, c.toNat ≠ 0 ∧ c ≠ '/') (hss : ∀ c ∈ ss, c.toNat ≠ 0) :
    (analyser_regles_automate
      (avec_regles a ('B' :: (bs ++ '/' :: 'S' :: ss)))).masque_conditions_naissance =
    (analyser_regles_automate
      (avec_regles a ('B' :: (bs.filter (fun c => decide ('0' ≤ c ∧ c ≤ '8')) ++
        '/' :: 'S' :: ss.filter (fun c => decide ('0' ≤ c ∧ c ≤ '8')))))).masque_conditions_naissance ∧
    (analyser_regles_automate
      (avec_regles a ('B' :: (bs ++ '/' :: 'S' :: ss)))).masque_conditions_survie =
    (analyser_regles_automate
      (avec_regles a ('B' :: (bs.filter (fun c => decide ('0' ≤ c ∧ c ≤ '8')) ++
        '/' :: 'S' :: ss.filter (fun c => decide ('0' ≤ c ∧ c ≤ '8')))))).masque_conditions_survie ∧
    (analyser_regles_automate (avec_regles a
      ['B', '3', '9', '/', 'S', '2', 'x', '9', '3'])).masque_conditions_naissance =
    (analyser_regles_automate (avec_regles a
      ['B', '3', '/', 'S', '2', '3'])).masque_conditions_naissance ∧
    (analyser_regles_automate (avec_regles a
      ['B', '3', '9', '/', 'S', '2', 'x', '9', '3'])).masque_conditions_survie =
    (analyser_regles_automate (avec_regles a
      ['B', '3', '/', 'S', '2', '3'])).masque_conditions_survie := by
  have hf : (fun c : Char => decide ('0' ≤ c ∧ c ≤ '8')) = est_chiffre_voisins := by
    funext c
    rw [Bool.eq_iff_iff, decide_eq_true_iff, est_chiffre_voisins_iff]
  rw [hf]
  have h1 := analyser_regles_automate_listes a bs ss hbs hss
  have h2 := analyser_regles_automate_listes a (bs.filter est_chiffre_voisins)
    (ss.filter est_chiffre_voisins)
    (fun c hc => chiffre_sans_nul_ni_barre c (List.mem_filter.1 hc).2)
    (fun c hc => (chiffre_sans_nul_ni_barre c (List.mem_filter.1 hc).2).1)
  rw [List.filter_filter, List.filter_filter] at h2
  simp only [Bool.and_self] at h2
  exact ⟨h1.1.trans h2.1.symm, h1.2.trans h2.2.symm, rfl, rfl⟩

theorem analyser_regles_automate_ignore_autres_witness :
    (∀ c ∈ ['3', '9', ' ', 'a'], c.toNat ≠ 0 ∧ c ≠ '/') ∧
    (∀ c ∈ ['2', 'x', '/', '3'], c.toNat ≠ 0) ∧
    (analyser_regles_automate (avec_regles (automate_sans_grille 0 0)
      ('B' :: (['3', '9', ' ', 'a'] ++ '/' :: 'S' :: ['2', 'x', '/', '3'])))).masque_conditions_survie =
    (analyser_regles_automate (avec_regles (automate_sans_grille 0 0)
      ('B' :: (['3', '9', ' ', 'a'].filter (fun c => decide ('0' ≤ c ∧ c ≤ '8')) ++
        '/' :: 'S' :: ['2', 'x', '/', '3'].filter
          (fun c => decide ('0' ≤ c ∧ c ≤ '8')))))).masque_conditions_survie :=
  ⟨by decide, by decide,
    (analyser_regles_automate_ignore_autres (automate_sans_grille 0 0)
      ['3', '9', ' ', 'a'] ['2', 'x', '/', '3'] (by decide) (by decide)).2.1⟩

/-! ## Buffer exchange, absent pointers, genotype and rule evaluation -/

/-- C12: after `calculer_generation_suivante` on an automaton with both buffers present,
the next buffer is exactly the current buffer of before the step, at every position and in
every field, also on generations with a movement pass. -/
theorem calculer_generation_suivante_echange (F : Flottants) (a : AutomateCellulaire)
    (actuelles suivantes : Grille) (ha : a.grille_cellules_actuelles = some actuelles)
    (hs : a.grille_cellules_suivantes = some suivantes) :
    (calculer_generation_suivante F a).grille_cellules_suivantes = some actuelles := by
  rw [calculer_generation_suivante_presents F a actuelles suivantes ha hs]

theorem calculer_generation_suivante_echange_witness :
    (automate_exemple grille_bloc 0).grille_cellules_actuelles = some grille_bloc ∧
    (automate_exemple grille_bloc 0).grille_cellules_suivantes = some grille_vide ∧
    (automate_exemple grille_bloc 0).generation_actuelle % 10 = 0 ∧
    (calculer_generation_suivante flottants_exemple
      (automate_exemple grille_bloc 0)).grille_cellules_suivantes = some grille_bloc :=
  ⟨rfl, rfl, rfl, calculer_generation_suivante_echange flottants_exemple
    (automate_exemple grille_bloc 0) grille_bloc grille_vide rfl rfl⟩

/-- C19: if the current or the next cell buffer is absent, `calculer_generation_suivante`
returns the automaton unchanged; if the rule text is absent, `analyser_regles_automate`
returns it unchanged; if the current cell buffer is absent, each initialiser returns it
unchanged. -/
theorem pointeurs_absents (F : Flottants) (a : AutomateCellulaire) (graine type : Nat) :
    (a.grille_cellules_actuelles = none ∨ a.grille_cellules_suivantes = none →
      calculer_generation_suivante F a = a) ∧
    (a.regles_format_texte = none → analyser_regles_automate a = a) ∧
    (a.grille_cellules_actuelles = none →
      initialiser_grille_uniforme a graine = a ∧
      initialiser_grille_centre F a graine = a ∧
      initialiser_grille_clusters a graine = a ∧
      initialiser_grille_selon_type F a type graine = a ∧
      initialiser_grille_aleatoire a graine = a) := by
  refine ⟨fun h => ?_, fun h => ?_, fun h => ?_⟩
  · unfold calculer_generation_suivante
    split
    · rename_i h1 h2
      rcases h with h | h
      · rw [h] at h1
        cases h1
      · rw [h] at h2
        cases h2
    · rfl
  · unfold analyser_regles_automate
    rw [h]
  · have hu : initialiser_grille_uniforme a graine = a := by
      unfold initialiser_grille_uniforme
      rw [h]
    have hc : initialiser_grille_centre F a graine = a := by
      unfold initialiser_grille_centre
      rw [h]
    have hk : initialiser_grille_clusters a graine = a := by
      unfold initialiser_grille_clusters
      rw [h]
    refine ⟨hu, hc, hk, ?_, hk⟩
    unfold initialiser_grille_selon_type
    split
    · exact hu
    · exact hc
    · exact hk
    · exact hk

theorem pointeurs_absents_witness :
    ((automate_sans_grille 8 12).grille_cellules_actuelles = none ∨
      (automate_sans_grille 8 12).grille_cellules_suivantes = none) ∧
    calculer_generation_suivante flottants_exemple (automate_sans_grille 8 12) =
      automate_sans_grille 8 12 ∧
    (automate_sans_grille 8 12).regles_format_texte = none ∧
    analyser_regles_automate (automate_sans_grille 8 12) = automate_sans_grille 8 12 ∧
    initialiser_grille_clusters (automate_sans_grille 8 12) 1 = automate_sans_grille 8 12 :=
  ⟨Or.inl rfl,
    (pointeurs_absents flottants_exemple (automate_sans_grille 8 12) 1 2).1 (Or.inl rfl),
    rfl,
    (pointeurs_absents flottants_exemple (automate_sans_grille 8 12) 1 2).2.1 rfl,
    ((pointeurs_absents flottants_exemple (automate_sans_grille 8 12) 1 2).2.2 rfl).2.2.1⟩

/-- C14: for each of the three strategies and every automaton, initialising with seed 0
gives exactly the result of initialising with seed 0x12345678. -/
theorem graine_nulle_remplacee (F : Flottants) (a : AutomateCellulaire) :
    initialiser_grille_uniforme a 0 = initialiser_grille_uniforme a 0x12345678 ∧
    initialiser_grille_centre F a 0 = initialiser_grille_centre F a 0x12345678 ∧
    initialiser_grille_clusters a 0 = initialiser_grille_clusters a 0x12345678 ∧
    graine_effective 0 = 0x12345678 := by
  have h : graine_effective 0 = graine_effective 0x12345678 := by decide
  refine ⟨?_, ?_, ?_, by decide⟩
  · unfold initialiser_grille_uniforme
    rw [h]
  · unfold initialiser_grille_centre
    rw [h]
  · unfold initialiser_grille_clusters
    rw [h]

/-- C20 (evaluation at a failing input): under the survival mask of `S23` a cell with
survival genotype 110 passes rule evaluation with 3 live neighbours, but a cell with
survival genotype 200 does not pass with 4: the code sets bit `n + 1` of the adapted mask
and then tests bit `n`.  On the 4x4 automaton at generation 0, the cell at row 1,
column 1 survives with genotype 110 and three live neighbours, and dies with genotype 200
and four; a cell with genotype 10 passes with 2 and with 3 neighbours and not with 1,
like a cell with genotype 110. -/
theorem genotype_sans_effet_sur_la_regle :
    (appliquer_regle 0x000C (cellule_genotype 110) cellule_defaut environnement_defaut
      11 51 0 0 3).cellule.vivante = 1 ∧
    (appliquer_regle 0x000C (cellule_genotype 200) cellule_defaut environnement_defaut
      11 51 0 0 4).cellule.vivante = 0 ∧
    masque_survie_adapte 0x000C 200 4 = 0x002C ∧
    (cellule_apres_etape flottants_exemple (automate_exemple (grille_te 110) 0) 5).vivante = 1 ∧
    (cellule_apres_etape flottants_exemple (automate_exemple (grille_croix 200) 0) 5).vivante
      = 0 ∧
    (appliquer_regle 0x000C (cellule_genotype 10) cellule_defaut environnement_defaut
      11 51 0 0 3).cellule.vivante = 1 ∧
    (appliquer_regle 0x000C (cellule_genotype 10) cellule_defaut environnement_defaut
      11 51 0 0 2).cellule.vivante = 1 ∧
    (appliquer_regle 0x000C (cellule_genotype 10) cellule_defaut environnement_defaut
      11 51 0 0 1).cellule.vivante = 0 ∧
    (appliquer_regle 0x000C (cellule_genotype 110) cellule_defaut environnement_defaut
      11 51 0 0 1).cellule.vivante = 0 := by
  refine ⟨by decide!, by decide!, by decide!, by decide!, by decide!, by decide!, by decide!,
    by decide!, by decide!⟩

/-! ## The initialisers: reset -/

/-- An invariant of a loop, indexed by the number of iterations done. -/
theorem boucle_inv {σ : Type} (P : Nat → σ → Prop) (n : Nat) (f : Nat → σ → σ) (s : σ)
    (h0 : P 0 s) (hpas : ∀ k, k < n → ∀ s, P k s → P (k + 1) (f k s)) :
    P n (boucle n f s) :=
  boucle_rel (fun k s (_ : Unit) => P k s) n f (fun _ u => u) s () h0
    (fun k hk s _ h => hpas k hk s h)

theorem nettoyer_grille_propre (largeur hauteur : Nat) (t : Tampons) :
    (∀ i, i < largeur * hauteur →
      (nettoyer_grille largeur hauteur t).actuelles i = cellule_defaut) ∧
    (∀ i, i < largeur * hauteur →
      (nettoyer_grille largeur hauteur t).environnement i = environnement_defaut) ∧
    (∀ g, t.suivantes = some g → ∃ g2, (nettoyer_grille largeur hauteur t).suivantes = some g2 ∧
      ∀ i, i < largeur * hauteur → g2 i = cellule_defaut) := by
  unfold nettoyer_grille
  refine boucle_inv
    (fun k (r : Tampons) => (∀ i, i < k → r.actuelles i = cellule_defaut) ∧
      (∀ i, i < k → r.environnement i = environnement_defaut) ∧
      (∀ g, t.suivantes = some g → ∃ g2, r.suivantes = some g2 ∧
        ∀ i, i < k → g2 i = cellule_defaut))
    (largeur * hauteur) _ t
    ⟨fun i hi => absurd hi (Nat.not_lt_zero i), fun i hi => absurd hi (Nat.not_lt_zero i),
      fun g hg => ⟨g, hg, fun i hi => absurd hi (Nat.not_lt_zero i)⟩⟩ ?_
  intro k _ r hP
  obtain ⟨h1, h2, h3⟩ := hP
  have key : ∀ {α : Type} (g : Nat → α) (v : α), (∀ i, i < k → g i = v) →
      ∀ i, i < k + 1 → ecrire g k v i = v := by
    intro α g v hg i hi
    by_cases hik : i = k
    · rw [hik, ecrire_meme]
    · rw [ecrire_autre _ _ _ _ hik]
      exact hg i (by omega)
  refine ⟨key _ _ h1, key _ _ h2, fun g hg => ?_⟩
  obtain ⟨g2, hg2, h4⟩ := h3 g hg
  exact ⟨ecrire g2 k cellule_defaut, by simp only [hg2, Option.map_some'], key _ _ h4⟩

/-- The record of a cell made alive by the uniform or centre-weighted initialiser does not
depend on the record it replaces. -/
theorem cellule_initiale_indep (g colonne ligne largeur hauteur : Nat)
    (c1 c2 : CelluleEvolutive) :
    cellule_initiale g colonne ligne largeur hauteur c1 =
      cellule_initiale g colonne ligne largeur hauteur c2 := rfl

theorem cellule_initiale_vivante (g colonne ligne largeur hauteur : Nat)
    (c : CelluleEvolutive) :
    (cellule_initiale g colonne ligne largeur hauteur c).1.vivante = 1 := rfl

/-- The sowing loop of the uniform and centre-weighted initialisers keeps "dead cells
hold the reset record". -/
theorem semer_cellule_morts (largeur hauteur : Nat) (seuil : Nat → Nat → Nat)
    (st : Grille × Nat)
    (h : ∀ i, i < hauteur * largeur → (st.1 i).vivante = 0 → st.1 i = cellule_defaut) :
    ∀ i, i < hauteur * largeur →
      ((boucle hauteur (fun ligne st => boucle largeur (fun colonne st =>
        semer_cellule largeur hauteur (seuil ligne colonne) ligne colonne st) st) st).1
          i).vivante = 0 →
      (boucle hauteur (fun ligne st => boucle largeur (fun colonne st =>
        semer_cellule largeur hauteur (seuil ligne colonne) ligne colonne st) st) st).1 i =
        cellule_defaut := by
  refine boucle_grille_inv
    (fun _ (x : Grille × Nat) =>
      ∀ i, i < hauteur * largeur → (x.1 i).vivante = 0 → x.1 i = cellule_defaut)
    largeur hauteur
    (fun ligne colonne st => semer_cellule largeur hauteur (seuil ligne colonne) ligne colonne st)
    st h ?_
  intro l c _ _ x hP i hi
  unfold semer_cellule
  simp only
  split
  · by_cases hik : i = l * largeur + c
    · simp only [hik, ecrire_meme, cellule_initiale_vivante]
      intro h0
      exact absurd h0 (by decide)
    · simp only [ecrire_autre _ _ _ _ hik]
      exact hP i hi
  · exact hP i hi

/-- Two runs of the sowing loop of the uniform and centre-weighted initialisers from the
same generator give the same records wherever the two buffers agreed. -/
theorem semer_cellule_congr (largeur hauteur : Nat) (seuil : Nat → Nat → Nat)
    (x y : Grille × Nat) (hg : x.2 = y.2)
    (h : ∀ i, i < hauteur * largeur → x.1 i = y.1 i) :
    ∀ i, i < hauteur * largeur →
      (boucle hauteur (fun ligne st => boucle largeur (fun colonne st =>
        semer_cellule largeur hauteur (seuil ligne colonne) ligne colonne st) st) x).1 i =
      (boucle hauteur (fun ligne st => boucle largeur (fun colonne st =>
        semer_cellule largeur hauteur (seuil ligne colonne) ligne colonne st) st) y).1 i := by
  refine (boucle_grille_rel
    (fun _ (u v : Grille × Nat) => u.2 = v.2 ∧ ∀ i, i < hauteur * largeur → u.1 i = v.1 i)
    largeur hauteur
    (fun ligne colonne st => semer_cellule largeur hauteur (seuil ligne colonne) ligne colonne st)
    (fun ligne colonne st => semer_cellule largeur hauteur (seuil ligne colonne) ligne colonne st)
    x y ⟨hg, h⟩ ?_).2
  intro l c _ _ u v hR
  obtain ⟨hg, h⟩ := hR
  unfold semer_cellule
  simp only
  rw [hg, cellule_initiale_indep _ _ _ _ _ (u.1 (l * largeur + c)) (v.1 (l * largeur + c))]
  refine ite_rel
    (fun (u v : Grille × Nat) => u.2 = v.2 ∧ ∀ i, i < hauteur * largeur → u.1 i = v.1 i)
    ⟨rfl, fun i hi => ?_⟩ ⟨rfl, h⟩
  simp only [ecrire]
  split
  · rfl
  · exact h i hi

/-! ## The clustered initialiser: lemmas -/

theorem compter_voisin_vivant_congr (g1 g2 : Grille) (largeur hauteur ligne colonne : Nat)
    (h : ∀ i, i < hauteur * largeur → g1 i = g2 i) (dy dx n : Nat) :
    compter_voisin_vivant g1 largeur hauteur ligne colonne dy dx n =
      compter_voisin_vivant g2 largeur hauteur ligne colonne dy dx n := by
  unfold compter_voisin_vivant
  by_cases hb : 1 ≤ colonne + dx ∧ colonne + dx - 1 < largeur ∧
      1 ≤ ligne + dy ∧ ligne + dy - 1 < hauteur
  · rw [if_pos hb, if_pos hb, h _ (position_lt _ _ _ _ hb.2.2.2 hb.2.1)]
  · rw [if_neg hb, if_neg hb]

theorem voisins_deja_vivants_congr (g1 g2 : Grille) (largeur hauteur ligne colonne : Nat)
    (h : ∀ i, i < hauteur * largeur → g1 i = g2 i) :
    voisins_deja_vivants g1 largeur hauteur ligne colonne =
      voisins_deja_vivants g2 largeur hauteur ligne colonne := by
  simp only [voisins_deja_vivants, compter_voisin_vivant_congr g1 g2 largeur hauteur ligne
    colonne h]

/-- Two runs of the sowing loop of the clustered initialiser from the same generators give
the same records wherever the two buffers agreed. -/
theorem semer_cluster_congr (largeur hauteur : Nat) (x y : Grille × Nat × Nat)
    (hg : x.2 = y.2) (h : ∀ i, i < hauteur * largeur → x.1 i = y.1 i) :
    ∀ i, i < hauteur * largeur →
      (boucle hauteur (fun ligne st => boucle largeur (fun colonne st =>
        semer_cluster largeur hauteur ligne colonne st) st) x).1 i =
      (boucle hauteur (fun ligne st => boucle largeur (fun colonne st =>
        semer_cluster largeur hauteur ligne colonne st) st) y).1 i := by
  refine (boucle_grille_rel
    (fun _ (u v : Grille × Nat × Nat) =>
      u.2 = v.2 ∧ ∀ i, i < hauteur * largeur → u.1 i = v.1 i)
    largeur hauteur
    (fun ligne colonne st => semer_cluster largeur hauteur ligne colonne st)
    (fun ligne colonne st => semer_cluster largeur hauteur ligne colonne st)
    x y ⟨hg, h⟩ ?_).2
  intro l c hl hc u v hR
  obtain ⟨hg, h⟩ := hR
  unfold semer_cluster
  simp only
  rw [hg, voisins_deja_vivants_congr u.1 v.1 largeur hauteur l c h,
    h _ (position_lt l c largeur hauteur hl hc)]
  refine ite_rel
    (fun (u v : Grille × Nat × Nat) =>
      u.2 = v.2 ∧ ∀ i, i < hauteur * largeur → u.1 i = v.1 i)
    ⟨rfl, fun i hi => ?_⟩ ⟨rfl, h⟩
  simp only [ecrire]
  split
  · rfl
  · exact h i hi

/-- After the sowing loop of the clustered initialiser on a reset buffer, every cell holds
the reset record or the record of a cell made alive. -/
theorem semer_cluster_cellules (largeur hauteur : Nat) (st : Grille × Nat × Nat)
    (h : ∀ i, i < hauteur * largeur → st.1 i = cellule_defaut) :
    ∀ i, i < hauteur * largeur →
      (boucle hauteur (fun ligne st => boucle largeur (fun colonne st =>
        semer_cluster largeur hauteur ligne colonne st) st) st).1 i = cellule_defaut ∨
      cellule_de_cluster
        ((boucle hauteur (fun ligne st => boucle largeur (fun colonne st =>
          semer_cluster largeur hauteur ligne colonne st) st) st).1 i) := by
  have key := boucle_grille_inv
    (fun k (x : Grille × Nat × Nat) => ∀ i, i < hauteur * largeur →
      (k ≤ i → x.1 i = cellule_defaut) ∧
      (i < k → x.1 i = cellule_defaut ∨ cellule_de_cluster (x.1 i)))
    largeur hauteur
    (fun ligne colonne st => semer_cluster largeur hauteur ligne colonne st)
    st (fun i hi => ⟨fun _ => h i hi, fun h0 => absurd h0 (Nat.not_lt_zero i)⟩) ?_
  · intro i hi
    exact (key i hi).2 hi
  · intro l c hl hc x hP
    have hpos := position_lt l c largeur hauteur hl hc
    have hk := (hP _ hpos).1 (Nat.le_refl _)
    unfold semer_cluster
    simp only
    refine ite_prop
      (fun (u : Grille × Nat × Nat) => ∀ i, i < hauteur * largeur →
        (l * largeur + c + 1 ≤ i → u.1 i = cellule_defaut) ∧
        (i < l * largeur + c + 1 → u.1 i = cellule_defaut ∨ cellule_de_cluster (u.1 i)))
      ?_ ?_
    · intro i hi
      by_cases hik : i = l * largeur + c
      · simp only [hik, ecrire_meme, hk]
        refine ⟨fun h0 => absurd h0 (by omega), fun _ => Or.inr ?_⟩
        simp only [cellule_de_cluster, cellule_defaut, FERTILITE_DEBUT, FERTILITE_OPTIMALE,
          RACE_EXPLORATRICE, DIRECTION_NORD, true_and, and_true]
        omega
      · simp only [ecrire_autre _ _ _ _ hik]
        exact ⟨fun h0 => (hP i hi).1 (by omega), fun h0 => (hP i hi).2 (by omega)⟩
    · intro i hi
      refine ⟨fun h0 => (hP i hi).1 (by omega), fun h0 => ?_⟩
      by_cases hik : i = l * largeur + c
      · rw [hik]
        exact Or.inl hk
      · exact (hP i hi).2 (by omega)

theorem cellule_de_cluster_vivante (c : CelluleEvolutive) (h : cellule_de_cluster c) :
    c.vivante = 1 := h.1

/-! ## The initialisers: claims on the reset -/

theorem initialiser_grille_uniforme_reinitialise (a : AutomateCellulaire) (ga sa : Grille)
    (ha : a.grille_cellules_actuelles = some ga) (hsa : a.grille_cellules_suivantes = some sa)
    (graine : Nat) :
    reinitialise (a.largeur_grille * a.hauteur_grille)
      (initialiser_grille_uniforme a graine) := by
  have hn := nettoyer_grille_propre a.largeur_grille a.hauteur_grille
    ⟨ga, a.grille_cellules_suivantes, a.grille_environnement⟩
  simp only [initialiser_grille_uniforme, ha]
  refine ⟨hn.2.1, hn.2.2 sa hsa, _, rfl, ?_⟩
  rw [Nat.mul_comm]
  exact semer_cellule_morts a.largeur_grille a.hauteur_grille (fun _ _ => _) _
    (fun i hi _ => hn.1 i (by rw [Nat.mul_comm]; exact hi))

theorem initialiser_grille_centre_reinitialise (F : Flottants) (a : AutomateCellulaire)
    (ga sa : Grille) (ha : a.grille_cellules_actuelles = some ga)
    (hsa : a.grille_cellules_suivantes = some sa) (graine : Nat) :
    reinitialise (a.largeur_grille * a.hauteur_grille)
      (initialiser_grille_centre F a graine) := by
  have hn := nettoyer_grille_propre a.largeur_grille a.hauteur_grille
    ⟨ga, a.grille_cellules_suivantes, a.grille_environnement⟩
  simp only [initialiser_grille_centre, ha]
  refine ⟨hn.2.1, hn.2.2 sa hsa, _, rfl, ?_⟩
  rw [Nat.mul_comm]
  exact semer_cellule_morts a.largeur_grille a.hauteur_grille
    (fun ligne colonne => calculer_seuil_probabilite
      ((DENSITE_MAXIMUM : Int) -
        F.reduction_densite colonne ligne a.largeur_grille a.hauteur_grille)) _
    (fun i hi _ => hn.1 i (by rw [Nat.mul_comm]; exact hi))

theorem initialiser_grille_clusters_cellules (a : AutomateCellulaire) (ga : Grille)
    (ha : a.grille_cellules_actuelles = some ga) (graine : Nat) :
    ∃ g, (initialiser_grille_clusters a graine).grille_cellules_actuelles = some g ∧
      ∀ i, i < a.largeur_grille * a.hauteur_grille →
        g i = cellule_defaut ∨ cellule_de_cluster (g i) := by
  have hn := nettoyer_grille_propre a.largeur_grille a.hauteur_grille
    ⟨ga, a.grille_cellules_suivantes, a.grille_environnement⟩
  simp only [initialiser_grille_clusters, ha]
  refine ⟨_, rfl, ?_⟩
  rw [Nat.mul_comm]
  exact semer_cluster_cellules a.largeur_grille a.hauteur_grille _
    (fun i hi => hn.1 i (by rw [Nat.mul_comm]; exact hi))

theorem initialiser_grille_clusters_reinitialise (a : AutomateCellulaire) (ga sa : Grille)
    (ha : a.grille_cellules_actuelles = some ga) (hsa : a.grille_cellules_suivantes = some sa)
    (graine : Nat) :
    reinitialise (a.largeur_grille * a.hauteur_grille)
      (initialiser_grille_clusters a graine) := by
  have hn := nettoyer_grille_propre a.largeur_grille a.hauteur_grille
    ⟨ga, a.grille_cellules_suivantes, a.grille_environnement⟩
  obtain ⟨g, hg, hc⟩ := initialiser_grille_clusters_cellules a ga ha graine
  refine ⟨?_, ?_, g, hg, fun i hi h0 => ?_⟩
  · simp only [initialiser_grille_clusters, ha]
    exact hn.2.1
  · simp only [initialiser_grille_clusters, ha]
    exact hn.2.2 sa hsa
  · rcases hc i hi with h | h
    · exact h
    · rw [h.1] at h0
      exact absurd h0 (by decide)

theorem initialiseurs_memes_cellules (F : Flottants) (a b : AutomateCellulaire)
    (ga gb : Grille)
    (ha : a.grille_cellules_actuelles = some ga) (hb : b.grille_cellules_actuelles = some gb)
    (hW : a.largeur_grille = b.largeur_grille) (hH : a.hauteur_grille = b.hauteur_grille)
    (graine : Nat) :
    memes_cellules (a.largeur_grille * a.hauteur_grille)
      (initialiser_grille_uniforme a graine) (initialiser_grille_uniforme b graine) ∧
    memes_cellules (a.largeur_grille * a.hauteur_grille)
      (initialiser_grille_centre F a graine) (initialiser_grille_centre F b graine) ∧
    memes_cellules (a.largeur_grille * a.hauteur_grille)
      (initialiser_grille_clusters a graine) (initialiser_grille_clusters b graine) := by
  have hna := (nettoyer_grille_propre a.largeur_grille a.hauteur_grille
    ⟨ga, a.grille_cellules_suivantes, a.grille_environnement⟩).1
  have hnb := (nettoyer_grille_propre a.largeur_grille a.hauteur_grille
    ⟨gb, b.grille_cellules_suivantes, b.grille_environnement⟩).1
  have hab : ∀ i, i < a.hauteur_grille * a.largeur_grille →
      (nettoyer_grille a.largeur_grille a.hauteur_grille
        ⟨ga, a.grille_cellules_suivantes, a.grille_environnement⟩).actuelles i =
      (nettoyer_grille a.largeur_grille a.hauteur_grille
        ⟨gb, b.grille_cellules_suivantes, b.grille_environnement⟩).actuelles i := by
    intro i hi
    rw [Nat.mul_comm] at hi
    rw [hna i hi, hnb i hi]
  refine ⟨?_, ?_, ?_⟩
  · simp only [memes_cellules, initialiser_grille_uniforme, ha, hb, ← hW, ← hH]
    refine ⟨_, _, rfl, rfl, ?_⟩
    rw [Nat.mul_comm]
    exact semer_cellule_congr a.largeur_grille a.hauteur_grille (fun _ _ => _) _ _ rfl hab
  · simp only [memes_cellules, initialiser_grille_centre, ha, hb, ← hW, ← hH]
    refine ⟨_, _, rfl, rfl, ?_⟩
    rw [Nat.mul_comm]
    exact semer_cellule_congr a.largeur_grille a.hauteur_grille
      (fun ligne colonne => calculer_seuil_probabilite
        ((DENSITE_MAXIMUM : Int) -
          F.reduction_densite colonne ligne a.largeur_grille a.hauteur_grille)) _ _ rfl hab
  · simp only [memes_cellules, initialiser_grille_clusters, ha, hb, ← hW, ← hH]
    refine ⟨_, _, rfl, rfl, ?_⟩
    rw [Nat.mul_comm]
    exact semer_cluster_congr a.largeur_grille a.hauteur_grille _ _ rfl hab

/-- C13: each of the three initialisers, on an automaton with both buffers present,
leaves every environment cell at nutrients 100, temperature 128 and predation, pathogens,
toxicity, competition 0, every cell of the next buffer at the reset record, and every dead
cell of the current buffer at the reset record (age 0, health 0, genotypes 128, race
Explorer, polarization North, strength 0, counter 0, fitness 50, efficiency 128, species
0, resistance, camouflage, territoriality, stress adaptability 100, birth generation 0);
and two automata of the same dimensions get the same current buffer, whatever their
buffers held before. -/
theorem initialiseurs_reinitialisent (F : Flottants) (a b : AutomateCellulaire)
    (ga sa gb sb : Grille)
    (ha : a.grille_cellules_actuelles = some ga) (hsa : a.grille_cellules_suivantes = some sa)
    (hb : b.grille_cellules_actuelles = some gb) (hsb : b.grille_cellules_suivantes = some sb)
    (hW : a.largeur_grille = b.largeur_grille) (hH : a.hauteur_grille = b.hauteur_grille)
    (graine : Nat) :
    reinitialise (a.largeur_grille * a.hauteur_grille) (initialiser_grille_uniforme a graine) ∧
    reinitialise (a.largeur_grille * a.hauteur_grille) (initialiser_grille_centre F a graine) ∧
    reinitialise (a.largeur_grille * a.hauteur_grille) (initialiser_grille_clusters a graine) ∧
    reinitialise (a.largeur_grille * a.hauteur_grille) (initialiser_grille_uniforme b graine) ∧
    memes_cellules (a.largeur_grille * a.hauteur_grille)
      (initialiser_grille_uniforme a graine) (initialiser_grille_uniforme b graine) ∧
    memes_cellules (a.largeur_grille * a.hauteur_grille)
      (initialiser_grille_centre F a graine) (initialiser_grille_centre F b graine) ∧
    memes_cellules (a.largeur_grille * a.hauteur_grille)
      (initialiser_grille_clusters a graine) (initialiser_grille_clusters b graine) ∧
    environnement_defaut = ⟨100, 128, 0, 0, 0, 0⟩ ∧
    cellule_defaut = ⟨0, 0, 128, 128, 0, 0, 0, 0, 0, 50, 128, 0, 100, 100, 100, 100, 0⟩ := by
  have hm := initialiseurs_memes_cellules F a b ga gb ha hb hW hH graine
  have hub := initialiser_grille_uniforme_reinitialise b gb sb hb hsb graine
  rw [← hW, ← hH] at hub
  exact ⟨initialiser_grille_uniforme_reinitialise a ga sa ha hsa graine,
    initialiser_grille_centre_reinitialise F a ga sa ha hsa graine,
    initialiser_grille_clusters_reinitialise a ga sa ha hsa graine,
    hub, hm.1, hm.2.1, hm.2.2, rfl, rfl⟩

theorem initialiseurs_reinitialisent_witness :
    (automate_exemple grille_bloc 0).grille_cellules_actuelles = some grille_bloc ∧
    (automate_exemple grille_bloc 0).grille_cellules_suivantes = some grille_vide ∧
    (automate_exemple_bis grille_solitaire 3).grille_cellules_actuelles =
      some grille_solitaire ∧
    (automate_exemple_bis grille_solitaire 3).grille_cellules_suivantes = some grille_bloc ∧
    reinitialise 16 (initialiser_grille_clusters (automate_exemple grille_bloc 0) 1) ∧
    memes_cellules 16 (initialiser_grille_clusters (automate_exemple grille_bloc 0) 1)
      (initialiser_grille_clusters (automate_exemple_bis grille_solitaire 3) 1) :=
  ⟨rfl, rfl, rfl, rfl,
    (initialiseurs_reinitialisent flottants_exemple (automate_exemple grille_bloc 0)
      (automate_exemple_bis grille_solitaire 3) grille_bloc grille_vide grille_solitaire
      grille_bloc rfl rfl rfl rfl rfl rfl 1).2.2.1,
    (initialiseurs_reinitialisent flottants_exemple (automate_exemple grille_bloc 0)
      (automate_exemple_bis grille_solitaire 3) grille_bloc grille_vide grille_solitaire
      grille_bloc rfl rfl rfl rfl rfl rfl 1).2.2.2.2.2.2.1⟩

/-- C18: every cell that `initialiser_grille_clusters` makes alive has age in 5..29, both
genotypes in 100..155, health 50 and the reset value in every other field;
`initialiser_grille_aleatoire`, and `initialiser_grille_selon_type` with
`INIT_ALEATOIRE_CLUSTERS` or with a value that is no strategy, give the same result as
`initialiser_grille_clusters`. -/
theorem initialiser_grille_clusters_traits (F : Flottants) (a : AutomateCellulaire)
    (ga : Grille) (ha : a.grille_cellules_actuelles = some ga) (graine : Nat) :
    (∃ g, (initialiser_grille_clusters a graine).grille_cellules_actuelles = some g ∧
      ∀ i, i < a.largeur_grille * a.hauteur_grille → (g i).vivante ≠ 0 →
        cellule_de_cluster (g i)) ∧
    initialiser_grille_aleatoire a graine = initialiser_grille_clusters a graine ∧
    initialiser_grille_selon_type F a INIT_ALEATOIRE_CLUSTERS graine =
      initialiser_grille_clusters a graine ∧
    (∀ type, INIT_ALEATOIRE_CLUSTERS < type →
      initialiser_grille_selon_type F a type graine = initialiser_grille_clusters a graine) := by
  obtain ⟨g, hg, hc⟩ := initialiser_grille_clusters_cellules a ga ha graine
  refine ⟨⟨g, hg, fun i hi hv => ?_⟩, rfl, rfl, fun type ht => ?_⟩
  · rcases hc i hi with h | h
    · rw [h] at hv
      exact absurd rfl hv
    · exact h
  · unfold INIT_ALEATOIRE_CLUSTERS at ht
    rcases type with _ | _ | _ | t
    · omega
    · omega
    · rfl
    · rfl

theorem initialiser_grille_clusters_traits_witness :
    (automate_exemple grille_bloc 0).grille_cellules_actuelles = some grille_bloc ∧
    (∃ g, (initialiser_grille_clusters
        (automate_exemple grille_bloc 0) 1).grille_cellules_actuelles = some g ∧
      ∀ i, i < (automate_exemple grille_bloc 0).largeur_grille *
          (automate_exemple grille_bloc 0).hauteur_grille → (g i).vivante ≠ 0 →
        cellule_de_cluster (g i)) ∧
    (cellule_apres_initialisation (automate_exemple grille_bloc 0) 1 9).vivante = 1 ∧
    (cellule_apres_initialisation (automate_exemple grille_bloc 0) 1 9).age = 27 :=
  ⟨rfl,
    (initialiser_grille_clusters_traits flottants_exemple (automate_exemple grille_bloc 0)
      grille_bloc rfl 1).1, by decide!, by decide!⟩

/-! ## The uniform initialiser: draws -/

/-- The sowing loop of the uniform initialiser on an all-dead buffer: the generator after
the loop and the liveness of every cell follow `generateur_apres_cellules`. -/
theorem semer_cellule_tirages (largeur hauteur seuil : Nat) (st : Grille × Nat)
    (h : ∀ i, i < hauteur * largeur → (st.1 i).vivante = 0) :
    (boucle hauteur (fun ligne st => boucle largeur (fun colonne st =>
      semer_cellule largeur hauteur seuil ligne colonne st) st) st).2 =
        generateur_apres_cellules seuil st.2 (hauteur * largeur) ∧
    ∀ i, i < hauteur * largeur →
      ((boucle hauteur (fun ligne st => boucle largeur (fun colonne st =>
        semer_cellule largeur hauteur seuil ligne colonne st) st) st).1 i).vivante =
        if lcg (generateur_apres_cellules seuil st.2 i) < seuil then 1 else 0 := by
  have key := boucle_grille_inv
    (fun k (x : Grille × Nat) => x.2 = generateur_apres_cellules seuil st.2 k ∧
      ∀ i, i < hauteur * largeur →
        (i < k → (x.1 i).vivante =
          if lcg (generateur_apres_cellules seuil st.2 i) < seuil then 1 else 0) ∧
        (k ≤ i → (x.1 i).vivante = 0))
    largeur hauteur
    (fun ligne colonne st => semer_cellule largeur hauteur seuil ligne colonne st)
    st ⟨rfl, fun i hi => ⟨fun h0 => absurd h0 (Nat.not_lt_zero i), fun _ => h i hi⟩⟩ ?_
  · exact ⟨key.1, fun i hi => (key.2 i hi).1 hi⟩
  · intro l c hl hc x hP
    obtain ⟨hg, hP⟩ := hP
    unfold semer_cellule
    simp only
    rw [generateur_apres_cellules, ← hg]
    by_cases hsel : lcg x.2 < seuil
    · rw [if_pos hsel, if_pos hsel]
      refine ⟨rfl, fun i hi => ?_⟩
      by_cases hik : i = l * largeur + c
      · simp only [hik, ecrire_meme, cellule_initiale_vivante, ← hg, if_pos hsel]
        exact ⟨fun _ => trivial, fun h0 => absurd h0 (by omega)⟩
      · simp only [ecrire_autre _ _ _ _ hik]
        exact ⟨fun h0 => (hP i hi).1 (by omega), fun h0 => (hP i hi).2 (by omega)⟩
    · rw [if_neg hsel, if_neg hsel]
      refine ⟨rfl, fun i hi => ⟨fun h0 => ?_, fun h0 => (hP i hi).2 (by omega)⟩⟩
      by_cases hik : i = l * largeur + c
      · rw [hik, ← hg, if_neg hsel]
        exact (hP _ (position_lt l c largeur hauteur hl hc)).2 (Nat.le_refl _)
      · exact (hP i hi).1 (by omega)

/-- C15: the uniform initialiser uses the one density `(15 + 80) / 2 = 47` and the one
threshold `(0xFFFFFFFF / 100) * 47`; with the generator starting from the seed (or from
0x12345678 for seed 0), stepped once per cell in row-major order and once more after each
cell made alive, the cell at `(ligne, colonne)` is alive iff the draw of its turn is below
the threshold. -/
theorem initialiser_grille_uniforme_tirages (a : AutomateCellulaire) (ga : Grille)
    (ha : a.grille_cellules_actuelles = some ga) (graine : Nat) :
    (DENSITE_MINIMUM + DENSITE_MAXIMUM) / 2 = 47 ∧
    calculer_seuil_probabilite ((DENSITE_MINIMUM + DENSITE_MAXIMUM) / 2 : Nat) =
      (0xFFFFFFFF / 100) * 47 ∧
    ∃ g, (initialiser_grille_uniforme a graine).grille_cellules_actuelles = some g ∧
      ∀ ligne colonne, ligne < a.hauteur_grille → colonne < a.largeur_grille →
        (g (ligne * a.largeur_grille + colonne)).vivante =
          if lcg (generateur_apres_cellules ((0xFFFFFFFF / 100) * 47)
              (if graine ≠ 0 then graine else 0x12345678)
              (ligne * a.largeur_grille + colonne)) < (0xFFFFFFFF / 100) * 47
          then 1 else 0 := by
  have hs : calculer_seuil_probabilite ((DENSITE_MINIMUM + DENSITE_MAXIMUM) / 2 : Nat) =
      (0xFFFFFFFF / 100) * 47 := by decide
  refine ⟨rfl, hs, ?_⟩
  have hn := nettoyer_grille_propre a.largeur_grille a.hauteur_grille
    ⟨ga, a.grille_cellules_suivantes, a.grille_environnement⟩
  simp only [initialiser_grille_uniforme, ha]
  refine ⟨_, rfl, fun ligne colonne hl hc => ?_⟩
  rw [hs]
  exact (semer_cellule_tirages a.largeur_grille a.hauteur_grille _ _
    (fun i hi => by
      have := hn.1 i (by rw [Nat.mul_comm]; exact hi)
      simp only at this ⊢
      rw [this]
      rfl)).2 _ (position_lt ligne colonne _ _ hl hc)

theorem initialiser_grille_uniforme_tirages_witness :
    (automate_exemple grille_bloc 0).grille_cellules_actuelles = some grille_bloc ∧
    (0 : Nat) < (automate_exemple grille_bloc 0).hauteur_grille ∧
    (1 : Nat) < (automate_exemple grille_bloc 0).largeur_grille ∧
    ∃ g, (initialiser_grille_uniforme
        (automate_exemple grille_bloc 0) 0).grille_cellules_actuelles = some g ∧
      ∀ ligne colonne, ligne < (automate_exemple grille_bloc 0).hauteur_grille →
        colonne < (automate_exemple grille_bloc 0).largeur_grille →
        (g (ligne * (automate_exemple grille_bloc 0).largeur_grille + colonne)).vivante =
          if lcg (generateur_apres_cellules ((0xFFFFFFFF / 100) * 47)
              (if (0 : Nat) ≠ 0 then 0 else 0x12345678)
              (ligne * (automate_exemple grille_bloc 0).largeur_grille + colonne)) <
            (0xFFFFFFFF / 100) * 47
          then 1 else 0 :=
  ⟨rfl, by decide, by decide,
    (initialiser_grille_uniforme_tirages (automate_exemple grille_bloc 0) grille_bloc rfl
      0).2.2⟩

/-! ## The centre-weighted and the clustered initialiser: densities -/

/-- On the 4x4 grid the density reduction of `flottants_exemple` is the `binary32` value. -/
theorem reduction_densite_4_binaire32 :
    ∀ colonne, colonne < 4 → ∀ ligne, ligne < 4 →
      reduction_densite_binaire32 colonne ligne 4 4 = reduction_densite_4 colonne ligne := by
  decide!

/-- C16 (evaluation at a failing input): on a 4x4 grid the cell of column 1, row 0 lies on
the grid edge and the density percentage used for it is `80 - 48 = 32`, not
`DENSITE_MINIMUM = 15`; on the 160x50 grid of the kernel the density of the edge cell of
column 0, row 25 is `80 - 32 = 48`.  On the all-dead 4x4 automaton with seed 11 the
first draw, 3548745448, is not below the 15% threshold of the corner cell (0,0), which
stays dead; the second draw, 819509505, is the draw of the cell (column 1, row 0): it
is not below the 15% threshold 644245080 but below the 32% threshold 1374389504, and
the initialiser makes the cell alive. -/
theorem initialiser_grille_centre_bord :
    reduction_densite_binaire32 1 0 4 4 = 48 ∧
    (DENSITE_MAXIMUM : Int) - reduction_densite_binaire32 1 0 4 4 = 32 ∧
    (DENSITE_MAXIMUM : Int) - reduction_densite_binaire32 0 25 160 50 = 48 ∧
    flottants_exemple.reduction_densite 1 0 4 4 = reduction_densite_binaire32 1 0 4 4 ∧
    graine_effective 11 = 11 ∧
    lcg 11 = 3548745448 ∧ lcg (lcg 11) = 819509505 ∧
    calculer_seuil_probabilite DENSITE_MINIMUM = 644245080 ∧
    calculer_seuil_probabilite 32 = 1374389504 ∧
    ¬ lcg 11 < calculer_seuil_probabilite DENSITE_MINIMUM ∧
    ¬ lcg (lcg 11) < calculer_seuil_probabilite DENSITE_MINIMUM ∧
    lcg (lcg 11) < calculer_seuil_probabilite 32 ∧
    (initialiser_grille_centre flottants_exemple (automate_exemple grille_vide 0)
      11).grille_cellules_actuelles.map
        (fun g => ((g (0 * 4 + 0)).vivante, (g (0 * 4 + 1)).vivante)) = some (0, 1) := by
  refine ⟨by decide!, by decide!, by decide!, by decide!, by decide!, by decide!, by decide!,
    by decide!, by decide!, by decide!, by decide!, by decide!, by decide!⟩

/-- C17 (evaluation at a failing input): on the 160x50 grid of the kernel the product
`variation_max * (largeur + hauteur - distance_totale)` exceeds 32 bits, and the
threshold of the centre cell (column 80, row 25, distance 0) is 654471130, smaller than
the threshold 661629409 of its neighbour (column 79, row 25, distance 1); both are near
the 15% threshold 644245080, far from the 80% threshold 3435973760. -/
theorem seuil_clusters_non_monotone :
    distance_centre 80 160 + distance_centre 25 50 = 0 ∧
    distance_centre 79 160 + distance_centre 25 50 = 1 ∧
    seuil_clusters 160 50 25 80 = 654471130 ∧
    seuil_clusters 160 50 25 79 = 661629409 ∧
    seuil_clusters 160 50 25 80 < seuil_clusters 160 50 25 79 ∧
    calculer_seuil_probabilite DENSITE_MINIMUM = 644245080 ∧
    calculer_seuil_probabilite DENSITE_MAXIMUM = 3435973760 ∧
    4294967296 ≤ (calculer_seuil_probabilite DENSITE_MAXIMUM -
      calculer_seuil_probabilite DENSITE_MINIMUM) * (160 + 50 - 0) := by
  refine ⟨by decide, by decide, by decide!, by decide!, by decide!, by decide!, by decide!,
    by decide!⟩

/-! ## The fertility curve -/

theorem calculer_fertilite_montee (age : Nat) (h1 : 5 ≤ age) (h2 : age ≤ 30) :
    calculer_fertilite age = ((age : ℚ) - 5) / 25 := by
  unfold calculer_fertilite
  simp only [FERTILITE_DEBUT, AGE_MAXIMUM, FERTILITE_OPTIMALE]
  rw [if_neg (by omega), if_neg (by omega), if_pos h2]
  rw [Nat.cast_sub h1]
  norm_num

theorem calculer_fertilite_declin (age : Nat) (h1 : 150 < age) (h2 : age < 1200) :
    calculer_fertilite age = 1 - ((age : ℚ) - 150) / 1050 := by
  unfold calculer_fertilite
  simp only [FERTILITE_DEBUT, AGE_MAXIMUM, FERTILITE_OPTIMALE, FERTILITE_DECLIN]
  rw [if_neg (by omega), if_neg (by omega), if_neg (by omega), if_neg (by omega)]
  rw [Nat.cast_sub (le_of_lt h1)]
  norm_num

theorem calculer_fertilite_plateau (age : Nat) (h1 : 30 < age) (h2 : age ≤ 150) :
    calculer_fertilite age = 1 := by
  unfold calculer_fertilite
  simp only [FERTILITE_DEBUT, AGE_MAXIMUM, FERTILITE_OPTIMALE, FERTILITE_DECLIN]
  rw [if_neg (by omega), if_neg (by omega), if_neg (by omega), if_pos h2]

theorem calculer_fertilite_jeune (age : Nat) (h1 : age < 5) : calculer_fertilite age = 0 := by
  unfold calculer_fertilite
  simp only [FERTILITE_DEBUT]
  rw [if_pos h1]

theorem fertilite_depasse_seuil_ssi (age : Nat) (h : age < 256) :
    fertilite_depasse_seuil age = true ↔ calculer_fertilite age > 1 / 10 := by
  by_cases h1 : age < 5
  · rw [calculer_fertilite_jeune age h1]
    have : fertilite_depasse_seuil age = false := by
      unfold fertilite_depasse_seuil
      simp only [FERTILITE_DEBUT]
      rw [if_pos h1]
    rw [this]
    norm_num
  · by_cases h2 : age ≤ 30
    · rw [calculer_fertilite_montee age (by omega) h2]
      have hs : fertilite_depasse_seuil age = decide (10 * (age - 5) > 25) := by
        unfold fertilite_depasse_seuil
        simp only [FERTILITE_DEBUT, AGE_MAXIMUM, FERTILITE_OPTIMALE]
        rw [if_neg h1, if_neg (by omega), if_pos h2]
      rw [hs, decide_eq_true_iff]
      constructor
      · intro hk
        have h8 : 8 ≤ age := by omega
        have : (8 : ℚ) ≤ (age : ℚ) := by exact_mod_cast h8
        rw [gt_iff_lt, lt_div_iff₀ (by norm_num)]
        linarith
      · intro hk
        rw [gt_iff_lt, lt_div_iff₀ (by norm_num)] at hk
        have : (7 : ℚ) < (age : ℚ) := by linarith
        have h8 : 7 < age := by exact_mod_cast this
        omega
    · by_cases h3 : age ≤ 150
      · rw [calculer_fertilite_plateau age (by omega) h3]
        have hs : fertilite_depasse_seuil age = true := by
          unfold fertilite_depasse_seuil
          simp only [FERTILITE_DEBUT, AGE_MAXIMUM, FERTILITE_OPTIMALE, FERTILITE_DECLIN]
          rw [if_neg h1, if_neg (by omega), if_neg h2, if_pos h3]
        rw [hs]
        norm_num
      · rw [calculer_fertilite_declin age (by omega) (by omega)]
        have hs : fertilite_depasse_seuil age = true := by
          unfold fertilite_depasse_seuil
          simp only [FERTILITE_DEBUT, AGE_MAXIMUM, FERTILITE_OPTIMALE, FERTILITE_DECLIN]
          rw [if_neg h1, if_neg (by omega), if_neg h2, if_neg h3, decide_eq_true_iff]
          omega
        rw [hs]
        have : (age : ℚ) < 256 := by exact_mod_cast h
        constructor
        · intro _
          have hd : ((age : ℚ) - 150) / 1050 < 9 / 10 := by
            rw [div_lt_iff₀ (by norm_num)]
            linarith
          linarith
        · intro _
          rfl

/-- C30: for every age that a cell can hold (below 256), `calculer_fertilite` is 0 below
age 5, `(age - 5) / 25` from 5 to 30, 1 above 30 up to 150 and `1 - (age - 150) / 1050`
above 150, the straight line through 1 at age 150 and 0 at `AGE_MAXIMUM`; its value is
between 0 and 1; and the test that makes a live neighbour a parent holds exactly when
the value exceeds 0.1. -/
theorem calculer_fertilite_courbe (age : Nat) (h : age < 256) :
    (age < 5 → calculer_fertilite age = 0) ∧
    (5 ≤ age → age ≤ 30 → calculer_fertilite age = ((age : ℚ) - 5) / 25) ∧
    (30 < age → age ≤ 150 → calculer_fertilite age = 1) ∧
    (150 < age → calculer_fertilite age =
      1 - ((age : ℚ) - 150) / ((AGE_MAXIMUM : ℚ) - 150)) ∧
    (1 - ((150 : ℚ) - 150) / ((AGE_MAXIMUM : ℚ) - 150) = 1 ∧
      1 - ((AGE_MAXIMUM : ℚ) - 150) / ((AGE_MAXIMUM : ℚ) - 150) = 0) ∧
    0 ≤ calculer_fertilite age ∧ calculer_fertilite age ≤ 1 ∧
    (fertilite_depasse_seuil age = true ↔ calculer_fertilite age > 1 / 10) := by
  have hq : (age : ℚ) < 256 := by exact_mod_cast h
  have hA : (AGE_MAXIMUM : ℚ) = 1200 := by simp [AGE_MAXIMUM]
  refine ⟨calculer_fertilite_jeune age, calculer_fertilite_montee age,
    calculer_fertilite_plateau age, ?_, ?_, ?_, ?_, fertilite_depasse_seuil_ssi age h⟩
  · intro h1
    rw [calculer_fertilite_declin age h1 (by omega), hA]
    norm_num
  · rw [hA]
    norm_num
  · by_cases h1 : age < 5
    · rw [calculer_fertilite_jeune age h1]
    · by_cases h2 : age ≤ 30
      · rw [calculer_fertilite_montee age (by omega) h2]
        have : (5 : ℚ) ≤ (age : ℚ) := by exact_mod_cast (by omega : 5 ≤ age)
        apply div_nonneg <;> linarith
      · by_cases h3 : age ≤ 150
        · rw [calculer_fertilite_plateau age (by omega) h3]
          norm_num
        · rw [calculer_fertilite_declin age (by omega) (by omega)]
          rw [sub_nonneg, div_le_iff₀ (by norm_num)]
          linarith
  · by_cases h1 : age < 5
    · rw [calculer_fertilite_jeune age h1]
      norm_num
    · by_cases h2 : age ≤ 30
      · rw [calculer_fertilite_montee age (by omega) h2]
        have : (age : ℚ) ≤ 30 := by exact_mod_cast h2
        rw [div_le_iff₀ (by norm_num)]
        linarith
      · by_cases h3 : age ≤ 150
        · rw [calculer_fertilite_plateau age (by omega) h3]
        · rw [calculer_fertilite_declin age (by omega) (by omega)]
          have : (150 : ℚ) ≤ (age : ℚ) := by exact_mod_cast (by omega : 150 ≤ age)
          have h0 : 0 ≤ ((age : ℚ) - 150) / 1050 := by apply div_nonneg <;> linarith
          linarith

theorem calculer_fertilite_courbe_witness :
    (10 : Nat) < 256 ∧
    (10 < 5 → calculer_fertilite 10 = 0) ∧
    (5 ≤ 10 → 10 ≤ 30 → calculer_fertilite 10 = (((10 : Nat) : ℚ) - 5) / 25) ∧
    (30 < 10 → 10 ≤ 150 → calculer_fertilite 10 = 1) ∧
    (150 < 10 → calculer_fertilite 10 =
      1 - (((10 : Nat) : ℚ) - 150) / ((AGE_MAXIMUM : ℚ) - 150)) ∧
    (1 - ((150 : ℚ) - 150) / ((AGE_MAXIMUM : ℚ) - 150) = 1 ∧
      1 - ((AGE_MAXIMUM : ℚ) - 150) / ((AGE_MAXIMUM : ℚ) - 150) = 0) ∧
    0 ≤ calculer_fertilite 10 ∧ calculer_fertilite 10 ≤ 1 ∧
    (fertilite_depasse_seuil 10 = true ↔ calculer_fertilite 10 > 1 / 10) :=
  ⟨by decide, calculer_fertilite_courbe 10 (by decide)⟩

/-! ## Inheritance of a newborn (C21, C22, C29) -/

/-- C21 (evaluation at a failing input): on the 4x4 automaton with rule `B2/S23` at
generation 0 holding two live cells of age 10 and survival genotype 130, at (0,0) and
(0,2), the dead cell (3,3) has these two cells as its fertile parents and is born in the
step; no genotype mutation is triggered (the draw modulo 100 is 10), its birth genotype
is the average 120 of 120 and 120, but its survival genotype is 2, not the average 130:
the sum 260 is reduced modulo 256 by the `uint8_t` accumulator before the division. -/
theorem genotype_moyen_reboucle :
    (collecter_voisins grille_deux_parents 4 4 3 3).2 =
      [cellule_genotype 130, cellule_genotype 130] ∧
    (cellule_genotype 130).genotype_survie = 130 ∧
    (cellule_genotype 130).genotype_naissance = 120 ∧
    (grille_deux_parents 15).vivante = 0 ∧
    (cellule_apres_etape flottants_exemple automate_deux_parents 15).vivante = 1 ∧
    (cellule_apres_etape flottants_exemple automate_deux_parents 15).genotype_naissance = 120 ∧
    (cellule_apres_etape flottants_exemple automate_deux_parents 15).genotype_survie = 2 ∧
    heriter_genotypes [cellule_genotype 130, cellule_genotype 130] 3490719589 2 =
      (2, 120, lcg 3490719589) ∧
    lcg 3490719589 % 100 = 10 := by
  refine ⟨by decide!, rfl, rfl, by decide!, by decide!, by decide!, by decide!, by decide!,
    by decide!⟩

/-- C22 (evaluation at a failing input): for one parent of age 10 the inherited age is
`h = 0`; with generator state 34 the mutation is triggered and the drawn offset is -6;
`calculer_age_herite` returns 255, not 0 and not a value up to `h + 15`.  In the birth
branch, a dead cell with two fertile parents of age 10 and generator state 571 is born
with age 255. -/
theorem age_herite_negatif_donne_255 :
    lcg 34 % 100 < TAUX_MUTATION ∧
    ((((lcg 34 / 256) % (2 * VARIATION_MUTATION + 1) : Nat) : Int) - VARIATION_MUTATION = -6) ∧
    (cellule_vivante 10).age * FACTEUR_HEREDITE / 100 = 0 ∧
    calculer_age_herite [cellule_vivante 10] 34 = (255, lcg 34) ∧
    (evaluer_naissance flottants_exemple 4 4 0x0004 0 1 1
      [cellule_vivante 10, cellule_vivante 10] cellule_defaut
      environnement_defaut 571 0 2).cellule.vivante = 1 ∧
    (evaluer_naissance flottants_exemple 4 4 0x0004 0 1 1
      [cellule_vivante 10, cellule_vivante 10] cellule_defaut
      environnement_defaut 571 0 2).cellule.age = 255 := by
  refine ⟨by decide!, by decide!, by decide!, by decide!, by decide!, by decide!⟩

theorem ajouter_mutation_u32_mod (base tirage : Nat) (ht : tirage < 21) :
    ((ajouter_mutation_u32 base tirage 10 % 256 : Nat) : Int) =
      ((base : Int) + ((tirage : Int) - 10)) % 256 := by
  unfold ajouter_mutation_u32
  omega

theorem faire_naitre_territorialite (F : Flottants)
    (largeur hauteur generation ligne colonne : Nat) (p0 : CelluleEvolutive)
    (reste : List CelluleEvolutive) (s : CelluleEvolutive) (env : EnvironnementLocal)
    (generateur population n : Nat) :
    (faire_naitre F largeur hauteur generation ligne colonne p0 reste s env generateur
      population n).cellule.territorialite =
      ajouter_mutation_u32 p0.territorialite
        ((heriter_traits F largeur hauteur generation ligne colonne p0 reste s env generateur
          n).2 % 21) 10 % 256 ∧
    (faire_naitre F largeur hauteur generation ligne colonne p0 reste s env generateur
      population n).cellule.adaptabilite_stress =
      ajouter_mutation_u32 p0.adaptabilite_stress
        (((heriter_traits F largeur hauteur generation ligne colonne p0 reste s env generateur
          n).2 / 256) % 21) 10 % 256 := by
  unfold faire_naitre
  by_cases hc : n ≥ 3 ∧ lcg (heriter_traits F largeur hauteur generation ligne colonne p0 reste
      s env generateur n).2 % 100 < 60
  · simp only [hc, and_self, if_true]
    exact ⟨rfl, rfl⟩
  · simp only [hc, if_false]
    exact ⟨rfl, rfl⟩

theorem heriter_traits_generateur (F : Flottants)
    (largeur hauteur generation ligne colonne : Nat) (p0 : CelluleEvolutive)
    (reste : List CelluleEvolutive) (s : CelluleEvolutive) (env : EnvironnementLocal)
    (generateur n : Nat) :
    (heriter_traits F largeur hauteur generation ligne colonne p0 reste s env generateur n).2 =
      lcg (lcg (lcg (lcg (lcg (lcg (lcg generateur)))))) := by
  have ha : (calculer_age_herite (p0 :: reste) generateur).2 = lcg generateur := by
    unfold calculer_age_herite
    simp
  have hr : ∀ g, (calculer_race_herite (p0 :: reste) g).2 = lcg g := by
    intro g
    unfold calculer_race_herite
    simp only
    split
    · rfl
    · split <;> rfl
  have hp : ∀ g, (calculer_polarisation_herite (p0 :: reste) g).2 = lcg g := by
    intro g
    unfold calculer_polarisation_herite
    simp
  unfold heriter_traits
  simp only [ha, hr, hp]

/-- C29: in the birth branch, with `p0` the first fertile parent in scan order and `g`
the generator state after the seven trait draws, the newborn's territoriality is
`(t0 + d) mod 256` with `d = (g mod 21) - 10` and its stress adaptability is
`(s0 + e) mod 256` with `e = ((g >> 8) mod 21) - 10`; both are at most 255, and a
negative sum yields 256 plus the sum. -/
theorem faire_naitre_traits_territoriaux (F : Flottants)
    (largeur hauteur generation ligne colonne : Nat) (p0 : CelluleEvolutive)
    (reste : List CelluleEvolutive) (s : CelluleEvolutive) (env : EnvironnementLocal)
    (generateur population n : Nat) :
    ∃ g : Nat, g = lcg (lcg (lcg (lcg (lcg (lcg (lcg generateur)))))) ∧
      g = (heriter_traits F largeur hauteur generation ligne colonne p0 reste s env generateur
        n).2 ∧
      ∃ r : CelluleEvolutive,
        r = (faire_naitre F largeur hauteur generation ligne colonne p0 reste s env generateur
          population n).cellule ∧
        (r.territorialite : Int) =
          ((p0.territorialite : Int) + (((g % 21 : Nat) : Int) - 10)) % 256 ∧
        (r.adaptabilite_stress : Int) =
          ((p0.adaptabilite_stress : Int) + ((((g / 256) % 21 : Nat) : Int) - 10)) % 256 ∧
        r.territorialite ≤ 255 ∧ r.adaptabilite_stress ≤ 255 ∧
        ((p0.territorialite : Int) + (((g % 21 : Nat) : Int) - 10) < 0 →
          (r.territorialite : Int) =
            256 + ((p0.territorialite : Int) + (((g % 21 : Nat) : Int) - 10))) ∧
        ((p0.adaptabilite_stress : Int) + ((((g / 256) % 21 : Nat) : Int) - 10) < 0 →
          (r.adaptabilite_stress : Int) =
            256 + ((p0.adaptabilite_stress : Int) + ((((g / 256) % 21 : Nat) : Int) - 10))) := by
  have hg := heriter_traits_generateur F largeur hauteur generation ligne colonne p0 reste s env
    generateur n
  have ht := faire_naitre_territorialite F largeur hauteur generation ligne colonne p0 reste s
    env generateur population n
  refine ⟨(heriter_traits F largeur hauteur generation ligne colonne p0 reste s env generateur
    n).2, hg, rfl, _, rfl, ?_, ?_, ?_, ?_, ?_, ?_⟩
  · rw [ht.1]
    exact ajouter_mutation_u32_mod _ _ (Nat.mod_lt _ (by decide))
  · rw [ht.2]
    exact ajouter_mutation_u32_mod _ _ (Nat.mod_lt _ (by decide))
  · rw [ht.1]
    omega
  · rw [ht.2]
    omega
  · intro hneg
    rw [ht.1, ajouter_mutation_u32_mod _ _ (Nat.mod_lt _ (by decide))]
    omega
  · intro hneg
    rw [ht.2, ajouter_mutation_u32_mod _ _ (Nat.mod_lt _ (by decide))]
    omega

theorem faire_naitre_traits_territoriaux_witness :
    ∃ g : Nat, g = lcg (lcg (lcg (lcg (lcg (lcg (lcg 34)))))) ∧
      g = (heriter_traits flottants_exemple 4 4 0 1 1 cellule_territoriale [] cellule_defaut
        environnement_defaut 34 1).2 ∧
      ∃ r : CelluleEvolutive,
        r = (faire_naitre flottants_exemple 4 4 0 1 1 cellule_territoriale [] cellule_defaut
          environnement_defaut 34 0 1).cellule ∧
        (r.territorialite : Int) =
          ((cellule_territoriale.territorialite : Int) + (((g % 21 : Nat) : Int) - 10)) % 256 ∧
        (r.adaptabilite_stress : Int) =
          ((cellule_territoriale.adaptabilite_stress : Int) +
            ((((g / 256) % 21 : Nat) : Int) - 10)) % 256 ∧
        r.territorialite ≤ 255 ∧ r.adaptabilite_stress ≤ 255 ∧
        ((cellule_territoriale.territorialite : Int) + (((g % 21 : Nat) : Int) - 10) < 0 →
          (r.territorialite : Int) =
            256 + ((cellule_territoriale.territorialite : Int) +
              (((g % 21 : Nat) : Int) - 10))) ∧
        ((cellule_territoriale.adaptabilite_stress : Int) +
            ((((g / 256) % 21 : Nat) : Int) - 10) < 0 →
          (r.adaptabilite_stress : Int) =
            256 + ((cellule_territoriale.adaptabilite_stress : Int) +
              ((((g / 256) % 21 : Nat) : Int) - 10))) :=
  faire_naitre_traits_territoriaux flottants_exemple 4 4 0 1 1 cellule_territoriale []
    cellule_defaut environnement_defaut 34 0 1

/-! ## The movement pass (C26, C27, C28) -/

theorem deplacer_cellule_candidate (largeur hauteur ligne colonne : Nat) (st : Grille × Nat)
    (hv : (st.1 (ligne * largeur + colonne)).vivante ≠ 0)
    (hd : doit_se_deplacer (st.1 (ligne * largeur + colonne)) 0 = true)
    (hlibre : (st.1 (destination_mouvement largeur hauteur ligne colonne
      (st.1 (ligne * largeur + colonne)).polarisation)).vivante = 0) :
    deplacer_cellule largeur hauteur ligne colonne st =
      if lcg st.2 % 100 < 30 then
        (ecrire (ecrire st.1 (destination_mouvement largeur hauteur ligne colonne
            (st.1 (ligne * largeur + colonne)).polarisation) (st.1 (ligne * largeur + colonne)))
          (ligne * largeur + colonne) (vider_position (st.1 (ligne * largeur + colonne))),
          lcg st.2)
      else (st.1, lcg st.2) := by
  unfold destination_mouvement at hlibre
  unfold deplacer_cellule destination_mouvement
  simp only [hv, hd, hlibre, ne_eq, not_false_eq_true, and_self, if_true]

theorem boucle_imbriquee_aplatie {σ : Type} (largeur hauteur : Nat) (f : Nat → Nat → σ → σ)
    (s : σ) :
    boucle hauteur (fun ligne s => boucle largeur (fun colonne s => f ligne colonne s) s) s =
      boucle (hauteur * largeur) (fun i s => f (i / largeur) (i % largeur) s) s := by
  induction hauteur with
  | zero => rw [Nat.zero_mul]; rfl
  | succ h ih =>
    show boucle largeur (fun colonne s => f h colonne s)
        (boucle h (fun ligne s => boucle largeur (fun colonne s => f ligne colonne s) s) s) = _
    rw [ih, Nat.succ_mul]
    have hc : ∀ c, c ≤ largeur →
        boucle c (fun colonne s => f h colonne s)
            (boucle (h * largeur) (fun i s => f (i / largeur) (i % largeur) s) s) =
          boucle (h * largeur + c) (fun i s => f (i / largeur) (i % largeur) s) s := by
      intro c
      induction c with
      | zero => intro _; rfl
      | succ c ihc =>
        intro hle
        show f h c (boucle c (fun colonne s => f h colonne s)
            (boucle (h * largeur) (fun i s => f (i / largeur) (i % largeur) s) s)) =
          f ((h * largeur + c) / largeur) ((h * largeur + c) % largeur)
            (boucle (h * largeur + c) (fun i s => f (i / largeur) (i % largeur) s) s)
        rw [ihc (by omega), position_div h c largeur (by omega),
          position_mod h c largeur (by omega)]
    exact hc largeur (Nat.le_refl _)

/-- The movement pass is its scan after `hauteur * largeur` cells. -/
theorem passe_mouvement_balayage (largeur hauteur : Nat) (st : Grille × Nat) :
    passe_mouvement largeur hauteur st =
      etat_mouvement largeur hauteur st (hauteur * largeur) := by
  unfold passe_mouvement etat_mouvement
  exact boucle_imbriquee_aplatie largeur hauteur
    (fun ligne colonne st => deplacer_cellule largeur hauteur ligne colonne st) st

/-- The scan of the movement pass handles the cell `(ligne, colonne)` after the
`ligne * largeur + colonne` cells before it. -/
theorem etat_mouvement_suivant (largeur hauteur ligne colonne : Nat) (st : Grille × Nat)
    (hc : colonne < largeur) :
    etat_mouvement largeur hauteur st (ligne * largeur + colonne + 1) =
      deplacer_cellule largeur hauteur ligne colonne
        (etat_mouvement largeur hauteur st (ligne * largeur + colonne)) := by
  show deplacer_cellule largeur hauteur ((ligne * largeur + colonne) / largeur)
      ((ligne * largeur + colonne) % largeur)
      (etat_mouvement largeur hauteur st (ligne * largeur + colonne)) = _
  rw [position_div ligne colonne largeur hc, position_mod ligne colonne largeur hc]

/-- A relocation changes the grid: the old position of the relocated cell is dead. -/
theorem relocalisation_change_la_grille (g : Grille) (origine destination : Nat)
    (hv : (g origine).vivante ≠ 0) :
    ecrire (ecrire g destination (g origine)) origine (vider_position (g origine)) ≠ g := by
  intro h
  have h1 := congrFun h origine
  rw [ecrire_meme] at h1
  apply hv
  rw [← h1]
  rfl

/-- C28: the movement pass runs only when the generation (before its increment) is a
multiple of 10.  Otherwise the current buffer after the step is the buffer written by the
cell pass.  On a multiple of 10 the current buffer after the step is the buffer written
by the cell pass after the scan of all `hauteur * largeur` cells by the movement pass,
and when the scan reaches a cell `(ligne, colonne)` that is then alive, passes
`doit_se_deplacer` and has a dead destination, the next draw is consumed and the scan
continues on the grid with the cell relocated (its record at the destination, its old
position emptied) if and only if the draw modulo 100 is below 30, and on the unchanged
grid if not. -/
theorem mouvement_une_generation_sur_dix (F : Flottants) (a : AutomateCellulaire)
    (actuelles suivantes : Grille) (ha : a.grille_cellules_actuelles = some actuelles)
    (hs : a.grille_cellules_suivantes = some suivantes) :
    (a.generation_actuelle % 10 ≠ 0 →
      (calculer_generation_suivante F a).grille_cellules_actuelles =
        some (etat_apres_passe F a actuelles suivantes).suivantes) ∧
    (a.generation_actuelle % 10 = 0 →
      (calculer_generation_suivante F a).grille_cellules_actuelles =
        some (etat_mouvement a.largeur_grille a.hauteur_grille
          ((etat_apres_passe F a actuelles suivantes).suivantes,
            (etat_apres_passe F a actuelles suivantes).generateur)
          (a.hauteur_grille * a.largeur_grille)).1 ∧
      ∀ (ligne colonne : Nat) (st : Grille × Nat), ligne < a.hauteur_grille →
        colonne < a.largeur_grille →
        st = etat_mouvement a.largeur_grille a.hauteur_grille
          ((etat_apres_passe F a actuelles suivantes).suivantes,
            (etat_apres_passe F a actuelles suivantes).generateur)
          (ligne * a.largeur_grille + colonne) →
        (st.1 (ligne * a.largeur_grille + colonne)).vivante ≠ 0 →
        doit_se_deplacer (st.1 (ligne * a.largeur_grille + colonne)) 0 = true →
        (st.1 (destination_mouvement a.largeur_grille a.hauteur_grille ligne colonne
          (st.1 (ligne * a.largeur_grille + colonne)).polarisation)).vivante = 0 →
        (etat_mouvement a.largeur_grille a.hauteur_grille
          ((etat_apres_passe F a actuelles suivantes).suivantes,
            (etat_apres_passe F a actuelles suivantes).generateur)
          (ligne * a.largeur_grille + colonne + 1)).2 = lcg st.2 ∧
        ((etat_mouvement a.largeur_grille a.hauteur_grille
          ((etat_apres_passe F a actuelles suivantes).suivantes,
            (etat_apres_passe F a actuelles suivantes).generateur)
          (ligne * a.largeur_grille + colonne + 1)).1 =
            ecrire (ecrire st.1 (destination_mouvement a.largeur_grille a.hauteur_grille ligne
                colonne (st.1 (ligne * a.largeur_grille + colonne)).polarisation)
                (st.1 (ligne * a.largeur_grille + colonne)))
              (ligne * a.largeur_grille + colonne)
              (vider_position (st.1 (ligne * a.largeur_grille + colonne))) ↔
          lcg st.2 % 100 < 30) ∧
        (¬ lcg st.2 % 100 < 30 →
          (etat_mouvement a.largeur_grille a.hauteur_grille
            ((etat_apres_passe F a actuelles suivantes).suivantes,
              (etat_apres_passe F a actuelles suivantes).generateur)
            (ligne * a.largeur_grille + colonne + 1)).1 = st.1)) := by
  refine ⟨fun h => ?_, fun h => ⟨?_, fun ligne colonne st _ hc hst hv hd hlibre => ?_⟩⟩
  · rw [calculer_generation_suivante_presents F a actuelles suivantes ha hs]
    simp only [grille_apres_mouvement, h, if_false]
  · rw [calculer_generation_suivante_presents F a actuelles suivantes ha hs]
    simp only [grille_apres_mouvement, h, if_true]
    rw [passe_mouvement_balayage]
  · rw [etat_mouvement_suivant _ _ _ _ _ hc, ← hst,
      deplacer_cellule_candidate _ _ _ _ st hv hd hlibre]
    by_cases hg : lcg st.2 % 100 < 30
    · rw [if_pos hg]
      exact ⟨rfl, ⟨fun _ => hg, fun _ => rfl⟩, fun hn => absurd hg hn⟩
    · rw [if_neg hg]
      refine ⟨rfl, ⟨fun hm => ?_, fun h30 => absurd h30 hg⟩, fun _ => rfl⟩
      exact absurd hm.symm (relocalisation_change_la_grille st.1 _ _ hv)

theorem mouvement_une_generation_sur_dix_witness :
    (automate_exemple grille_nomades 0).grille_cellules_actuelles = some grille_nomades ∧
    (automate_exemple grille_nomades 0).grille_cellules_suivantes = some grille_vide ∧
    (automate_exemple grille_nomades 0).generation_actuelle % 10 = 0 ∧
    (0 : Nat) < (automate_exemple grille_nomades 0).hauteur_grille ∧
    (0 : Nat) < (automate_exemple grille_nomades 0).largeur_grille ∧
    (1 : Nat) < (automate_exemple grille_nomades 0).largeur_grille ∧
    (depart_nomades.1 0).vivante ≠ 0 ∧
    doit_se_deplacer (depart_nomades.1 0) 0 = true ∧
    destination_mouvement 4 4 0 0 (depart_nomades.1 0).polarisation = 5 ∧
    (depart_nomades.1 5).vivante = 0 ∧
    lcg depart_nomades.2 % 100 < 30 ∧
    (etat_mouvement 4 4 depart_nomades 1).1 =
      ecrire (ecrire depart_nomades.1 5 (depart_nomades.1 0)) 0
        (vider_position (depart_nomades.1 0)) ∧
    ((etat_mouvement 4 4 depart_nomades 1).1 1).vivante ≠ 0 ∧
    doit_se_deplacer ((etat_mouvement 4 4 depart_nomades 1).1 1) 0 = true ∧
    destination_mouvement 4 4 0 1 ((etat_mouvement 4 4 depart_nomades 1).1 1).polarisation =
      13 ∧
    ((etat_mouvement 4 4 depart_nomades 1).1 13).vivante = 0 ∧
    lcg (etat_mouvement 4 4 depart_nomades 1).2 % 100 = 44 ∧
    (etat_mouvement 4 4 depart_nomades 2).1 = (etat_mouvement 4 4 depart_nomades 1).1 ∧
    (calculer_generation_suivante flottants_exemple
      (automate_exemple grille_nomades 0)).grille_cellules_actuelles =
      some (etat_mouvement 4 4 depart_nomades 16).1 :=
  ⟨rfl, rfl, rfl, by decide, by decide, by decide, by decide!, by decide!, by decide!,
    by decide!, by decide!,
    ((((mouvement_une_generation_sur_dix flottants_exemple (automate_exemple grille_nomades 0)
      grille_nomades grille_vide rfl rfl).2 rfl).2 0 0 depart_nomades (by decide) (by decide)
      rfl (by decide!) (by decide!) (by decide!)).2.1).mpr (by decide!),
    by decide!, by decide!, by decide!, by decide!, by decide!,
    (((mouvement_une_generation_sur_dix flottants_exemple (automate_exemple grille_nomades 0)
      grille_nomades grille_vide rfl rfl).2 rfl).2 0 1 (etat_mouvement 4 4 depart_nomades 1)
      (by decide) (by decide) rfl (by decide!) (by decide!) (by decide!)).2.2 (by decide!),
    ((mouvement_une_generation_sur_dix flottants_exemple (automate_exemple grille_nomades 0)
      grille_nomades grille_vide rfl rfl).2 rfl).1⟩

/-- C26 (evaluation at a failing input): on the 4x4 automaton with rule `B3/S234` at
generation 0, the Explorer at (1,1) has three live neighbours before the cell pass and
three after it, so `doit_se_deplacer` is false for its number of live neighbours; the
movement pass calls `doit_se_deplacer` with 0 neighbours, the Explorer (movement
counter 50 after the cell pass) is a candidate and is relocated to (0,1). -/
theorem exploratrice_entouree_deplacee :
    (collecter_voisins grille_exploratrice 4 4 1 1).1 = 3 ∧
    (collecter_voisins (etat_apres_passe flottants_exemple automate_exploratrice
      grille_exploratrice grille_vide).suivantes 4 4 1 1).1 = 3 ∧
    ((etat_apres_passe flottants_exemple automate_exploratrice
      grille_exploratrice grille_vide).suivantes 5).vivante = 1 ∧
    ((etat_apres_passe flottants_exemple automate_exploratrice
      grille_exploratrice grille_vide).suivantes 5).race = RACE_EXPLORATRICE ∧
    doit_se_deplacer ((etat_apres_passe flottants_exemple automate_exploratrice
      grille_exploratrice grille_vide).suivantes 5) 3 = false ∧
    doit_se_deplacer ((etat_apres_passe flottants_exemple automate_exploratrice
      grille_exploratrice grille_vide).suivantes 5) 0 = true ∧
    (cellule_apres_etape flottants_exemple automate_exploratrice 5).vivante = 0 ∧
    cellule_apres_etape flottants_exemple automate_exploratrice 1 =
      (etat_apres_passe flottants_exemple automate_exploratrice
        grille_exploratrice grille_vide).suivantes 5 := by
  refine ⟨by decide!, by decide!, by decide!, by decide!, by decide!, by decide!, by decide!,
    by decide!⟩

/-- C27 (evaluation at a failing input): on the 4x4 automaton with rule `B3/S23` at
generation 0 holding the five Nomads of `grille_nomades`, the cell pass leaves the Nomad
of species 9, which points south-east, at (0,0); the movement pass relocates it to (1,1)
and, when the scan reaches (1,1), relocates it again to (2,2): after the step its record
is at (2,2), two steps from (0,0), and (0,0) and (1,1) are dead. -/
theorem nomade_deplacee_deux_fois :
    ((etat_apres_passe flottants_exemple (automate_exemple grille_nomades 0)
      grille_nomades grille_vide).suivantes 0).vivante = 1 ∧
    ((etat_apres_passe flottants_exemple (automate_exemple grille_nomades 0)
      grille_nomades grille_vide).suivantes 0).espece_id = 9 ∧
    ((etat_apres_passe flottants_exemple (automate_exemple grille_nomades 0)
      grille_nomades grille_vide).suivantes 0).polarisation = DIRECTION_SUD_EST ∧
    (∀ i, i < 16 → i ≠ 0 →
      ((etat_apres_passe flottants_exemple (automate_exemple grille_nomades 0)
        grille_nomades grille_vide).suivantes i).espece_id ≠ 9) ∧
    destination_mouvement 4 4 0 0 DIRECTION_SUD_EST = 5 ∧
    destination_mouvement 4 4 1 1 DIRECTION_SUD_EST = 10 ∧
    (cellule_apres_etape flottants_exemple (automate_exemple grille_nomades 0) 0).vivante = 0 ∧
    (cellule_apres_etape flottants_exemple (automate_exemple grille_nomades 0) 5).vivante = 0 ∧
    cellule_apres_etape flottants_exemple (automate_exemple grille_nomades 0) 10 =
      (etat_apres_passe flottants_exemple (automate_exemple grille_nomades 0)
        grille_nomades grille_vide).suivantes 0 := by
  refine ⟨by decide!, by decide!, by decide!, by decide!, by decide!, by decide!, by decide!,
    by decide!, by decide!⟩

/-! ## The passes, position by position -/

/-- The environment update writes each record of the buffer once, from its old value. -/
theorem mettre_a_jour_environnement_position (F : Flottants)
    (largeur hauteur generation : Nat) (actuelles : Grille) (environnement : GrilleEnv)
    (l c : Nat) (hl : l < hauteur) (hc : c < largeur) :
    mettre_a_jour_environnement F largeur hauteur generation actuelles environnement
        (l * largeur + c) =
      maj_environnement_cellule F largeur hauteur generation actuelles l c
        (environnement (l * largeur + c)) := by
  have h := boucle_grille_inv
    (fun k (e : GrilleEnv) => ∀ i,
      (i < k → e i = maj_environnement_cellule F largeur hauteur generation actuelles
        (i / largeur) (i % largeur) (environnement i)) ∧
      (k ≤ i → e i = environnement i))
    largeur hauteur
    (fun ligne colonne e => ecrire e (ligne * largeur + colonne)
      (maj_environnement_cellule F largeur hauteur generation actuelles ligne colonne
        (e (ligne * largeur + colonne))))
    environnement
    (fun i => ⟨fun hi => absurd hi (Nat.not_lt_zero i), fun _ => rfl⟩)
    (fun ligne colonne _ hcol e hP i => by
      beta_reduce at hP ⊢
      by_cases hik : i = ligne * largeur + colonne
      · refine ⟨fun _ => ?_, fun hle => by omega⟩
        rw [hik, ecrire_meme, position_div _ _ _ hcol, position_mod _ _ _ hcol,
          (hP (ligne * largeur + colonne)).2 (Nat.le_refl _)]
      · refine ⟨fun hlt => ?_, fun hle => ?_⟩
        · rw [ecrire_autre _ _ _ _ hik]
          exact (hP i).1 (by omega)
        · rw [ecrire_autre _ _ _ _ hik]
          exact (hP i).2 (by omega))
  have h2 := (h (l * largeur + c)).1 (position_lt l c largeur hauteur hl hc)
  rw [position_div _ _ _ hc, position_mod _ _ _ hc] at h2
  exact h2

/-- The cell pass writes each record of the next buffer and of the environment buffer
once: the issue of the loop body on the stale record and on the environment record of
before the pass, for the generator and the counter that the pass holds at that cell. -/
theorem passe_cellules_position (F : Flottants) (largeur hauteur masque_naissance
    masque_survie generation : Nat) (actuelles : Grille) (st : EtatPasse)
    (l c : Nat) (hl : l < hauteur) (hc : c < largeur) :
    ∃ g pop,
      (passe_cellules F largeur hauteur masque_naissance masque_survie generation actuelles
        st).suivantes (l * largeur + c) =
        (evaluer_cellule F largeur hauteur masque_naissance masque_survie generation
          actuelles l c (st.suivantes (l * largeur + c)) (st.environnement (l * largeur + c))
          g pop).cellule ∧
      (passe_cellules F largeur hauteur masque_naissance masque_survie generation actuelles
        st).environnement (l * largeur + c) =
        (evaluer_cellule F largeur hauteur masque_naissance masque_survie generation
          actuelles l c (st.suivantes (l * largeur + c)) (st.environnement (l * largeur + c))
          g pop).environnement := by
  have h := boucle_grille_inv
    (fun k (x : EtatPasse) => ∀ i,
      (i < k → ∃ g pop,
        x.suivantes i =
          (evaluer_cellule F largeur hauteur masque_naissance masque_survie generation
            actuelles (i / largeur) (i % largeur) (st.suivantes i) (st.environnement i)
            g pop).cellule ∧
        x.environnement i =
          (evaluer_cellule F largeur hauteur masque_naissance masque_survie generation
            actuelles (i / largeur) (i % largeur) (st.suivantes i) (st.environnement i)
            g pop).environnement) ∧
      (k ≤ i → x.suivantes i = st.suivantes i ∧ x.environnement i = st.environnement i))
    largeur hauteur
    (fun ligne colonne x => traiter_cellule F largeur hauteur masque_naissance masque_survie
      generation actuelles ligne colonne x)
    st
    (fun i => ⟨fun hi => absurd hi (Nat.not_lt_zero i), fun _ => ⟨rfl, rfl⟩⟩)
    (fun ligne colonne _ hcol x hP i => by
      beta_reduce at hP ⊢
      by_cases hik : i = ligne * largeur + colonne
      · refine ⟨fun _ => ⟨x.generateur, x.population, ?_, ?_⟩, fun hle => by omega⟩
        · simp only [traiter_cellule, hik, ecrire_meme]
          rw [position_div _ _ _ hcol, position_mod _ _ _ hcol,
            ((hP (ligne * largeur + colonne)).2 (Nat.le_refl _)).1,
            ((hP (ligne * largeur + colonne)).2 (Nat.le_refl _)).2]
        · simp only [traiter_cellule, hik, ecrire_meme]
          rw [position_div _ _ _ hcol, position_mod _ _ _ hcol,
            ((hP (ligne * largeur + colonne)).2 (Nat.le_refl _)).1,
            ((hP (ligne * largeur + colonne)).2 (Nat.le_refl _)).2]
      · refine ⟨fun hlt => ?_, fun hle => ?_⟩
        · simp only [traiter_cellule, ecrire_autre _ _ _ _ hik]
          exact (hP i).1 (by omega)
        · simp only [traiter_cellule, ecrire_autre _ _ _ _ hik]
          exact (hP i).2 (by omega))
  have h2 := (h (l * largeur + c)).1 (position_lt l c largeur hauteur hl hc)
  rw [position_div _ _ _ hc, position_mod _ _ _ hc] at h2
  exact h2

/-! ## One cell: parents, birth and survival -/

/-- Every record of the parent array is a live neighbour of the cell, at one of the eight
offsets, whose fertility exceeds the threshold. -/
theorem collecter_voisins_parents (a : Grille) (largeur hauteur ligne colonne : Nat)
    (p : CelluleEvolutive) (hp : p ∈ (collecter_voisins a largeur hauteur ligne colonne).2) :
    ∃ dl dc, dl < 3 ∧ dc < 3 ∧ ¬ (dl = 1 ∧ dc = 1) ∧
      p = a (position_voisin largeur hauteur ligne colonne dl dc) ∧ p.vivante ≠ 0 ∧
      fertilite_depasse_seuil p.age = true := by
  revert p
  unfold collecter_voisins
  refine boucle_inv (fun _ (st : Nat × List CelluleEvolutive) => ∀ p ∈ st.2,
    ∃ dl dc, dl < 3 ∧ dc < 3 ∧ ¬ (dl = 1 ∧ dc = 1) ∧
      p = a (position_voisin largeur hauteur ligne colonne dl dc) ∧ p.vivante ≠ 0 ∧
      fertilite_depasse_seuil p.age = true) 3 _ _ (fun p hp => by simp at hp) ?_
  intro dl hdl st hst
  refine boucle_inv (fun _ (st : Nat × List CelluleEvolutive) => ∀ p ∈ st.2,
    ∃ dl dc, dl < 3 ∧ dc < 3 ∧ ¬ (dl = 1 ∧ dc = 1) ∧
      p = a (position_voisin largeur hauteur ligne colonne dl dc) ∧ p.vivante ≠ 0 ∧
      fertilite_depasse_seuil p.age = true) 3 _ _ hst ?_
  intro dc hdc st hst
  beta_reduce
  by_cases h1 : dl = 1 ∧ dc = 1
  · rw [if_pos h1]
    exact hst
  · rw [if_neg h1]
    by_cases h2 : (a (position_voisin largeur hauteur ligne colonne dl dc)).vivante ≠ 0
    · simp only [ne_eq, h2, not_false_eq_true, if_true]
      by_cases h3 : fertilite_depasse_seuil
          (a (position_voisin largeur hauteur ligne colonne dl dc)).age = true ∧
          st.2.length < 8
      · rw [if_pos h3]
        intro p hp
        rcases List.mem_append.mp hp with hp | hp
        · exact hst p hp
        · rw [List.mem_singleton] at hp
          exact ⟨dl, dc, hdl, hdc, h1, hp, by rw [hp]; exact h2, by rw [hp]; exact h3.1⟩
      · rw [if_neg h3]
        exact hst
    · rw [if_neg h2]
      exact hst

/-- A birth that is not cancelled by the dispersal check. -/
theorem faire_naitre_confirmee (F : Flottants)
    (largeur hauteur generation ligne colonne : Nat) (p0 : CelluleEvolutive)
    (reste : List CelluleEvolutive) (s : CelluleEvolutive) (env : EnvironnementLocal)
    (generateur population n : Nat)
    (hc : ¬ (n ≥ 3 ∧ lcg (heriter_traits F largeur hauteur generation ligne colonne p0 reste
      s env generateur n).2 % 100 < 60)) :
    (faire_naitre F largeur hauteur generation ligne colonne p0 reste s env generateur
      population n).cellule.vivante = 1 ∧
    (faire_naitre F largeur hauteur generation ligne colonne p0 reste s env generateur
      population n).cellule.sante = 50 ∧
    (faire_naitre F largeur hauteur generation ligne colonne p0 reste s env generateur
      population n).cellule.compteur_mouvement = 0 ∧
    (faire_naitre F largeur hauteur generation ligne colonne p0 reste s env generateur
      population n).cellule.generation_naissance = generation % 256 ∧
    (faire_naitre F largeur hauteur generation ligne colonne p0 reste s env generateur
      population n).environnement =
      { env with nutriments := (env.nutriments + 256 - 2) % 256 } ∧
    (faire_naitre F largeur hauteur generation ligne colonne p0 reste s env generateur
      population n).population = (population + 1) % 4294967296 := by
  unfold faire_naitre
  simp only [hc, if_false]
  refine ⟨?_, ?_, ?_, ?_, ?_, ?_⟩ <;> first | rfl | trivial

/-- A birth that is cancelled by the dispersal check. -/
theorem faire_naitre_annulee (F : Flottants)
    (largeur hauteur generation ligne colonne : Nat) (p0 : CelluleEvolutive)
    (reste : List CelluleEvolutive) (s : CelluleEvolutive) (env : EnvironnementLocal)
    (generateur population n : Nat)
    (hc : n ≥ 3 ∧ lcg (heriter_traits F largeur hauteur generation ligne colonne p0 reste
      s env generateur n).2 % 100 < 60) :
    (faire_naitre F largeur hauteur generation ligne colonne p0 reste s env generateur
      population n).cellule.vivante = 0 ∧
    (faire_naitre F largeur hauteur generation ligne colonne p0 reste s env generateur
      population n).environnement = env ∧
    (faire_naitre F largeur hauteur generation ligne colonne p0 reste s env generateur
      population n).population = population := by
  unfold faire_naitre
  simp only [hc, and_self, if_true]

theorem evaluer_naissance_cons (F : Flottants) (largeur hauteur masque_naissance generation
    ligne colonne : Nat) (p0 : CelluleEvolutive) (reste : List CelluleEvolutive)
    (s : CelluleEvolutive) (env : EnvironnementLocal) (g pop n : Nat) :
    evaluer_naissance F largeur hauteur masque_naissance generation ligne colonne (p0 :: reste)
        s env g pop n =
      if env.nutriments ≥ CONSOMMATION_NUTRIMENTS * 2 then
        (if masque_naissance &&& (1 <<< n) ≠ 0 ∧
            F.naissance_probable (p0 :: reste) colonne ligne generation largeur hauteur
              (lcg g % 1000) = true then
          faire_naitre F largeur hauteur generation ligne colonne p0 reste s env (lcg g) pop n
        else ⟨laisser_morte s 0 0, env, lcg g, pop⟩)
      else ⟨laisser_morte s 0 0, env, g, pop⟩ := rfl

/-- A live record at the end of the birth branch: there is a fertile parent, the local
nutrients were at least 2, the birth mask has the bit of the neighbour count, the
dispersal check did not cancel the birth, and the issue is that of a confirmed birth. -/
theorem evaluer_naissance_vivante (F : Flottants) (largeur hauteur masque_naissance
    generation ligne colonne : Nat) (parents : List CelluleEvolutive) (s : CelluleEvolutive)
    (env : EnvironnementLocal) (g pop n : Nat)
    (hv : (evaluer_naissance F largeur hauteur masque_naissance generation ligne colonne
      parents s env g pop n).cellule.vivante ≠ 0) :
    parents ≠ [] ∧ env.nutriments ≥ 2 ∧ masque_naissance &&& (1 <<< n) ≠ 0 ∧
    (evaluer_naissance F largeur hauteur masque_naissance generation ligne colonne
      parents s env g pop n).cellule.vivante = 1 ∧
    (evaluer_naissance F largeur hauteur masque_naissance generation ligne colonne
      parents s env g pop n).cellule.sante = 50 ∧
    (evaluer_naissance F largeur hauteur masque_naissance generation ligne colonne
      parents s env g pop n).cellule.compteur_mouvement = 0 ∧
    (evaluer_naissance F largeur hauteur masque_naissance generation ligne colonne
      parents s env g pop n).cellule.generation_naissance = generation % 256 ∧
    (evaluer_naissance F largeur hauteur masque_naissance generation ligne colonne
      parents s env g pop n).environnement =
      { env with nutriments := (env.nutriments + 256 - 2) % 256 } ∧
    (evaluer_naissance F largeur hauteur masque_naissance generation ligne colonne
      parents s env g pop n).population = (pop + 1) % 4294967296 := by
  cases parents with
  | nil => exact absurd rfl hv
  | cons p0 reste =>
    rw [evaluer_naissance_cons] at hv ⊢
    by_cases h1 : env.nutriments ≥ CONSOMMATION_NUTRIMENTS * 2
    · rw [if_pos h1] at hv ⊢
      by_cases h2 : masque_naissance &&& (1 <<< n) ≠ 0 ∧
          F.naissance_probable (p0 :: reste) colonne ligne generation largeur hauteur
            (lcg g % 1000) = true
      · rw [if_pos h2] at hv ⊢
        by_cases hc : n ≥ 3 ∧ lcg (heriter_traits F largeur hauteur generation ligne colonne p0
            reste s env (lcg g) n).2 % 100 < 60
        · exact absurd (faire_naitre_annulee F largeur hauteur generation ligne colonne p0
            reste s env (lcg g) pop n hc).1 hv
        · exact ⟨List.cons_ne_nil _ _, h1, h2.1,
            faire_naitre_confirmee F largeur hauteur generation ligne colonne p0 reste s env
              (lcg g) pop n hc⟩
      · rw [if_neg h2] at hv
        exact absurd rfl hv
    · rw [if_neg h1] at hv
      exact absurd rfl hv

/-- A dead record at the end of the birth branch: the environment record and the
population counter are those of before the cell. -/
theorem evaluer_naissance_morte (F : Flottants) (largeur hauteur masque_naissance
    generation ligne colonne : Nat) (parents : List CelluleEvolutive) (s : CelluleEvolutive)
    (env : EnvironnementLocal) (g pop n : Nat)
    (hv : (evaluer_naissance F largeur hauteur masque_naissance generation ligne colonne
      parents s env g pop n).cellule.vivante = 0) :
    (evaluer_naissance F largeur hauteur masque_naissance generation ligne colonne
      parents s env g pop n).environnement = env ∧
    (evaluer_naissance F largeur hauteur masque_naissance generation ligne colonne
      parents s env g pop n).population = pop := by
  cases parents with
  | nil => exact ⟨rfl, rfl⟩
  | cons p0 reste =>
    rw [evaluer_naissance_cons] at hv ⊢
    by_cases h1 : env.nutriments ≥ CONSOMMATION_NUTRIMENTS * 2
    · rw [if_pos h1] at hv ⊢
      by_cases h2 : masque_naissance &&& (1 <<< n) ≠ 0 ∧
          F.naissance_probable (p0 :: reste) colonne ligne generation largeur hauteur
            (lcg g % 1000) = true
      · rw [if_pos h2] at hv ⊢
        by_cases hc : n ≥ 3 ∧ lcg (heriter_traits F largeur hauteur generation ligne colonne p0
            reste s env (lcg g) n).2 % 100 < 60
        · exact (faire_naitre_annulee F largeur hauteur generation ligne colonne p0
            reste s env (lcg g) pop n hc).2
        · have h := (faire_naitre_confirmee F largeur hauteur generation ligne colonne p0 reste
            s env (lcg g) pop n hc).1
          rw [hv] at h
          exact absurd h (by decide)
      · rw [if_neg h2]
        exact ⟨rfl, rfl⟩
    · rw [if_neg h1]
      exact ⟨rfl, rfl⟩

/-- The dispersal check: with 3 or more live neighbours and the draw modulo 100 below 60,
the birth branch leaves a dead record. -/
theorem evaluer_naissance_dispersion (F : Flottants) (largeur hauteur masque_naissance
    generation ligne colonne : Nat) (p0 : CelluleEvolutive) (reste : List CelluleEvolutive)
    (s : CelluleEvolutive) (env : EnvironnementLocal) (g pop n : Nat)
    (hc : n ≥ 3 ∧ lcg (heriter_traits F largeur hauteur generation ligne colonne p0
      reste s env (lcg g) n).2 % 100 < 60) :
    (evaluer_naissance F largeur hauteur masque_naissance generation ligne colonne
      (p0 :: reste) s env g pop n).cellule.vivante = 0 := by
  rw [evaluer_naissance_cons]
  by_cases h1 : env.nutriments ≥ CONSOMMATION_NUTRIMENTS * 2
  · rw [if_pos h1]
    by_cases h2 : masque_naissance &&& (1 <<< n) ≠ 0 ∧
        F.naissance_probable (p0 :: reste) colonne ligne generation largeur hauteur
          (lcg g % 1000) = true
    · rw [if_pos h2]
      exact (faire_naitre_annulee F largeur hauteur generation ligne colonne p0
        reste s env (lcg g) pop n hc).1
    · rw [if_neg h2]
      rfl
  · rw [if_neg h1]
    rfl

theorem survivante_copiee_morte (actuelle s : CelluleEvolutive) (age a2 sante : Nat)
    (env : EnvironnementLocal) (g pop : Nat) :
    survivante_copiee actuelle age ⟨laisser_morte s a2 sante, env, g, pop⟩ :=
  fun h => absurd rfl h

theorem appliquer_regle_copie (masque_survie : Nat) (actuelle s : CelluleEvolutive)
    (env : EnvironnementLocal) (age sante g pop n : Nat) :
    survivante_copiee actuelle age
      (appliquer_regle masque_survie actuelle s env age sante g pop n) := by
  unfold appliquer_regle
  refine ite_prop (survivante_copiee actuelle age) ?_ (survivante_copiee_morte _ _ _ _ _ _ _ _)
  intro _
  rfl

theorem evaluer_instabilite_copie (masque_survie generation : Nat)
    (actuelle s : CelluleEvolutive) (env : EnvironnementLocal) (age sante g pop n : Nat) :
    survivante_copiee actuelle age
      (evaluer_instabilite masque_survie generation actuelle s env age sante g pop n) := by
  unfold evaluer_instabilite
  simp only
  refine ite_prop (survivante_copiee actuelle age) (survivante_copiee_morte _ _ _ _ _ _ _ _)
    (ite_prop (survivante_copiee actuelle age)
      (ite_prop (survivante_copiee actuelle age) (survivante_copiee_morte _ _ _ _ _ _ _ _)
        (appliquer_regle_copie _ _ _ _ _ _ _ _ _))
      (appliquer_regle_copie _ _ _ _ _ _ _ _ _))

theorem evaluer_survie_copie (F : Flottants) (masque_survie generation : Nat)
    (actuelle s : CelluleEvolutive) (env : EnvironnementLocal) (g pop n : Nat) :
    survivante_copiee actuelle (vieillir actuelle.age)
      (evaluer_survie F masque_survie generation actuelle s env g pop n) := by
  unfold evaluer_survie
  simp only
  refine ite_prop (survivante_copiee actuelle (vieillir actuelle.age))
    (survivante_copiee_morte _ _ _ _ _ _ _ _)
    (ite_prop (survivante_copiee actuelle (vieillir actuelle.age))
      (survivante_copiee_morte _ _ _ _ _ _ _ _)
      (ite_prop (survivante_copiee actuelle (vieillir actuelle.age))
        (survivante_copiee_morte _ _ _ _ _ _ _ _)
        (ite_prop (survivante_copiee actuelle (vieillir actuelle.age))
          (survivante_copiee_morte _ _ _ _ _ _ _ _)
          (evaluer_instabilite_copie _ _ _ _ _ _ _ _ _ _))))

theorem maj_nutriments_lt (nutriments : Nat) (nutriments_max : Int) (h : nutriments < 256) :
    maj_nutriments nutriments nutriments_max < 256 := by
  unfold maj_nutriments
  split
  · simp only
    split
    · omega
    · exact Nat.mod_lt _ (by decide)
  · split
    · exact Nat.mod_lt _ (by decide)
    · exact h

theorem evaluer_cellule_de_morte (F : Flottants) (largeur hauteur masque_naissance
    masque_survie generation : Nat) (actuelles : Grille) (ligne colonne : Nat)
    (s : CelluleEvolutive) (env : EnvironnementLocal) (g pop : Nat)
    (hm : (actuelles (ligne * largeur + colonne)).vivante = 0) :
    evaluer_cellule F largeur hauteur masque_naissance masque_survie generation actuelles
        ligne colonne s env g pop =
      evaluer_naissance F largeur hauteur masque_naissance generation ligne colonne
        (collecter_voisins actuelles largeur hauteur ligne colonne).2 s env g pop
        (collecter_voisins actuelles largeur hauteur ligne colonne).1 := by
  unfold evaluer_cellule
  simp only [hm, ne_eq, not_true_eq_false, if_false]

theorem evaluer_cellule_de_vivante (F : Flottants) (largeur hauteur masque_naissance
    masque_survie generation : Nat) (actuelles : Grille) (ligne colonne : Nat)
    (s : CelluleEvolutive) (env : EnvironnementLocal) (g pop : Nat)
    (hv : (actuelles (ligne * largeur + colonne)).vivante ≠ 0) :
    evaluer_cellule F largeur hauteur masque_naissance masque_survie generation actuelles
        ligne colonne s env g pop =
      evaluer_survie F masque_survie generation (actuelles (ligne * largeur + colonne)) s env
        g pop (collecter_voisins actuelles largeur hauteur ligne colonne).1 := by
  unfold evaluer_cellule
  simp only [ne_eq, hv, not_false_eq_true, if_true]

/-- The records that the cell pass of a step leaves at a position: the issue of the loop
body on the stale record of the next buffer and on the environment record after the
environment update. -/
theorem etat_apres_passe_position (F : Flottants) (a : AutomateCellulaire)
    (actuelles suivantes : Grille) (ligne colonne : Nat) (hl : ligne < a.hauteur_grille)
    (hc : colonne < a.largeur_grille) :
    ∃ g pop,
      (etat_apres_passe F a actuelles suivantes).suivantes (ligne * a.largeur_grille + colonne) =
        (evaluer_cellule F a.largeur_grille a.hauteur_grille a.masque_conditions_naissance
          a.masque_conditions_survie a.generation_actuelle actuelles ligne colonne
          (suivantes (ligne * a.largeur_grille + colonne))
          (mettre_a_jour_environnement F a.largeur_grille a.hauteur_grille
            a.generation_actuelle actuelles a.grille_environnement
            (ligne * a.largeur_grille + colonne)) g pop).cellule ∧
      (etat_apres_passe F a actuelles suivantes).environnement
          (ligne * a.largeur_grille + colonne) =
        (evaluer_cellule F a.largeur_grille a.hauteur_grille a.masque_conditions_naissance
          a.masque_conditions_survie a.generation_actuelle actuelles ligne colonne
          (suivantes (ligne * a.largeur_grille + colonne))
          (mettre_a_jour_environnement F a.largeur_grille a.hauteur_grille
            a.generation_actuelle actuelles a.grille_environnement
            (ligne * a.largeur_grille + colonne)) g pop).environnement :=
  passe_cellules_position F a.largeur_grille a.hauteur_grille a.masque_conditions_naissance
    a.masque_conditions_survie a.generation_actuelle actuelles
    ⟨suivantes, mettre_a_jour_environnement F a.largeur_grille a.hauteur_grille
      a.generation_actuelle actuelles a.grille_environnement,
      graine_generation a.generation_actuelle, 0⟩ ligne colonne hl hc

/-! ## Birth and survival in the next grid (C23, C24, C25) -/

/-- C23: a cell that is dead in the current grid is alive in the grid written by the cell
pass only if one of its 8 toroidal neighbours is alive with fertility above the
threshold, the nutrients of its position after the environment update are at least 2
and the birth mask has the bit of its live-neighbour count; with a birth mask of 0 it
stays dead. -/
theorem naissance_seulement_si (F : Flottants) (a : AutomateCellulaire)
    (actuelles suivantes : Grille) (ligne colonne : Nat) (hl : ligne < a.hauteur_grille)
    (hc : colonne < a.largeur_grille)
    (hm : (actuelles (ligne * a.largeur_grille + colonne)).vivante = 0) :
    (((etat_apres_passe F a actuelles suivantes).suivantes
        (ligne * a.largeur_grille + colonne)).vivante ≠ 0 →
      (∃ dl dc, dl < 3 ∧ dc < 3 ∧ ¬ (dl = 1 ∧ dc = 1) ∧
        (actuelles (position_voisin a.largeur_grille a.hauteur_grille ligne colonne
          dl dc)).vivante ≠ 0 ∧
        fertilite_depasse_seuil (actuelles (position_voisin a.largeur_grille a.hauteur_grille
          ligne colonne dl dc)).age = true) ∧
      (mettre_a_jour_environnement F a.largeur_grille a.hauteur_grille a.generation_actuelle
        actuelles a.grille_environnement (ligne * a.largeur_grille + colonne)).nutriments ≥ 2 ∧
      a.masque_conditions_naissance &&&
        (1 <<< (collecter_voisins actuelles a.largeur_grille a.hauteur_grille
          ligne colonne).1) ≠ 0) ∧
    (a.masque_conditions_naissance = 0 →
      ((etat_apres_passe F a actuelles suivantes).suivantes
        (ligne * a.largeur_grille + colonne)).vivante = 0) := by
  obtain ⟨g, pop, h1, _⟩ := etat_apres_passe_position F a actuelles suivantes ligne colonne hl hc
  rw [evaluer_cellule_de_morte _ _ _ _ _ _ _ _ _ _ _ _ _ hm] at h1
  have hcond : ((etat_apres_passe F a actuelles suivantes).suivantes
      (ligne * a.largeur_grille + colonne)).vivante ≠ 0 →
      (∃ dl dc, dl < 3 ∧ dc < 3 ∧ ¬ (dl = 1 ∧ dc = 1) ∧
        (actuelles (position_voisin a.largeur_grille a.hauteur_grille ligne colonne
          dl dc)).vivante ≠ 0 ∧
        fertilite_depasse_seuil (actuelles (position_voisin a.largeur_grille a.hauteur_grille
          ligne colonne dl dc)).age = true) ∧
      (mettre_a_jour_environnement F a.largeur_grille a.hauteur_grille a.generation_actuelle
        actuelles a.grille_environnement (ligne * a.largeur_grille + colonne)).nutriments ≥ 2 ∧
      a.masque_conditions_naissance &&&
        (1 <<< (collecter_voisins actuelles a.largeur_grille a.hauteur_grille
          ligne colonne).1) ≠ 0 := by
    intro hv
    rw [h1] at hv
    obtain ⟨hp, hn, hb, _⟩ := evaluer_naissance_vivante _ _ _ _ _ _ _ _ _ _ _ _ _ hv
    obtain ⟨p, hmem⟩ := List.exists_mem_of_ne_nil _ hp
    obtain ⟨dl, dc, hdl, hdc, hne, hpe, hpv, hpf⟩ :=
      collecter_voisins_parents actuelles _ _ _ _ p hmem
    refine ⟨⟨dl, dc, hdl, hdc, hne, ?_, ?_⟩, hn, hb⟩
    · rw [← hpe]
      exact hpv
    · rw [← hpe]
      exact hpf
  refine ⟨hcond, fun h0 => ?_⟩
  by_contra hv
  have h := (hcond hv).2.2
  rw [h0, Nat.zero_and] at h
  exact h rfl

theorem naissance_seulement_si_witness :
    (3 : Nat) < automate_deux_parents.hauteur_grille ∧
    (3 : Nat) < automate_deux_parents.largeur_grille ∧
    (grille_deux_parents (3 * automate_deux_parents.largeur_grille + 3)).vivante = 0 ∧
    ((etat_apres_passe flottants_exemple automate_deux_parents grille_deux_parents
      grille_vide).suivantes (3 * automate_deux_parents.largeur_grille + 3)).vivante ≠ 0 ∧
    ((∃ dl dc, dl < 3 ∧ dc < 3 ∧ ¬ (dl = 1 ∧ dc = 1) ∧
        (grille_deux_parents (position_voisin automate_deux_parents.largeur_grille
          automate_deux_parents.hauteur_grille 3 3 dl dc)).vivante ≠ 0 ∧
        fertilite_depasse_seuil (grille_deux_parents (position_voisin
          automate_deux_parents.largeur_grille automate_deux_parents.hauteur_grille
          3 3 dl dc)).age = true) ∧
      (mettre_a_jour_environnement flottants_exemple automate_deux_parents.largeur_grille
        automate_deux_parents.hauteur_grille automate_deux_parents.generation_actuelle
        grille_deux_parents automate_deux_parents.grille_environnement
        (3 * automate_deux_parents.largeur_grille + 3)).nutriments ≥ 2 ∧
      automate_deux_parents.masque_conditions_naissance &&&
        (1 <<< (collecter_voisins grille_deux_parents automate_deux_parents.largeur_grille
          automate_deux_parents.hauteur_grille 3 3).1) ≠ 0) :=
  ⟨by decide, by decide, by decide!, by decide!,
    (naissance_seulement_si flottants_exemple automate_deux_parents grille_deux_parents
      grille_vide 3 3 (by decide) (by decide) (by decide!)).1 (by decide!)⟩

/-- C24: at a position that is dead in the current grid, whose nutrients are an 8-bit
value: if the cell pass leaves a live cell there (a confirmed birth), the nutrients of
the position are those after the environment update less exactly 2, the newborn's health
is 50, its movement counter is 0 and its birth generation is the generation modulo 256;
if it leaves a dead cell, the environment record is that after the environment update.
In the birth branch, when the number of live neighbours is 3 or more and the draw after
the trait draws is below 60 modulo 100, the cell is left dead, the environment record is
unchanged and the population counter is unchanged. -/
theorem naissance_confirmee_ou_annulee (F : Flottants) (a : AutomateCellulaire)
    (actuelles suivantes : Grille) (ligne colonne : Nat) (hl : ligne < a.hauteur_grille)
    (hc : colonne < a.largeur_grille)
    (hm : (actuelles (ligne * a.largeur_grille + colonne)).vivante = 0)
    (h256 : (a.grille_environnement (ligne * a.largeur_grille + colonne)).nutriments < 256) :
    (((etat_apres_passe F a actuelles suivantes).suivantes
        (ligne * a.largeur_grille + colonne)).vivante ≠ 0 →
      ((etat_apres_passe F a actuelles suivantes).environnement
          (ligne * a.largeur_grille + colonne)).nutriments + 2 =
        (mettre_a_jour_environnement F a.largeur_grille a.hauteur_grille a.generation_actuelle
          actuelles a.grille_environnement (ligne * a.largeur_grille + colonne)).nutriments ∧
      ((etat_apres_passe F a actuelles suivantes).suivantes
        (ligne * a.largeur_grille + colonne)).sante = 50 ∧
      ((etat_apres_passe F a actuelles suivantes).suivantes
        (ligne * a.largeur_grille + colonne)).compteur_mouvement = 0 ∧
      ((etat_apres_passe F a actuelles suivantes).suivantes
        (ligne * a.largeur_grille + colonne)).generation_naissance =
        a.generation_actuelle % 256) ∧
    (((etat_apres_passe F a actuelles suivantes).suivantes
        (ligne * a.largeur_grille + colonne)).vivante = 0 →
      (etat_apres_passe F a actuelles suivantes).environnement
          (ligne * a.largeur_grille + colonne) =
        mettre_a_jour_environnement F a.largeur_grille a.hauteur_grille a.generation_actuelle
          actuelles a.grille_environnement (ligne * a.largeur_grille + colonne)) ∧
    ∀ (p0 : CelluleEvolutive) (reste : List CelluleEvolutive) (s : CelluleEvolutive)
      (env : EnvironnementLocal) (g pop n : Nat),
      n ≥ 3 →
      lcg (heriter_traits F a.largeur_grille a.hauteur_grille a.generation_actuelle ligne
        colonne p0 reste s env (lcg g) n).2 % 100 < 60 →
      (evaluer_naissance F a.largeur_grille a.hauteur_grille a.masque_conditions_naissance
        a.generation_actuelle ligne colonne (p0 :: reste) s env g pop n).cellule.vivante = 0 ∧
      (evaluer_naissance F a.largeur_grille a.hauteur_grille a.masque_conditions_naissance
        a.generation_actuelle ligne colonne (p0 :: reste) s env g pop n).environnement = env ∧
      (evaluer_naissance F a.largeur_grille a.hauteur_grille a.masque_conditions_naissance
        a.generation_actuelle ligne colonne (p0 :: reste) s env g pop n).population = pop := by
  obtain ⟨g, pop, h1, h2⟩ := etat_apres_passe_position F a actuelles suivantes ligne colonne
    hl hc
  rw [evaluer_cellule_de_morte _ _ _ _ _ _ _ _ _ _ _ _ _ hm] at h1 h2
  have hnut : (mettre_a_jour_environnement F a.largeur_grille a.hauteur_grille
      a.generation_actuelle actuelles a.grille_environnement
      (ligne * a.largeur_grille + colonne)).nutriments < 256 := by
    rw [mettre_a_jour_environnement_position _ _ _ _ _ _ _ _ hl hc]
    exact maj_nutriments_lt _ _ h256
  refine ⟨fun hv => ?_, fun hv => ?_, fun p0 reste s env g pop n hn hd => ?_⟩
  · rw [h1] at hv
    obtain ⟨_, hn, _, _, hs, hcm, hg, he, _⟩ :=
      evaluer_naissance_vivante _ _ _ _ _ _ _ _ _ _ _ _ _ hv
    rw [h1, h2, he]
    refine ⟨?_, hs, hcm, hg⟩
    simp only
    omega
  · rw [h1] at hv
    rw [h2]
    exact (evaluer_naissance_morte _ _ _ _ _ _ _ _ _ _ _ _ _ hv).1
  · have hmorte := evaluer_naissance_dispersion F a.largeur_grille a.hauteur_grille
      a.masque_conditions_naissance a.generation_actuelle ligne colonne p0 reste s env g pop n
      ⟨hn, hd⟩
    exact ⟨hmorte, evaluer_naissance_morte _ _ _ _ _ _ _ _ _ _ _ _ _ hmorte⟩

theorem naissance_confirmee_ou_annulee_witness :
    (3 : Nat) < automate_deux_parents.hauteur_grille ∧
    (3 : Nat) < automate_deux_parents.largeur_grille ∧
    (grille_deux_parents (3 * automate_deux_parents.largeur_grille + 3)).vivante = 0 ∧
    (automate_deux_parents.grille_environnement
      (3 * automate_deux_parents.largeur_grille + 3)).nutriments < 256 ∧
    ((etat_apres_passe flottants_exemple automate_deux_parents grille_deux_parents
      grille_vide).suivantes (3 * automate_deux_parents.largeur_grille + 3)).vivante ≠ 0 ∧
    (((etat_apres_passe flottants_exemple automate_deux_parents grille_deux_parents
        grille_vide).environnement
          (3 * automate_deux_parents.largeur_grille + 3)).nutriments + 2 =
        (mettre_a_jour_environnement flottants_exemple automate_deux_parents.largeur_grille
          automate_deux_parents.hauteur_grille automate_deux_parents.generation_actuelle
          grille_deux_parents automate_deux_parents.grille_environnement
          (3 * automate_deux_parents.largeur_grille + 3)).nutriments ∧
      ((etat_apres_passe flottants_exemple automate_deux_parents grille_deux_parents
        grille_vide).suivantes (3 * automate_deux_parents.largeur_grille + 3)).sante = 50 ∧
      ((etat_apres_passe flottants_exemple automate_deux_parents grille_deux_parents
        grille_vide).suivantes
          (3 * automate_deux_parents.largeur_grille + 3)).compteur_mouvement = 0 ∧
      ((etat_apres_passe flottants_exemple automate_deux_parents grille_deux_parents
        grille_vide).suivantes
          (3 * automate_deux_parents.largeur_grille + 3)).generation_naissance =
        automate_deux_parents.generation_actuelle % 256) :=
  ⟨by decide, by decide, by decide!, by decide!, by decide!,
    (naissance_confirmee_ou_annulee flottants_exemple automate_deux_parents
      grille_deux_parents grille_vide 3 3 (by decide) (by decide) (by decide!)
      (by decide!)).1 (by decide!)⟩

/-- C25: a cell that is alive in the current grid and alive at the same position in the
grid written by the cell pass is the record of the current grid with the live flag 1,
the age advanced by the ageing increment (on 8 bits), the health computed by the
survival evaluation and the movement counter incremented modulo 256; genotypes, race,
polarisation and its strength, fitness, efficiency, species, resistance, camouflage,
territoriality, stress adaptability and birth generation are unchanged. -/
theorem survivante_recopiee (F : Flottants) (a : AutomateCellulaire)
    (actuelles suivantes : Grille) (ligne colonne : Nat) (hl : ligne < a.hauteur_grille)
    (hc : colonne < a.largeur_grille)
    (hv : (actuelles (ligne * a.largeur_grille + colonne)).vivante ≠ 0)
    (hn : ((etat_apres_passe F a actuelles suivantes).suivantes
      (ligne * a.largeur_grille + colonne)).vivante ≠ 0) :
    (etat_apres_passe F a actuelles suivantes).suivantes (ligne * a.largeur_grille + colonne) =
      { actuelles (ligne * a.largeur_grille + colonne) with
        vivante := 1
        age := vieillir (actuelles (ligne * a.largeur_grille + colonne)).age
        sante := ((etat_apres_passe F a actuelles suivantes).suivantes
          (ligne * a.largeur_grille + colonne)).sante
        compteur_mouvement :=
          ((actuelles (ligne * a.largeur_grille + colonne)).compteur_mouvement + 1) % 256 } := by
  obtain ⟨g, pop, h1, _⟩ := etat_apres_passe_position F a actuelles suivantes ligne colonne hl hc
  rw [evaluer_cellule_de_vivante _ _ _ _ _ _ _ _ _ _ _ _ _ hv] at h1
  have hcopie := evaluer_survie_copie F a.masque_conditions_survie a.generation_actuelle
    (actuelles (ligne * a.largeur_grille + colonne))
    (suivantes (ligne * a.largeur_grille + colonne))
    (mettre_a_jour_environnement F a.largeur_grille a.hauteur_grille a.generation_actuelle
      actuelles a.grille_environnement (ligne * a.largeur_grille + colonne)) g pop
    (collecter_voisins actuelles a.largeur_grille a.hauteur_grille ligne colonne).1
  unfold survivante_copiee at hcopie
  rw [← h1] at hcopie
  exact hcopie hn

theorem survivante_recopiee_witness :
    (1 : Nat) < (automate_exemple grille_bloc 0).hauteur_grille ∧
    (1 : Nat) < (automate_exemple grille_bloc 0).largeur_grille ∧
    (grille_bloc (1 * (automate_exemple grille_bloc 0).largeur_grille + 1)).vivante ≠ 0 ∧
    ((etat_apres_passe flottants_exemple (automate_exemple grille_bloc 0) grille_bloc
      grille_vide).suivantes
        (1 * (automate_exemple grille_bloc 0).largeur_grille + 1)).vivante ≠ 0 ∧
    (etat_apres_passe flottants_exemple (automate_exemple grille_bloc 0) grille_bloc
      grille_vide).suivantes (1 * (automate_exemple grille_bloc 0).largeur_grille + 1) =
      { grille_bloc (1 * (automate_exemple grille_bloc 0).largeur_grille + 1) with
        vivante := 1
        age := vieillir
          (grille_bloc (1 * (automate_exemple grille_bloc 0).largeur_grille + 1)).age
        sante := ((etat_apres_passe flottants_exemple (automate_exemple grille_bloc 0)
          grille_bloc grille_vide).suivantes
            (1 * (automate_exemple grille_bloc 0).largeur_grille + 1)).sante
        compteur_mouvement :=
          ((grille_bloc (1 * (automate_exemple grille_bloc 0).largeur_grille +
            1)).compteur_mouvement + 1) % 256 } :=
  ⟨by decide, by decide, by decide!, by decide!,
    survivante_recopiee flottants_exemple (automate_exemple grille_bloc 0) grille_bloc
      grille_vide 1 1 (by decide) (by decide) (by decide!) (by decide!)⟩

/-! ## The environment update: nutrients and toxicity (C31, C33) -/

theorem maj_nutriments_sous_plafond (u : Nat) (c : Int) (hu : u < 256) (hc : c ≤ 100)
    (h : (u : Int) < c) : (maj_nutriments u c : Int) = min ((u : Int) + 3) c := by
  unfold maj_nutriments
  simp only [REGENERATION_NUTRIMENTS]
  rw [if_pos h]
  have h1 : (u + 3) % 256 = u + 3 := Nat.mod_eq_of_lt (by omega)
  simp only [h1]
  split
  · rename_i h2
    have h3 : c % 256 = c := Int.emod_eq_of_lt (by omega) (by omega)
    rw [h3, Int.toNat_of_nonneg (by omega)]
    omega
  · omega

theorem maj_nutriments_au_plafond (u : Nat) (c : Int) (h : (u : Int) = c) :
    maj_nutriments u c = u := by
  unfold maj_nutriments
  rw [if_neg (by omega), if_neg (by omega)]

theorem maj_nutriments_sur_plafond (u : Nat) (c : Int) (hu : u < 256) (hc : 0 ≤ c)
    (h : (u : Int) > c) : 1 ≤ u ∧ maj_nutriments u c + 1 = u := by
  unfold maj_nutriments
  rw [if_neg (by omega), if_pos h]
  omega

/-- C31: for an environment cell of the grid with 8-bit nutrients `u` before the update
and a seasonal ceiling `c` with `0 <= c <= 100`, the nutrients after
`mettre_a_jour_environnement` are `min (u + 3) c` if `u < c`, `u` if `u = c` and `u - 1`
if `u > c`; they are at most the ceiling or at most `u`. -/
theorem mettre_a_jour_environnement_nutriments (F : Flottants)
    (largeur hauteur generation : Nat) (actuelles : Grille) (environnement : GrilleEnv)
    (ligne colonne : Nat) (hl : ligne < hauteur) (hcol : colonne < largeur)
    (hu : (environnement (ligne * largeur + colonne)).nutriments < 256)
    (hc0 : 0 ≤ F.nutriments_max generation) (hc : F.nutriments_max generation ≤ 100) :
    (((environnement (ligne * largeur + colonne)).nutriments : Int) <
        F.nutriments_max generation →
      (((mettre_a_jour_environnement F largeur hauteur generation actuelles environnement
        (ligne * largeur + colonne)).nutriments : Nat) : Int) =
        min (((environnement (ligne * largeur + colonne)).nutriments : Int) + 3)
          (F.nutriments_max generation)) ∧
    (((environnement (ligne * largeur + colonne)).nutriments : Int) =
        F.nutriments_max generation →
      (mettre_a_jour_environnement F largeur hauteur generation actuelles environnement
        (ligne * largeur + colonne)).nutriments =
        (environnement (ligne * largeur + colonne)).nutriments) ∧
    (((environnement (ligne * largeur + colonne)).nutriments : Int) >
        F.nutriments_max generation →
      (mettre_a_jour_environnement F largeur hauteur generation actuelles environnement
        (ligne * largeur + colonne)).nutriments + 1 =
        (environnement (ligne * largeur + colonne)).nutriments) ∧
    ((((mettre_a_jour_environnement F largeur hauteur generation actuelles environnement
        (ligne * largeur + colonne)).nutriments : Nat) : Int) ≤ F.nutriments_max generation ∨
      (mettre_a_jour_environnement F largeur hauteur generation actuelles environnement
        (ligne * largeur + colonne)).nutriments ≤
        (environnement (ligne * largeur + colonne)).nutriments) := by
  rw [mettre_a_jour_environnement_position F largeur hauteur generation actuelles environnement
    ligne colonne hl hcol]
  have hn : (maj_environnement_cellule F largeur hauteur generation actuelles ligne colonne
      (environnement (ligne * largeur + colonne))).nutriments =
      maj_nutriments (environnement (ligne * largeur + colonne)).nutriments
        (F.nutriments_max generation) := rfl
  rw [hn]
  refine ⟨fun h => maj_nutriments_sous_plafond _ _ hu hc h,
    fun h => maj_nutriments_au_plafond _ _ h,
    fun h => (maj_nutriments_sur_plafond _ _ hu hc0 h).2, ?_⟩
  rcases lt_trichotomy ((environnement (ligne * largeur + colonne)).nutriments : Int)
    (F.nutriments_max generation) with h | h | h
  · left
    rw [maj_nutriments_sous_plafond _ _ hu hc h]
    exact min_le_right _ _
  · right
    rw [maj_nutriments_au_plafond _ _ h]
  · right
    have := (maj_nutriments_sur_plafond _ _ hu hc0 h).2
    omega

theorem mettre_a_jour_environnement_nutriments_witness :
    (1 : Nat) < 4 ∧ (1 : Nat) < 4 ∧
    (environnement_pauvre (1 * 4 + 1)).nutriments < 256 ∧
    0 ≤ flottants_exemple.nutriments_max 0 ∧ flottants_exemple.nutriments_max 0 ≤ 100 ∧
    ((environnement_pauvre (1 * 4 + 1)).nutriments : Int) < flottants_exemple.nutriments_max 0 ∧
    (((mettre_a_jour_environnement flottants_exemple 4 4 0 grille_bloc environnement_pauvre
        (1 * 4 + 1)).nutriments : Nat) : Int) =
        min (((environnement_pauvre (1 * 4 + 1)).nutriments : Int) + 3)
          (flottants_exemple.nutriments_max 0) :=
  ⟨by decide, by decide, by decide, by decide, by decide, by decide,
    (mettre_a_jour_environnement_nutriments flottants_exemple 4 4 0 grille_bloc
      environnement_pauvre 1 1 (by decide) (by decide) (by decide) (by decide)
      (by decide)).1 (by decide)⟩

theorem maj_toxicite_valide (t d : Nat) (h5 : t % 5 = 0) (ht : t ≤ 60) (hd : d ≤ 9) :
    maj_toxicite t d % 5 = 0 ∧ maj_toxicite t d ≤ 60 ∧
    maj_toxicite t d = if d > 6 then (d - 6) * 20 else t - 5 := by
  unfold maj_toxicite
  by_cases h6 : d > 6
  · rw [if_pos h6, if_pos h6]
    have hd3 : d = 7 ∨ d = 8 ∨ d = 9 := by omega
    rcases hd3 with h | h | h <;> rw [h] <;> decide
  · rw [if_neg h6, if_neg h6]
    by_cases h0 : t > 0
    · rw [if_pos h0]
      have h5t : 5 ≤ t := by omega
      have hm : (t + 251) % 256 = t - 5 := by omega
      rw [hm]
      omega
    · rw [if_neg h0]
      omega

theorem comptabiliser_ressources_debit (n u s : Nat) (hu : u < 256) :
    (comptabiliser_ressources n u s).1 = u ∨
      (1 ≤ u ∧ (comptabiliser_ressources n u s).1 + 1 = u) := by
  unfold comptabiliser_ressources
  simp only [CONSOMMATION_NUTRIMENTS]
  by_cases h1 : n ≥ SEUIL_COMPETITION
  · rw [if_pos h1]
    by_cases h2 : u / (1 + n / 2) ≥ 1
    · simp only [h2, if_true]
      have hle : u / (1 + n / 2) ≤ u := Nat.div_le_self _ _
      right
      omega
    · simp only [h2, if_false]
      left
      trivial
  · rw [if_neg h1]
    by_cases h2 : u ≥ 1
    · rw [if_pos h2]
      right
      simp only
      omega
    · rw [if_neg h2]
      left
      rfl

theorem appliquer_regle_environnement (masque_survie : Nat) (actuelle s : CelluleEvolutive)
    (env : EnvironnementLocal) (age sante g pop n : Nat) :
    (appliquer_regle masque_survie actuelle s env age sante g pop n).environnement = env := by
  unfold appliquer_regle
  exact ite_prop (fun r : Issue => r.environnement = env) rfl rfl

theorem evaluer_instabilite_environnement (masque_survie generation : Nat)
    (actuelle s : CelluleEvolutive) (env : EnvironnementLocal) (age sante g pop n : Nat) :
    (evaluer_instabilite masque_survie generation actuelle s env age sante g pop
      n).environnement = env := by
  unfold evaluer_instabilite
  simp only
  exact ite_prop (fun r : Issue => r.environnement = env) rfl
    (ite_prop (fun r : Issue => r.environnement = env)
      (ite_prop (fun r : Issue => r.environnement = env) rfl
        (appliquer_regle_environnement _ _ _ _ _ _ _ _ _))
      (appliquer_regle_environnement _ _ _ _ _ _ _ _ _))

/-- The survival branch leaves the environment record as it was, or with the nutrients
left by the resource accounting. -/
theorem evaluer_survie_environnement (F : Flottants) (masque_survie generation : Nat)
    (actuelle s : CelluleEvolutive) (env : EnvironnementLocal) (g pop n : Nat) :
    (evaluer_survie F masque_survie generation actuelle s env g pop n).environnement = env ∨
    (evaluer_survie F masque_survie generation actuelle s env g pop n).environnement =
      { env with nutriments := (comptabiliser_ressources n env.nutriments actuelle.sante).1 } := by
  unfold evaluer_survie
  simp only
  exact ite_prop
    (fun r : Issue => r.environnement = env ∨ r.environnement =
      { env with nutriments := (comptabiliser_ressources n env.nutriments actuelle.sante).1 })
    (Or.inl rfl)
    (ite_prop
      (fun r : Issue => r.environnement = env ∨ r.environnement =
        { env with nutriments := (comptabiliser_ressources n env.nutriments actuelle.sante).1 })
      (Or.inr rfl)
      (ite_prop
        (fun r : Issue => r.environnement = env ∨ r.environnement =
          { env with nutriments :=
            (comptabiliser_ressources n env.nutriments actuelle.sante).1 })
        (Or.inr rfl)
        (ite_prop
          (fun r : Issue => r.environnement = env ∨ r.environnement =
            { env with nutriments :=
              (comptabiliser_ressources n env.nutriments actuelle.sante).1 })
          (Or.inr rfl)
          (Or.inr (evaluer_instabilite_environnement _ _ _ _ _ _ _ _ _ _)))))

theorem environnement_debite_meme (env : EnvironnementLocal) (r : Issue)
    (h : r.environnement = env) : environnement_debite env r := by
  unfold environnement_debite
  rw [h]
  exact ⟨rfl, Nat.le_refl _, Nat.le_add_right _ _⟩

/-- The loop body of the cell pass changes at most the nutrients of the environment
record, and lowers them by 0, 1 or 2 without wrapping. -/
theorem evaluer_cellule_debit (F : Flottants) (largeur hauteur masque_naissance
    masque_survie generation : Nat) (actuelles : Grille) (ligne colonne : Nat)
    (s : CelluleEvolutive) (env : EnvironnementLocal) (g pop : Nat)
    (hu : env.nutriments < 256) :
    environnement_debite env
      (evaluer_cellule F largeur hauteur masque_naissance masque_survie generation actuelles
        ligne colonne s env g pop) := by
  by_cases hv : (actuelles (ligne * largeur + colonne)).vivante ≠ 0
  · rw [evaluer_cellule_de_vivante _ _ _ _ _ _ _ _ _ _ _ _ _ hv]
    rcases evaluer_survie_environnement F masque_survie generation
      (actuelles (ligne * largeur + colonne)) s env g pop
      (collecter_voisins actuelles largeur hauteur ligne colonne).1 with h | h
    · exact environnement_debite_meme _ _ h
    · unfold environnement_debite
      rw [h]
      refine ⟨rfl, ?_, ?_⟩
      · rcases comptabiliser_ressources_debit
          (collecter_voisins actuelles largeur hauteur ligne colonne).1 env.nutriments
          (actuelles (ligne * largeur + colonne)).sante hu with h1 | h1
        · exact Nat.le_of_eq h1
        · simp only
          omega
      · rcases comptabiliser_ressources_debit
          (collecter_voisins actuelles largeur hauteur ligne colonne).1 env.nutriments
          (actuelles (ligne * largeur + colonne)).sante hu with h1 | h1
        · simp only
          omega
        · simp only
          omega
  · have hm : (actuelles (ligne * largeur + colonne)).vivante = 0 := by
      by_contra h0
      exact hv h0
    rw [evaluer_cellule_de_morte _ _ _ _ _ _ _ _ _ _ _ _ _ hm]
    by_cases hn : (evaluer_naissance F largeur hauteur masque_naissance generation ligne colonne
        (collecter_voisins actuelles largeur hauteur ligne colonne).2 s env g pop
        (collecter_voisins actuelles largeur hauteur ligne colonne).1).cellule.vivante = 0
    · exact environnement_debite_meme _ _
        (evaluer_naissance_morte _ _ _ _ _ _ _ _ _ _ _ _ _ hn).1
    · obtain ⟨_, h2, _, _, _, _, _, he, _⟩ :=
        evaluer_naissance_vivante _ _ _ _ _ _ _ _ _ _ _ _ _ hn
      unfold environnement_debite
      rw [he]
      refine ⟨rfl, ?_, ?_⟩
      · simp only
        omega
      · simp only
        omega

/-- C32: at a position of the grid whose nutrients are an 8-bit value, with a
non-negative seasonal ceiling: the environment update debits 1 only from a value of at
least 1; the resource accounting of a live cell leaves the nutrients unchanged or
debits 1 from a value of at least 1, with or without competition; the birth branch
leaves them unchanged or debits 2 from a value of at least 2; and after the cell pass
the nutrients of the position are at most their value after the environment update, and
at most 2 below it. -/
theorem nutriments_jamais_negatifs (F : Flottants) (a : AutomateCellulaire)
    (actuelles suivantes : Grille) (ligne colonne : Nat) (hl : ligne < a.hauteur_grille)
    (hc : colonne < a.largeur_grille)
    (hu : (a.grille_environnement (ligne * a.largeur_grille + colonne)).nutriments < 256)
    (hc0 : 0 ≤ F.nutriments_max a.generation_actuelle) :
    (((a.grille_environnement (ligne * a.largeur_grille + colonne)).nutriments : Int) >
        F.nutriments_max a.generation_actuelle →
      1 ≤ (a.grille_environnement (ligne * a.largeur_grille + colonne)).nutriments ∧
      (mettre_a_jour_environnement F a.largeur_grille a.hauteur_grille a.generation_actuelle
        actuelles a.grille_environnement (ligne * a.largeur_grille + colonne)).nutriments + 1 =
        (a.grille_environnement (ligne * a.largeur_grille + colonne)).nutriments) ∧
    (∀ n u s : Nat, u < 256 →
      (comptabiliser_ressources n u s).1 = u ∨
        (1 ≤ u ∧ (comptabiliser_ressources n u s).1 + 1 = u)) ∧
    (∀ (parents : List CelluleEvolutive) (s : CelluleEvolutive) (env : EnvironnementLocal)
      (g pop n : Nat), env.nutriments < 256 →
      (evaluer_naissance F a.largeur_grille a.hauteur_grille a.masque_conditions_naissance
        a.generation_actuelle ligne colonne parents s env g pop n).environnement.nutriments =
        env.nutriments ∨
      (2 ≤ env.nutriments ∧
        (evaluer_naissance F a.largeur_grille a.hauteur_grille a.masque_conditions_naissance
          a.generation_actuelle ligne colonne parents s env g pop
          n).environnement.nutriments + 2 = env.nutriments)) ∧
    ((etat_apres_passe F a actuelles suivantes).environnement
        (ligne * a.largeur_grille + colonne)).nutriments ≤
      (mettre_a_jour_environnement F a.largeur_grille a.hauteur_grille a.generation_actuelle
        actuelles a.grille_environnement (ligne * a.largeur_grille + colonne)).nutriments ∧
    (mettre_a_jour_environnement F a.largeur_grille a.hauteur_grille a.generation_actuelle
        actuelles a.grille_environnement (ligne * a.largeur_grille + colonne)).nutriments ≤
      ((etat_apres_passe F a actuelles suivantes).environnement
        (ligne * a.largeur_grille + colonne)).nutriments + 2 := by
  have hnut : (mettre_a_jour_environnement F a.largeur_grille a.hauteur_grille
      a.generation_actuelle actuelles a.grille_environnement
      (ligne * a.largeur_grille + colonne)).nutriments < 256 := by
    rw [mettre_a_jour_environnement_position _ _ _ _ _ _ _ _ hl hc]
    exact maj_nutriments_lt _ _ hu
  obtain ⟨g, pop, _, h2⟩ := etat_apres_passe_position F a actuelles suivantes ligne colonne
    hl hc
  have hd := evaluer_cellule_debit F a.largeur_grille a.hauteur_grille
    a.masque_conditions_naissance a.masque_conditions_survie a.generation_actuelle actuelles
    ligne colonne (suivantes (ligne * a.largeur_grille + colonne))
    (mettre_a_jour_environnement F a.largeur_grille a.hauteur_grille a.generation_actuelle
      actuelles a.grille_environnement (ligne * a.largeur_grille + colonne)) g pop hnut
  unfold environnement_debite at hd
  rw [← h2] at hd
  refine ⟨fun h => ?_, fun n u s hu2 => comptabiliser_ressources_debit n u s hu2,
    fun parents s env g pop n henv => ?_, hd.2.1, hd.2.2⟩
  · rw [mettre_a_jour_environnement_position _ _ _ _ _ _ _ _ hl hc]
    exact maj_nutriments_sur_plafond _ _ hu hc0 h
  · by_cases hn : (evaluer_naissance F a.largeur_grille a.hauteur_grille
        a.masque_conditions_naissance a.generation_actuelle ligne colonne parents s env g pop
        n).cellule.vivante = 0
    · left
      rw [(evaluer_naissance_morte _ _ _ _ _ _ _ _ _ _ _ _ _ hn).1]
    · right
      obtain ⟨_, h2, _, _, _, _, _, he, _⟩ :=
        evaluer_naissance_vivante _ _ _ _ _ _ _ _ _ _ _ _ _ hn
      rw [he]
      refine ⟨h2, ?_⟩
      simp only
      omega

theorem nutriments_jamais_negatifs_witness :
    (3 : Nat) < automate_deux_parents.hauteur_grille ∧
    (3 : Nat) < automate_deux_parents.largeur_grille ∧
    (automate_deux_parents.grille_environnement
      (3 * automate_deux_parents.largeur_grille + 3)).nutriments < 256 ∧
    0 ≤ flottants_exemple.nutriments_max automate_deux_parents.generation_actuelle ∧
    ((etat_apres_passe flottants_exemple automate_deux_parents grille_deux_parents
        grille_vide).environnement
        (3 * automate_deux_parents.largeur_grille + 3)).nutriments ≤
      (mettre_a_jour_environnement flottants_exemple automate_deux_parents.largeur_grille
        automate_deux_parents.hauteur_grille automate_deux_parents.generation_actuelle
        grille_deux_parents automate_deux_parents.grille_environnement
        (3 * automate_deux_parents.largeur_grille + 3)).nutriments :=
  ⟨by decide, by decide, by decide!, by decide,
    (nutriments_jamais_negatifs flottants_exemple automate_deux_parents grille_deux_parents
      grille_vide 3 3 (by decide) (by decide) (by decide!) (by decide)).2.2.2.1⟩

/-! ## Rule evaluation, age thresholds and shift counts (C36, C38, C39) -/

theorem boucle_trois {σ : Type} (f : Nat → σ → σ) (s : σ) :
    boucle 3 f s = f 2 (f 1 (f 0 s)) := rfl

/-- A 3x3 scan whose body adds at most 1 to a counter, and nothing at the centre, adds at
most 8. -/
theorem balayage_au_plus_huit {σ : Type} (f : Nat → Nat → Nat × σ → Nat × σ)
    (hf : ∀ dl dc st, (f dl dc st).1 ≤ st.1 + 1)
    (hc : ∀ st, (f 1 1 st).1 = st.1) (s : Nat × σ) :
    (boucle 3 (fun dl st => boucle 3 (fun dc st => f dl dc st) st) s).1 ≤ s.1 + 8 := by
  simp only [boucle_trois]
  have h00 := hf 0 0 s
  have h01 := hf 0 1 (f 0 0 s)
  have h02 := hf 0 2 (f 0 1 (f 0 0 s))
  have h10 := hf 1 0 (f 0 2 (f 0 1 (f 0 0 s)))
  have h11 := hc (f 1 0 (f 0 2 (f 0 1 (f 0 0 s))))
  have h12 := hf 1 2 (f 1 1 (f 1 0 (f 0 2 (f 0 1 (f 0 0 s)))))
  have h20 := hf 2 0 (f 1 2 (f 1 1 (f 1 0 (f 0 2 (f 0 1 (f 0 0 s))))))
  have h21 := hf 2 1 (f 2 0 (f 1 2 (f 1 1 (f 1 0 (f 0 2 (f 0 1 (f 0 0 s)))))))
  have h22 := hf 2 2 (f 2 1 (f 2 0 (f 1 2 (f 1 1 (f 1 0 (f 0 2 (f 0 1 (f 0 0 s))))))))
  omega

/-- The neighbour scan counts at most 8 live neighbours. -/
theorem collecter_voisins_le (actuelles : Grille) (largeur hauteur ligne colonne : Nat) :
    (collecter_voisins actuelles largeur hauteur ligne colonne).1 ≤ 8 := by
  unfold collecter_voisins
  have h := balayage_au_plus_huit
    (fun dl dc (st : Nat × List CelluleEvolutive) =>
      if dl = 1 ∧ dc = 1 then st
      else
        if (actuelles (position_voisin largeur hauteur ligne colonne dl dc)).vivante ≠ 0 then
          (st.1 + 1,
            if fertilite_depasse_seuil
                (actuelles (position_voisin largeur hauteur ligne colonne dl dc)).age ∧
                st.2.length < 8 then
              st.2 ++ [actuelles (position_voisin largeur hauteur ligne colonne dl dc)]
            else st.2)
        else st)
    (fun dl dc st => by
      beta_reduce
      split
      · omega
      · split
        · exact Nat.le_refl _
        · omega)
    (fun st => by simp)
    (0, [])
  exact h

theorem masque_survie_adapte_bit (m g n : Nat) (hn : n ≤ 8) (h0 : 1 ≤ n ∨ g ≥ 64) :
    (masque_survie_adapte m g n).testBit n = m.testBit n := by
  unfold masque_survie_adapte
  by_cases h1 : g > 128
  · rw [if_pos h1, show (65536 : Nat) = 2 ^ 16 by norm_num, Nat.testBit_mod_two_pow,
      Nat.testBit_or, Nat.one_shiftLeft, Nat.testBit_two_pow_of_ne (by omega)]
    rw [Bool.or_false, decide_eq_true (by omega : n < 16), Bool.true_and]
  · rw [if_neg h1]
    by_cases h2 : g < 64
    · rw [if_pos h2]
      have h1n : 1 ≤ n := by omega
      rw [show (65536 : Nat) = 2 ^ 16 by norm_num, Nat.testBit_mod_two_pow, Nat.testBit_and]
      have hc : (4294967295 - 1 <<< ((n + 31) % 32)).testBit n = true := by
        have hn8 : n = 1 ∨ n = 2 ∨ n = 3 ∨ n = 4 ∨ n = 5 ∨ n = 6 ∨ n = 7 ∨ n = 8 := by omega
        rcases hn8 with h | h | h | h | h | h | h | h <;> rw [h] <;> decide
      rw [hc, Bool.and_true, decide_eq_true (by omega : n < 16), Bool.true_and]
    · rw [if_neg h2]

theorem masque_survie_adapte_test (m g n : Nat) (hn : n ≤ 8) (h0 : 1 ≤ n ∨ g ≥ 64) :
    masque_survie_adapte m g n &&& (1 <<< n) = m &&& (1 <<< n) := by
  rw [Nat.one_shiftLeft, Nat.and_two_pow, Nat.and_two_pow, masque_survie_adapte_bit m g n hn h0]

/-- C36: for a live cell that reaches the rule evaluation with `n` live neighbours, where
`1 <= n <= 8` or `n = 0` with a survival genotype of at least 64, the bit `n` of the
adapted mask is the bit `n` of the survival mask of the automaton, whatever the survival
genotype, and the cell is written alive exactly when that bit is set; the neighbour count
of the cell pass is at most 8. -/
theorem regle_independante_du_genotype (masque_survie : Nat) (actuelle s : CelluleEvolutive)
    (env : EnvironnementLocal) (age sante g pop n : Nat) (hn : n ≤ 8)
    (h0 : 1 ≤ n ∨ actuelle.genotype_survie ≥ 64) :
    masque_survie_adapte masque_survie actuelle.genotype_survie n &&& (1 <<< n) =
      masque_survie &&& (1 <<< n) ∧
    ((appliquer_regle masque_survie actuelle s env age sante g pop n).cellule.vivante ≠ 0 ↔
      masque_survie &&& (1 <<< n) ≠ 0) ∧
    (∀ (actuelles : Grille) (largeur hauteur ligne colonne : Nat),
      (collecter_voisins actuelles largeur hauteur ligne colonne).1 ≤ 8) := by
  have ht := masque_survie_adapte_test masque_survie actuelle.genotype_survie n hn h0
  refine ⟨ht, ?_, collecter_voisins_le⟩
  unfold appliquer_regle
  rw [ht]
  by_cases hb : masque_survie &&& (1 <<< n) ≠ 0
  · rw [if_pos hb]
    exact ⟨fun _ => hb, fun _ => Nat.succ_ne_zero 0⟩
  · rw [if_neg hb]
    exact ⟨fun h => absurd rfl h, fun h => absurd h hb⟩

theorem regle_independante_du_genotype_witness :
    (3 : Nat) ≤ 8 ∧ (1 ≤ 3 ∨ (cellule_genotype 20).genotype_survie ≥ 64) ∧
    masque_survie_adapte 0x000C (cellule_genotype 20).genotype_survie 3 &&& (1 <<< 3) =
      0x000C &&& (1 <<< 3) ∧
    ((appliquer_regle 0x000C (cellule_genotype 20) cellule_defaut environnement_defaut 11 51
        0 0 3).cellule.vivante ≠ 0 ↔
      0x000C &&& (1 <<< 3) ≠ 0) ∧
    (∀ (actuelles : Grille) (largeur hauteur ligne colonne : Nat),
      (collecter_voisins actuelles largeur hauteur ligne colonne).1 ≤ 8) :=
  ⟨by decide, by decide,
    regle_independante_du_genotype 0x000C (cellule_genotype 20) cellule_defaut
      environnement_defaut 11 51 0 0 3 (by decide) (by decide)⟩

theorem vieillir_lt (age : Nat) : vieillir age < 256 := by
  unfold vieillir
  exact Nat.mod_lt _ (by decide)

theorem evaluer_instabilite_seuil (masque_survie generation : Nat)
    (actuelle s : CelluleEvolutive) (env : EnvironnementLocal)
    (age sante g pop n : Nat) :
    evaluer_instabilite masque_survie generation actuelle s env age sante g pop n =
      if lcg g % 1000 < instabilite_totale age generation ∧ (lcg g / 256) % 100 < 10 then
        ⟨laisser_morte s age sante, env, lcg g, pop⟩
      else if n ≥ SEUIL_DENSITE_FATALE then
        (if lcg (lcg g) % 100 < CHANCE_MORT_DENSITE then
          ⟨laisser_morte s age sante, env, lcg (lcg g), pop⟩
        else appliquer_regle masque_survie actuelle s env age sante (lcg (lcg g)) pop n)
      else appliquer_regle masque_survie actuelle s env age sante (lcg g) pop n := rfl

/-- C38: the age written to the next record is an 8-bit value, below
`SEUIL_INSTABILITE_AGE = 500` and `AGE_MAXIMUM = 1200`: the test of death by old age is
false for every cell; for that age the instability threshold `instabilite_totale` is
`generation / 10000` (compared with a draw modulo 1000), and it is 0 for every generation
below 10000, in which case a cell with at most 8 live neighbours passes from the
instability check to the rule evaluation. -/
theorem age_sous_les_seuils (masque_survie generation : Nat) (actuelle s : CelluleEvolutive)
    (env : EnvironnementLocal) (sante g pop n : Nat) (hg : generation < 4294967296) :
    vieillir actuelle.age ≤ 255 ∧ 255 < SEUIL_INSTABILITE_AGE ∧
    SEUIL_INSTABILITE_AGE < AGE_MAXIMUM ∧
    ¬ (vieillir actuelle.age ≥ AGE_MAXIMUM) ∧
    ¬ (vieillir actuelle.age > SEUIL_INSTABILITE_AGE) ∧
    instabilite_totale (vieillir actuelle.age) generation = generation / 10000 ∧
    (generation < 10000 → instabilite_totale (vieillir actuelle.age) generation = 0) ∧
    (generation < 10000 → n ≤ 8 →
      evaluer_instabilite masque_survie generation actuelle s env (vieillir actuelle.age)
          sante g pop n =
        appliquer_regle masque_survie actuelle s env (vieillir actuelle.age) sante (lcg g)
          pop n) := by
  have hv := vieillir_lt actuelle.age
  have hi : instabilite_totale (vieillir actuelle.age) generation = generation / 10000 := by
    unfold instabilite_totale
    simp only [SEUIL_INSTABILITE_AGE, INSTABILITE_GENERATION]
    rw [if_neg (by omega), Nat.mul_one, Nat.mod_eq_of_lt hg, Nat.zero_add]
    exact Nat.mod_eq_of_lt (lt_of_le_of_lt (Nat.div_le_self _ _) hg)
  have h0 : generation < 10000 → instabilite_totale (vieillir actuelle.age) generation = 0 := by
    intro h
    rw [hi]
    exact Nat.div_eq_of_lt h
  refine ⟨by omega, by decide, by decide, ?_, ?_, hi, h0, fun h hn => ?_⟩
  · simp only [AGE_MAXIMUM]
    omega
  · simp only [SEUIL_INSTABILITE_AGE]
    omega
  · rw [evaluer_instabilite_seuil, h0 h, if_neg (by omega), if_neg]
    simp only [SEUIL_DENSITE_FATALE]
    omega

theorem age_sous_les_seuils_witness :
    (9999 : Nat) < 4294967296 ∧
    instabilite_totale (vieillir (cellule_vivante 255).age) 9999 = 9999 / 10000 ∧
    ¬ (vieillir (cellule_vivante 255).age ≥ AGE_MAXIMUM) :=
  ⟨by decide,
    (age_sous_les_seuils 0x000C 9999 (cellule_vivante 255) cellule_defaut environnement_defaut
      50 0 0 3 (by decide)).2.2.2.2.2.1,
    (age_sous_les_seuils 0x000C 9999 (cellule_vivante 255) cellule_defaut environnement_defaut
      50 0 0 3 (by decide)).2.2.2.1⟩

/-- C39 (evaluation at a failing input): on the 4x4 automaton with rule `B3/S23` at
generation 0 whose only live cell, at (1,1), has age 6 and survival genotype 50, the loop
body for that cell (generator 0, as in the step) reaches the rule evaluation with 0 live
neighbours: the low-genotype branch is taken and its shift count
`nombre_voisins_vivants - 1` is -1. -/
theorem decalage_negatif_cellule_isolee :
    (collecter_voisins grille_isolee_faible 4 4 1 1).1 = 0 ∧
    (grille_isolee_faible 5).vivante = 1 ∧
    (grille_isolee_faible 5).genotype_survie < 64 ∧
    evaluer_cellule flottants_exemple 4 4 0x0008 0x000C 0 grille_isolee_faible 1 1
        cellule_defaut
        (mettre_a_jour_environnement flottants_exemple 4 4 0 grille_isolee_faible
          (fun _ => environnement_defaut) 5) 0 0 =
      appliquer_regle 0x000C (grille_isolee_faible 5) cellule_defaut
        { mettre_a_jour_environnement flottants_exemple 4 4 0 grille_isolee_faible
            (fun _ => environnement_defaut) 5 with nutriments := 99 }
        7 51 (lcg (lcg 0)) 0 (collecter_voisins grille_isolee_faible 4 4 1 1).1 ∧
    decalage_genotype_faible (collecter_voisins grille_isolee_faible 4 4 1 1).1 = -1 ∧
    (etat_apres_passe flottants_exemple (automate_exemple grille_isolee_faible 0)
      grille_isolee_faible grille_vide).generateur = lcg (lcg 0) := by
  refine ⟨by decide!, by decide!, by decide!, by decide!, by decide!, by decide!⟩

/-! ## The predation gradient (C35) -/

/-- C35 (evaluation at a failing input): on a grid of width 3 the edge distance of the
column 1 is `(3 - 1) / (3 / 2) = 2`, above 1 (the divisor `3 / 2` is the integer 1); at the
cell (1,1) of a 3x3 grid `distance_centre` is -1 and the spatial factor is
`0.3 - 0.7 = -0.4`, below 0.3, so that with `intensite_base = 0.5` (generation 0) the value
`pression_finale` is -3, negative, before its conversion to the 8-bit pressure; the
corner (0,0) has factor 1. -/
theorem distance_bord_depasse_un :
    distance_bord 1 3 = 2 ∧
    distance_centre_predation 1 1 3 3 = -1 ∧
    facteur_spatial_predation 1 1 3 3 = -2 / 5 ∧
    pression_finale (1 / 2) 1 1 3 3 = -3 ∧
    facteur_spatial_predation 0 0 3 3 = 1 := by
  have h13 : distance_bord 1 3 = 2 := by
    unfold distance_bord
    norm_num
  have h03 : distance_bord 0 3 = 0 := by
    unfold distance_bord
    norm_num
  refine ⟨h13, ?_, ?_, ?_, ?_⟩
  · unfold distance_centre_predation
    rw [h13]
    norm_num
  · unfold facteur_spatial_predation distance_centre_predation
    rw [h13]
    norm_num
  · unfold pression_finale facteur_spatial_predation distance_centre_predation
    rw [h13]
    norm_num [PREDATION_PRESSURE]
  · unfold facteur_spatial_predation distance_centre_predation
    rw [h03]
    norm_num

/-! ## What the initialisers leave unchanged (C40) -/

theorem initialiser_grille_uniforme_parametres (a : AutomateCellulaire) (graine : Nat) :
    memes_parametres a (initialiser_grille_uniforme a graine) := by
  unfold initialiser_grille_uniforme memes_parametres
  cases h : a.grille_cellules_actuelles with
  | none => exact ⟨rfl, rfl, rfl, rfl, rfl, rfl, rfl⟩
  | some g => exact ⟨rfl, rfl, rfl, rfl, rfl, rfl, rfl⟩

theorem initialiser_grille_centre_parametres (F : Flottants) (a : AutomateCellulaire)
    (graine : Nat) : memes_parametres a (initialiser_grille_centre F a graine) := by
  unfold initialiser_grille_centre memes_parametres
  cases h : a.grille_cellules_actuelles with
  | none => exact ⟨rfl, rfl, rfl, rfl, rfl, rfl, rfl⟩
  | some g => exact ⟨rfl, rfl, rfl, rfl, rfl, rfl, rfl⟩

theorem initialiser_grille_clusters_parametres (a : AutomateCellulaire) (graine : Nat) :
    memes_parametres a (initialiser_grille_clusters a graine) := by
  unfold initialiser_grille_clusters memes_parametres
  cases h : a.grille_cellules_actuelles with
  | none => exact ⟨rfl, rfl, rfl, rfl, rfl, rfl, rfl⟩
  | some g => exact ⟨rfl, rfl, rfl, rfl, rfl, rfl, rfl⟩

theorem initialiser_grille_selon_type_cas (F : Flottants) (a : AutomateCellulaire)
    (type graine : Nat) :
    initialiser_grille_selon_type F a type graine = initialiser_grille_uniforme a graine ∨
    initialiser_grille_selon_type F a type graine = initialiser_grille_centre F a graine ∨
    initialiser_grille_selon_type F a type graine = initialiser_grille_clusters a graine := by
  unfold initialiser_grille_selon_type
  split
  · exact Or.inl rfl
  · exact Or.inr (Or.inl rfl)
  · exact Or.inr (Or.inr rfl)
  · exact Or.inr (Or.inr rfl)

/-- The result of an initialiser is that of one of the three specialised initialisers. -/
theorem issu_d_un_initialiseur_cas (F : Flottants) (a r : AutomateCellulaire)
    (h : issu_d_un_initialiseur F a r) :
    ∃ graine, r = initialiser_grille_uniforme a graine ∨
      r = initialiser_grille_centre F a graine ∨ r = initialiser_grille_clusters a graine := by
  obtain ⟨graine, h | h | h | h | ⟨type, h⟩⟩ := h
  · exact ⟨graine, Or.inl h⟩
  · exact ⟨graine, Or.inr (Or.inl h)⟩
  · exact ⟨graine, Or.inr (Or.inr h)⟩
  · exact ⟨graine, Or.inr (Or.inr h)⟩
  · rw [h]
    exact ⟨graine, initialiser_grille_selon_type_cas F a type graine⟩

theorem issu_d_un_initialiseur_parametres (F : Flottants) (a r : AutomateCellulaire)
    (h : issu_d_un_initialiseur F a r) : memes_parametres a r := by
  obtain ⟨graine, h | h | h⟩ := issu_d_un_initialiseur_cas F a r h
  · rw [h]
    exact initialiser_grille_uniforme_parametres a graine
  · rw [h]
    exact initialiser_grille_centre_parametres F a graine
  · rw [h]
    exact initialiser_grille_clusters_parametres a graine

theorem issu_d_un_initialiseur_reinitialise (F : Flottants) (a r : AutomateCellulaire)
    (ga sa : Grille) (ha : a.grille_cellules_actuelles = some ga)
    (hsa : a.grille_cellules_suivantes = some sa) (h : issu_d_un_initialiseur F a r) :
    reinitialise (a.largeur_grille * a.hauteur_grille) r := by
  obtain ⟨graine, h | h | h⟩ := issu_d_un_initialiseur_cas F a r h
  · rw [h]
    exact initialiser_grille_uniforme_reinitialise a ga sa ha hsa graine
  · rw [h]
    exact initialiser_grille_centre_reinitialise F a ga sa ha hsa graine
  · rw [h]
    exact initialiser_grille_clusters_reinitialise a ga sa ha hsa graine

/-- After a step on an automaton with both buffers present, the population counter is the
number of live cells of the current buffer. -/
theorem population_apres_etape (F : Flottants) (a : AutomateCellulaire)
    (actuelles suivantes : Grille) (ha : a.grille_cellules_actuelles = some actuelles)
    (hs : a.grille_cellules_suivantes = some suivantes)
    (hn : a.largeur_grille * a.hauteur_grille < 4294967296) :
    ∃ g, (calculer_generation_suivante F a).grille_cellules_actuelles = some g ∧
      (calculer_generation_suivante F a).population_totale =
        compter_vivantes g (a.largeur_grille * a.hauteur_grille) := by
  refine ⟨grille_apres_mouvement F a actuelles suivantes, ?_, ?_⟩
  · rw [calculer_generation_suivante_presents F a actuelles suivantes ha hs]
  · rw [calculer_generation_suivante_presents F a actuelles suivantes ha hs,
      Nat.mul_comm a.largeur_grille, grille_apres_mouvement_compter]
    exact passe_cellules_population F _ _ _ _ _ actuelles _ rfl
      (by rw [Nat.mul_comm]; exact hn)

/-- C40: the result of each initialiser (uniform, centre-weighted, clustered, by type, or
the compatibility entry point) has the generation counter, the population counter, both
masks, the rule text and the dimensions of the automaton it was called on; when both
cell buffers are present and the cell count fits 32 bits, the population counter equals
the number of live cells of the current buffer after the next step. -/
theorem initialiseurs_laissent_les_compteurs (F : Flottants) (a r : AutomateCellulaire)
    (h : issu_d_un_initialiseur F a r) :
    r.generation_actuelle = a.generation_actuelle ∧
    r.population_totale = a.population_totale ∧
    r.masque_conditions_naissance = a.masque_conditions_naissance ∧
    r.masque_conditions_survie = a.masque_conditions_survie ∧
    r.regles_format_texte = a.regles_format_texte ∧
    r.largeur_grille = a.largeur_grille ∧
    r.hauteur_grille = a.hauteur_grille ∧
    (∀ ga sa, a.grille_cellules_actuelles = some ga → a.grille_cellules_suivantes = some sa →
      a.largeur_grille * a.hauteur_grille < 4294967296 →
      ∃ g, (calculer_generation_suivante F r).grille_cellules_actuelles = some g ∧
        (calculer_generation_suivante F r).population_totale =
          compter_vivantes g (a.largeur_grille * a.hauteur_grille)) := by
  have hp := issu_d_un_initialiseur_parametres F a r h
  unfold memes_parametres at hp
  obtain ⟨h1, h2, h3, h4, h5, h6, h7⟩ := hp
  refine ⟨h1, h2, h3, h4, h5, h6, h7, fun ga sa ha hsa hn => ?_⟩
  obtain ⟨_, ⟨gs, hgs, _⟩, ⟨gc, hgc, _⟩⟩ :=
    issu_d_un_initialiseur_reinitialise F a r ga sa ha hsa h
  have := population_apres_etape F r gc gs hgc hgs (by rw [h6, h7]; exact hn)
  rw [h6, h7] at this
  exact this

theorem initialiseurs_laissent_les_compteurs_witness :
    issu_d_un_initialiseur flottants_exemple (automate_exemple_bis grille_solitaire 3)
      (initialiser_grille_aleatoire (automate_exemple_bis grille_solitaire 3) 7) ∧
    (automate_exemple_bis grille_solitaire 3).population_totale = 99 ∧
    (automate_exemple_bis grille_solitaire 3).generation_actuelle = 3 ∧
    (initialiser_grille_aleatoire (automate_exemple_bis grille_solitaire 3)
      7).generation_actuelle = (automate_exemple_bis grille_solitaire 3).generation_actuelle ∧
    (initialiser_grille_aleatoire (automate_exemple_bis grille_solitaire 3)
      7).population_totale = (automate_exemple_bis grille_solitaire 3).population_totale :=
  ⟨⟨7, Or.inr (Or.inr (Or.inr (Or.inl rfl)))⟩, rfl, rfl,
    (initialiseurs_laissent_les_compteurs flottants_exemple
      (automate_exemple_bis grille_solitaire 3)
      (initialiser_grille_aleatoire (automate_exemple_bis grille_solitaire 3) 7)
      ⟨7, Or.inr (Or.inr (Or.inr (Or.inl rfl)))⟩).1,
    (initialiseurs_laissent_les_compteurs flottants_exemple
      (automate_exemple_bis grille_solitaire 3)
      (initialiser_grille_aleatoire (automate_exemple_bis grille_solitaire 3) 7)
      ⟨7, Or.inr (Or.inr (Or.inr (Or.inl rfl)))⟩).2.1⟩

/-! ## Health range (C34): one cell -/

theorem ite_prop_dep {α : Type} {c : Prop} [Decidable c] (Q : α → Prop) {a b : α}
    (ha : c → Q a) (hb : ¬ c → Q b) : Q (if c then a else b) := by
  split
  · exact ha (by assumption)
  · exact hb (by assumption)

theorem sante_valide_morte (s : CelluleEvolutive) (age sante : Nat) (h : sante ≤ 100) :
    sante_valide (laisser_morte s age sante) :=
  ⟨h, fun hv => absurd rfl hv⟩

theorem comptabiliser_ressources_sante (n u s : Nat) (h : s ≤ 100) :
    (comptabiliser_ressources n u s).2 ≤ 100 := by
  unfold comptabiliser_ressources
  simp only [STRESS_COMPETITION]
  split
  · split
    · simp only
      split <;> omega
    · simp only
      split <;> omega
  · split
    · simp only
      split <;> omega
    · simp only
      split <;> omega

theorem declin_naturel_le (age sante : Nat) : declin_naturel age sante ≤ sante := by
  unfold declin_naturel
  split
  · simp only
    split <;> omega
  · exact Nat.le_refl _

theorem appliquer_regle_sante (masque_survie : Nat) (actuelle s : CelluleEvolutive)
    (env : EnvironnementLocal) (age sante g pop n : Nat) (h1 : 1 ≤ sante)
    (h100 : sante ≤ 100) :
    sante_valide (appliquer_regle masque_survie actuelle s env age sante g pop n).cellule := by
  unfold appliquer_regle
  exact ite_prop (fun r : Issue => sante_valide r.cellule) ⟨h100, fun _ => h1⟩
    (sante_valide_morte _ _ _ h100)

theorem evaluer_instabilite_sante (masque_survie generation : Nat)
    (actuelle s : CelluleEvolutive) (env : EnvironnementLocal) (age sante g pop n : Nat)
    (h1 : 1 ≤ sante) (h100 : sante ≤ 100) :
    sante_valide (evaluer_instabilite masque_survie generation actuelle s env age sante g pop
      n).cellule := by
  unfold evaluer_instabilite
  simp only
  exact ite_prop (fun r : Issue => sante_valide r.cellule) (sante_valide_morte _ _ _ h100)
    (ite_prop (fun r : Issue => sante_valide r.cellule)
      (ite_prop (fun r : Issue => sante_valide r.cellule) (sante_valide_morte _ _ _ h100)
        (appliquer_regle_sante _ _ _ _ _ _ _ _ _ h1 h100))
      (appliquer_regle_sante _ _ _ _ _ _ _ _ _ h1 h100))

theorem evaluer_survie_sante (F : Flottants) (masque_survie generation : Nat)
    (actuelle s : CelluleEvolutive) (env : EnvironnementLocal) (g pop n : Nat)
    (h : actuelle.sante ≤ 100) :
    sante_valide (evaluer_survie F masque_survie generation actuelle s env g pop n).cellule := by
  have hs1 : declin_naturel (vieillir actuelle.age)
      (comptabiliser_ressources n env.nutriments actuelle.sante).2 ≤ 100 :=
    Nat.le_trans (declin_naturel_le _ _) (comptabiliser_ressources_sante _ _ _ h)
  unfold evaluer_survie
  simp only
  refine ite_prop (fun r : Issue => sante_valide r.cellule)
    (sante_valide_morte _ _ _ (Nat.zero_le _))
    (ite_prop (fun r : Issue => sante_valide r.cellule) (sante_valide_morte _ _ _ hs1)
      (ite_prop (fun r : Issue => sante_valide r.cellule) (sante_valide_morte _ _ _ hs1)
        (ite_prop_dep (fun r : Issue => sante_valide r.cellule) (fun _ => ?_) (fun h2 => ?_))))
  · refine sante_valide_morte _ _ _ ?_
    split
    · split <;> omega
    · exact hs1
  · refine evaluer_instabilite_sante _ _ _ _ _ _ _ _ _ _ (by omega) ?_
    split
    · split <;> omega
    · exact hs1

theorem faire_naitre_sante (F : Flottants)
    (largeur hauteur generation ligne colonne : Nat) (p0 : CelluleEvolutive)
    (reste : List CelluleEvolutive) (s : CelluleEvolutive) (env : EnvironnementLocal)
    (generateur population n : Nat) :
    sante_valide (faire_naitre F largeur hauteur generation ligne colonne p0 reste s env
      generateur population n).cellule := by
  by_cases hc : n ≥ 3 ∧ lcg (heriter_traits F largeur hauteur generation ligne colonne p0 reste
      s env generateur n).2 % 100 < 60
  · have hv := (faire_naitre_annulee F largeur hauteur generation ligne colonne p0 reste s env
      generateur population n hc).1
    refine ⟨?_, fun h => absurd hv h⟩
    unfold faire_naitre
    simp only [hc, and_self, if_true]
    exact Nat.zero_le _
  · obtain ⟨_, hs, _⟩ := faire_naitre_confirmee F largeur hauteur generation ligne colonne p0
      reste s env generateur population n hc
    refine ⟨?_, fun _ => ?_⟩
    · rw [hs]
      decide
    · rw [hs]
      decide

theorem evaluer_naissance_sante (F : Flottants) (largeur hauteur masque_naissance
    generation ligne colonne : Nat) (parents : List CelluleEvolutive) (s : CelluleEvolutive)
    (env : EnvironnementLocal) (g pop n : Nat) :
    sante_valide (evaluer_naissance F largeur hauteur masque_naissance generation ligne colonne
      parents s env g pop n).cellule := by
  cases parents with
  | nil => exact sante_valide_morte _ _ _ (Nat.zero_le _)
  | cons p0 reste =>
    rw [evaluer_naissance_cons]
    exact ite_prop (fun r : Issue => sante_valide r.cellule)
      (ite_prop (fun r : Issue => sante_valide r.cellule)
        (faire_naitre_sante _ _ _ _ _ _ _ _ _ _ _ _ _)
        (sante_valide_morte _ _ _ (Nat.zero_le _)))
      (sante_valide_morte _ _ _ (Nat.zero_le _))

/-- The record written by the loop body of the cell pass has a health in 0..100, at least
1 when it is alive, if the health of the current record is at most 100. -/
theorem evaluer_cellule_sante (F : Flottants) (largeur hauteur masque_naissance
    masque_survie generation : Nat) (actuelles : Grille) (ligne colonne : Nat)
    (s : CelluleEvolutive) (env : EnvironnementLocal) (g pop : Nat)
    (h : (actuelles (ligne * largeur + colonne)).sante ≤ 100) :
    sante_valide (evaluer_cellule F largeur hauteur masque_naissance masque_survie generation
      actuelles ligne colonne s env g pop).cellule := by
  unfold evaluer_cellule
  simp only
  exact ite_prop (fun r : Issue => sante_valide r.cellule)
    (evaluer_survie_sante _ _ _ _ _ _ _ _ _ h)
    (evaluer_naissance_sante _ _ _ _ _ _ _ _ _ _ _ _ _)

/-! ## Health range (C34): the passes, the step and the initialisers -/

theorem position_decompose (i largeur hauteur : Nat) (h : i < hauteur * largeur) :
    ∃ l c, l < hauteur ∧ c < largeur ∧ i = l * largeur + c := by
  have hW : 0 < largeur := by
    rcases Nat.eq_zero_or_pos largeur with h0 | h0
    · rw [h0, Nat.mul_zero] at h
      exact absurd h (Nat.not_lt_zero i)
    · exact h0
  refine ⟨i / largeur, i % largeur, ?_, Nat.mod_lt _ hW, ?_⟩
  · exact Nat.div_lt_of_lt_mul (by rw [Nat.mul_comm]; exact h)
  · rw [Nat.mul_comm]
    exact (Nat.div_add_mod i largeur).symm

theorem etat_apres_passe_sante (F : Flottants) (a : AutomateCellulaire)
    (actuelles suivantes : Grille)
    (h : ∀ i, i < a.hauteur_grille * a.largeur_grille → (actuelles i).sante ≤ 100) :
    ∀ i, i < a.hauteur_grille * a.largeur_grille →
      sante_valide ((etat_apres_passe F a actuelles suivantes).suivantes i) := by
  intro i hi
  obtain ⟨l, c, hl, hc, hlc⟩ := position_decompose i _ _ hi
  obtain ⟨g, pop, h1, _⟩ := etat_apres_passe_position F a actuelles suivantes l c hl hc
  rw [hlc, h1]
  exact evaluer_cellule_sante _ _ _ _ _ _ _ _ _ _ _ _ _ (by rw [← hlc]; exact h i hi)

theorem sante_valide_videe (c : CelluleEvolutive) : sante_valide (vider_position c) :=
  ⟨Nat.zero_le _, fun h => absurd rfl h⟩

theorem deplacer_cellule_sante (largeur hauteur n ligne colonne : Nat) (st : Grille × Nat)
    (hpos : ligne * largeur + colonne < n)
    (h : ∀ i, i < n → sante_valide (st.1 i)) :
    ∀ i, i < n → sante_valide ((deplacer_cellule largeur hauteur ligne colonne st).1 i) := by
  unfold deplacer_cellule
  simp only
  refine ite_prop (fun x : Grille × Nat => ∀ i, i < n → sante_valide (x.1 i))
    (ite_prop (fun x : Grille × Nat => ∀ i, i < n → sante_valide (x.1 i))
      (ite_prop (fun x : Grille × Nat => ∀ i, i < n → sante_valide (x.1 i)) ?_ h) h) h
  intro i hi
  by_cases h1 : i = ligne * largeur + colonne
  · simp only [h1, ecrire_meme]
    exact sante_valide_videe _
  · simp only [ecrire_autre _ _ _ _ h1]
    simp only [ecrire]
    split
    · exact h _ hpos
    · exact h i hi

theorem passe_mouvement_sante (largeur hauteur : Nat) (st : Grille × Nat)
    (h : ∀ i, i < hauteur * largeur → sante_valide (st.1 i)) :
    ∀ i, i < hauteur * largeur → sante_valide ((passe_mouvement largeur hauteur st).1 i) := by
  unfold passe_mouvement
  refine boucle_grille_inv
    (fun _ (x : Grille × Nat) => ∀ i, i < hauteur * largeur → sante_valide (x.1 i))
    largeur hauteur
    (fun ligne colonne x => deplacer_cellule largeur hauteur ligne colonne x) st h ?_
  intro l c hl hc x hP
  exact deplacer_cellule_sante largeur hauteur _ l c x (position_lt l c largeur hauteur hl hc) hP

theorem grille_apres_mouvement_sante (F : Flottants) (a : AutomateCellulaire)
    (actuelles suivantes : Grille)
    (h : ∀ i, i < a.hauteur_grille * a.largeur_grille → (actuelles i).sante ≤ 100) :
    ∀ i, i < a.hauteur_grille * a.largeur_grille →
      sante_valide (grille_apres_mouvement F a actuelles suivantes i) := by
  have hp := etat_apres_passe_sante F a actuelles suivantes h
  unfold grille_apres_mouvement
  split
  · exact passe_mouvement_sante _ _ _ hp
  · exact hp

/-- A step keeps the health invariant, and the dimensions. -/
theorem calculer_generation_suivante_sante (F : Flottants) (a : AutomateCellulaire)
    (h : sante_dans_les_bornes (a.largeur_grille * a.hauteur_grille) a) :
    sante_dans_les_bornes (a.largeur_grille * a.hauteur_grille)
      (calculer_generation_suivante F a) ∧
    (calculer_generation_suivante F a).largeur_grille = a.largeur_grille ∧
    (calculer_generation_suivante F a).hauteur_grille = a.hauteur_grille := by
  obtain ⟨ga, gs, hga, hgs, hv⟩ := h
  rw [calculer_generation_suivante_presents F a ga gs hga hgs]
  refine ⟨⟨_, _, rfl, rfl, fun i hi => ⟨?_, (hv i hi).1.1⟩⟩, rfl, rfl⟩
  exact grille_apres_mouvement_sante F a ga gs
    (fun j hj => (hv j (by rw [Nat.mul_comm]; exact hj)).1.1) i
    (by rw [Nat.mul_comm]; exact hi)

theorem semer_cellule_sante (largeur hauteur : Nat) (seuil : Nat → Nat → Nat)
    (st : Grille × Nat) (h : ∀ i, i < hauteur * largeur → sante_valide (st.1 i)) :
    ∀ i, i < hauteur * largeur →
      sante_valide ((boucle hauteur (fun ligne st => boucle largeur (fun colonne st =>
        semer_cellule largeur hauteur (seuil ligne colonne) ligne colonne st) st) st).1 i) := by
  refine boucle_grille_inv
    (fun _ (x : Grille × Nat) => ∀ i, i < hauteur * largeur → sante_valide (x.1 i))
    largeur hauteur
    (fun ligne colonne st => semer_cellule largeur hauteur (seuil ligne colonne) ligne colonne st)
    st h ?_
  intro l c _ _ x hP
  unfold semer_cellule
  simp only
  refine ite_prop (fun x : Grille × Nat => ∀ i, i < hauteur * largeur → sante_valide (x.1 i))
    ?_ hP
  intro i hi
  by_cases hik : i = l * largeur + c
  · simp only [hik, ecrire_meme]
    exact ⟨(by show (50 : Nat) ≤ 100; decide), fun _ => (by show 1 ≤ (50 : Nat); decide)⟩
  · simp only [ecrire_autre _ _ _ _ hik]
    exact hP i hi

theorem sante_valide_defaut : sante_valide cellule_defaut :=
  ⟨by decide, fun h => absurd rfl h⟩

/-- The result of an initialiser on an automaton with both buffers present satisfies the
health invariant. -/
theorem issu_d_un_initialiseur_sante (F : Flottants) (a r : AutomateCellulaire)
    (ga sa : Grille) (ha : a.grille_cellules_actuelles = some ga)
    (hsa : a.grille_cellules_suivantes = some sa) (h : issu_d_un_initialiseur F a r) :
    sante_dans_les_bornes (a.largeur_grille * a.hauteur_grille) r := by
  have hn := nettoyer_grille_propre a.largeur_grille a.hauteur_grille
    ⟨ga, a.grille_cellules_suivantes, a.grille_environnement⟩
  obtain ⟨g2, hg2, hg20⟩ := hn.2.2 sa hsa
  have hsuiv : ∀ i, i < a.largeur_grille * a.hauteur_grille → (g2 i).sante ≤ 100 := by
    intro i hi
    rw [hg20 i hi]
    decide
  have hdef : ∀ i, i < a.hauteur_grille * a.largeur_grille →
      sante_valide ((nettoyer_grille a.largeur_grille a.hauteur_grille
        ⟨ga, a.grille_cellules_suivantes, a.grille_environnement⟩).actuelles i) := by
    intro i hi
    rw [hn.1 i (by rw [Nat.mul_comm]; exact hi)]
    exact sante_valide_defaut
  obtain ⟨graine, h | h | h⟩ := issu_d_un_initialiseur_cas F a r h
  · rw [h]
    simp only [sante_dans_les_bornes, initialiser_grille_uniforme, ha]
    refine ⟨_, g2, rfl, hg2, fun i hi => ⟨?_, hsuiv i hi⟩⟩
    exact semer_cellule_sante a.largeur_grille a.hauteur_grille (fun _ _ => _) _ hdef i
      (by rw [Nat.mul_comm]; exact hi)
  · rw [h]
    simp only [sante_dans_les_bornes, initialiser_grille_centre, ha]
    refine ⟨_, g2, rfl, hg2, fun i hi => ⟨?_, hsuiv i hi⟩⟩
    exact semer_cellule_sante a.largeur_grille a.hauteur_grille
      (fun ligne colonne => calculer_seuil_probabilite
        ((DENSITE_MAXIMUM : Int) -
          F.reduction_densite colonne ligne a.largeur_grille a.hauteur_grille)) _ hdef i
      (by rw [Nat.mul_comm]; exact hi)
  · rw [h]
    obtain ⟨g, hg, hcl⟩ := initialiser_grille_clusters_cellules a ga ha graine
    have hs2 : (initialiser_grille_clusters a graine).grille_cellules_suivantes = some g2 := by
      simp only [initialiser_grille_clusters, ha]
      exact hg2
    refine ⟨g, g2, hg, hs2, fun i hi => ⟨?_, hsuiv i hi⟩⟩
    rcases hcl i hi with h0 | h0
    · rw [h0]
      exact sante_valide_defaut
    · have hs : (g i).sante = 50 := h0.2.2.2.2.2.2.2.1
      exact ⟨by rw [hs]; decide, fun _ => by rw [hs]; decide⟩

theorem iterer_sante (F : Flottants) (a r : AutomateCellulaire) (ga sa : Grille)
    (ha : a.grille_cellules_actuelles = some ga) (hsa : a.grille_cellules_suivantes = some sa)
    (h : issu_d_un_initialiseur F a r) (n : Nat) :
    sante_dans_les_bornes (a.largeur_grille * a.hauteur_grille) (iterer F n r) ∧
    (iterer F n r).largeur_grille = a.largeur_grille ∧
    (iterer F n r).hauteur_grille = a.hauteur_grille := by
  induction n with
  | zero =>
    have hp := issu_d_un_initialiseur_parametres F a r h
    exact ⟨issu_d_un_initialiseur_sante F a r ga sa ha hsa h, hp.2.2.2.2.2.1, hp.2.2.2.2.2.2⟩
  | succ k ih =>
    obtain ⟨hs, hW, hH⟩ := ih
    have hstep := calculer_generation_suivante_sante F (iterer F k r)
      (by rw [hW, hH]; exact hs)
    rw [hW, hH] at hstep
    exact hstep

/-- C34: in every state reached from the result of an initialiser (on an automaton with
both cell buffers present) by any number of steps, both buffers are present, the
dimensions are unchanged, every record of both buffers has a health of at most 100, and
every live record of the current buffer has a health of at least 1. -/
theorem sante_dans_les_bornes_atteignables (F : Flottants) (a r : AutomateCellulaire)
    (ga sa : Grille) (ha : a.grille_cellules_actuelles = some ga)
    (hsa : a.grille_cellules_suivantes = some sa) (h : issu_d_un_initialiseur F a r)
    (n : Nat) :
    ∃ gc gs, (iterer F n r).grille_cellules_actuelles = some gc ∧
      (iterer F n r).grille_cellules_suivantes = some gs ∧
      (iterer F n r).largeur_grille = a.largeur_grille ∧
      (iterer F n r).hauteur_grille = a.hauteur_grille ∧
      ∀ i, i < a.largeur_grille * a.hauteur_grille →
        (gc i).sante ≤ 100 ∧ (gs i).sante ≤ 100 ∧ ((gc i).vivante ≠ 0 → 1 ≤ (gc i).sante) := by
  obtain ⟨⟨gc, gs, hgc, hgs, hv⟩, hW, hH⟩ := iterer_sante F a r ga sa ha hsa h n
  exact ⟨gc, gs, hgc, hgs, hW, hH, fun i hi => ⟨(hv i hi).1.1, (hv i hi).2, (hv i hi).1.2⟩⟩

theorem sante_dans_les_bornes_atteignables_witness :
    (automate_exemple grille_bloc 0).grille_cellules_actuelles = some grille_bloc ∧
    (automate_exemple grille_bloc 0).grille_cellules_suivantes = some grille_vide ∧
    issu_d_un_initialiseur flottants_exemple (automate_exemple grille_bloc 0)
      (initialiser_grille_aleatoire (automate_exemple grille_bloc 0) 7) ∧
    ∃ gc gs,
      (iterer flottants_exemple 2
        (initialiser_grille_aleatoire (automate_exemple grille_bloc 0)
          7)).grille_cellules_actuelles = some gc ∧
      (iterer flottants_exemple 2
        (initialiser_grille_aleatoire (automate_exemple grille_bloc 0)
          7)).grille_cellules_suivantes = some gs ∧
      (iterer flottants_exemple 2
        (initialiser_grille_aleatoire (automate_exemple grille_bloc 0) 7)).largeur_grille =
        (automate_exemple grille_bloc 0).largeur_grille ∧
      (iterer flottants_exemple 2
        (initialiser_grille_aleatoire (automate_exemple grille_bloc 0) 7)).hauteur_grille =
        (automate_exemple grille_bloc 0).hauteur_grille ∧
      ∀ i, i < (automate_exemple grille_bloc 0).largeur_grille *
          (automate_exemple grille_bloc 0).hauteur_grille →
        (gc i).sante ≤ 100 ∧ (gs i).sante ≤ 100 ∧ ((gc i).vivante ≠ 0 → 1 ≤ (gc i).sante) :=
  ⟨rfl, rfl, ⟨7, Or.inr (Or.inr (Or.inr (Or.inl rfl)))⟩,
    sante_dans_les_bornes_atteignables flottants_exemple (automate_exemple grille_bloc 0)
      (initialiser_grille_aleatoire (automate_exemple grille_bloc 0) 7) grille_bloc grille_vide
      rfl rfl ⟨7, Or.inr (Or.inr (Or.inr (Or.inl rfl)))⟩ 2⟩

/-! ## Toxicity on reachable states (C37) -/

theorem densite_locale_le (actuelles : Grille) (largeur hauteur ligne colonne : Nat) :
    densite_locale actuelles largeur hauteur ligne colonne ≤ 9 := by
  unfold densite_locale
  have hint : ∀ (dy d : Nat),
      boucle 3 (fun dx d =>
        if (actuelles (position_voisin largeur hauteur ligne colonne dy dx)).vivante ≠ 0
        then d + 1 else d) d ≤ d + 3 := by
    intro dy d
    refine boucle_inv (fun k x => x ≤ d + k) 3 _ d (Nat.le_refl _) ?_
    intro k _ x hx
    beta_reduce
    split <;> omega
  have h := boucle_inv (fun k x => x ≤ 3 * k) 3
    (fun dy d => boucle 3 (fun dx d =>
      if (actuelles (position_voisin largeur hauteur ligne colonne dy dx)).vivante ≠ 0
      then d + 1 else d) d) 0 (Nat.le_refl _)
    (fun k _ x hx => by
      have := hint k x
      beta_reduce
      omega)
  exact h

theorem evaluer_cellule_toxicite (F : Flottants) (largeur hauteur masque_naissance
    masque_survie generation : Nat) (actuelles : Grille) (ligne colonne : Nat)
    (s : CelluleEvolutive) (env : EnvironnementLocal) (g pop : Nat) :
    (evaluer_cellule F largeur hauteur masque_naissance masque_survie generation actuelles
      ligne colonne s env g pop).environnement.toxicite_locale = env.toxicite_locale := by
  by_cases hv : (actuelles (ligne * largeur + colonne)).vivante ≠ 0
  · rw [evaluer_cellule_de_vivante _ _ _ _ _ _ _ _ _ _ _ _ _ hv]
    rcases evaluer_survie_environnement F masque_survie generation
      (actuelles (ligne * largeur + colonne)) s env g pop
      (collecter_voisins actuelles largeur hauteur ligne colonne).1 with h | h
    · rw [h]
    · rw [h]
  · have hm : (actuelles (ligne * largeur + colonne)).vivante = 0 := by
      by_contra h0
      exact hv h0
    rw [evaluer_cellule_de_morte _ _ _ _ _ _ _ _ _ _ _ _ _ hm]
    by_cases hn : (evaluer_naissance F largeur hauteur masque_naissance generation ligne colonne
        (collecter_voisins actuelles largeur hauteur ligne colonne).2 s env g pop
        (collecter_voisins actuelles largeur hauteur ligne colonne).1).cellule.vivante = 0
    · rw [(evaluer_naissance_morte _ _ _ _ _ _ _ _ _ _ _ _ _ hn).1]
    · obtain ⟨_, _, _, _, _, _, _, he, _⟩ :=
        evaluer_naissance_vivante _ _ _ _ _ _ _ _ _ _ _ _ _ hn
      rw [he]

/-- The environment update yields a valid toxicity from a valid one. -/
theorem mettre_a_jour_environnement_toxicite (F : Flottants)
    (largeur hauteur generation : Nat) (actuelles : Grille) (environnement : GrilleEnv)
    (l c : Nat) (hl : l < hauteur) (hc : c < largeur)
    (h : toxicite_valide (environnement (l * largeur + c))) :
    toxicite_valide (mettre_a_jour_environnement F largeur hauteur generation actuelles
      environnement (l * largeur + c)) ∧
    (mettre_a_jour_environnement F largeur hauteur generation actuelles environnement
      (l * largeur + c)).toxicite_locale =
      if densite_locale actuelles largeur hauteur l c > 6 then
        (densite_locale actuelles largeur hauteur l c - 6) * 20
      else (environnement (l * largeur + c)).toxicite_locale - 5 := by
  rw [mettre_a_jour_environnement_position _ _ _ _ _ _ _ _ hl hc]
  have ht : (maj_environnement_cellule F largeur hauteur generation actuelles l c
      (environnement (l * largeur + c))).toxicite_locale =
      maj_toxicite (environnement (l * largeur + c)).toxicite_locale
        (densite_locale actuelles largeur hauteur l c) := rfl
  have hm := maj_toxicite_valide (environnement (l * largeur + c)).toxicite_locale
    (densite_locale actuelles largeur hauteur l c) h.1 h.2
    (densite_locale_le actuelles largeur hauteur l c)
  unfold toxicite_valide
  rw [ht]
  exact ⟨⟨hm.1, hm.2.1⟩, hm.2.2⟩

theorem iterer_toxicite (F : Flottants) (a r : AutomateCellulaire) (ga sa : Grille)
    (ha : a.grille_cellules_actuelles = some ga) (hsa : a.grille_cellules_suivantes = some sa)
    (h : issu_d_un_initialiseur F a r) (n : Nat) :
    ∀ i, i < a.largeur_grille * a.hauteur_grille →
      toxicite_valide ((iterer F n r).grille_environnement i) := by
  induction n with
  | zero =>
    intro i hi
    have he := (issu_d_un_initialiseur_reinitialise F a r ga sa ha hsa h).1 i hi
    show toxicite_valide (r.grille_environnement i)
    rw [he]
    exact ⟨by decide, by decide⟩
  | succ k ih =>
    intro i hi
    obtain ⟨⟨gc, gs, hgc, hgs, _⟩, hW, hH⟩ := iterer_sante F a r ga sa ha hsa h k
    obtain ⟨l, c, hl, hc, hlc⟩ := position_decompose i a.largeur_grille a.hauteur_grille
      (by rw [Nat.mul_comm]; exact hi)
    show toxicite_valide ((calculer_generation_suivante F (iterer F k r)).grille_environnement i)
    rw [calculer_generation_suivante_presents F (iterer F k r) gc gs hgc hgs]
    obtain ⟨g, pop, _, h2⟩ := etat_apres_passe_position F (iterer F k r) gc gs l c
      (by rw [hH]; exact hl) (by rw [hW]; exact hc)
    rw [hW] at h2
    have hv := (mettre_a_jour_environnement_toxicite F (iterer F k r).largeur_grille
      (iterer F k r).hauteur_grille (iterer F k r).generation_actuelle gc
      (iterer F k r).grille_environnement l c (by rw [hH]; exact hl) (by rw [hW]; exact hc)
      (by rw [hW, ← hlc]; exact ih i hi)).1
    rw [hW] at hv
    unfold toxicite_valide at hv ⊢
    simp only
    rw [hlc, h2, evaluer_cellule_toxicite]
    exact hv

/-- C37: in every state reached from the result of an initialiser (on an automaton with
both cell buffers present) by any number of steps, the toxicity of every environment
cell of the grid is a multiple of 5 and at most 60; the 3x3 density is at most 9; from
such a state the environment update of the next step yields `(d - 6) * 20` when the
density `d` exceeds 6 and the toxicity less 5, floored at 0, otherwise, without
wrapping, and that value is at most 60, so that the toxicity penalty of the survival
evaluation (which requires a value above 100) is not applied. -/
theorem toxicite_dans_les_bornes_atteignables (F : Flottants) (a r : AutomateCellulaire)
    (ga sa : Grille) (ha : a.grille_cellules_actuelles = some ga)
    (hsa : a.grille_cellules_suivantes = some sa) (h : issu_d_un_initialiseur F a r)
    (n ligne colonne : Nat) (hl : ligne < a.hauteur_grille) (hc : colonne < a.largeur_grille) :
    ((iterer F n r).grille_environnement
      (ligne * a.largeur_grille + colonne)).toxicite_locale % 5 = 0 ∧
    ((iterer F n r).grille_environnement
      (ligne * a.largeur_grille + colonne)).toxicite_locale ≤ 60 ∧
    ∀ actuelles : Grille,
      densite_locale actuelles a.largeur_grille a.hauteur_grille ligne colonne ≤ 9 ∧
      (mettre_a_jour_environnement F a.largeur_grille a.hauteur_grille
        (iterer F n r).generation_actuelle actuelles (iterer F n r).grille_environnement
        (ligne * a.largeur_grille + colonne)).toxicite_locale =
        (if densite_locale actuelles a.largeur_grille a.hauteur_grille ligne colonne > 6 then
          (densite_locale actuelles a.largeur_grille a.hauteur_grille ligne colonne - 6) * 20
        else ((iterer F n r).grille_environnement
          (ligne * a.largeur_grille + colonne)).toxicite_locale - 5) ∧
      ¬ ((mettre_a_jour_environnement F a.largeur_grille a.hauteur_grille
        (iterer F n r).generation_actuelle actuelles (iterer F n r).grille_environnement
        (ligne * a.largeur_grille + colonne)).toxicite_locale > 100) := by
  have hv := iterer_toxicite F a r ga sa ha hsa h n (ligne * a.largeur_grille + colonne)
    (by rw [Nat.mul_comm a.largeur_grille a.hauteur_grille]
        exact position_lt ligne colonne _ _ hl hc)
  refine ⟨hv.1, hv.2, fun actuelles => ?_⟩
  have hm := mettre_a_jour_environnement_toxicite F a.largeur_grille a.hauteur_grille
    (iterer F n r).generation_actuelle actuelles (iterer F n r).grille_environnement
    ligne colonne hl hc hv
  refine ⟨densite_locale_le _ _ _ _ _, hm.2, ?_⟩
  have := hm.1.2
  omega

theorem toxicite_dans_les_bornes_atteignables_witness :
    (automate_exemple grille_bloc 0).grille_cellules_actuelles = some grille_bloc ∧
    (automate_exemple grille_bloc 0).grille_cellules_suivantes = some grille_vide ∧
    issu_d_un_initialiseur flottants_exemple (automate_exemple grille_bloc 0)
      (initialiser_grille_aleatoire (automate_exemple grille_bloc 0) 7) ∧
    (1 : Nat) < (automate_exemple grille_bloc 0).hauteur_grille ∧
    (1 : Nat) < (automate_exemple grille_bloc 0).largeur_grille ∧
    ((iterer flottants_exemple 2
      (initialiser_grille_aleatoire (automate_exemple grille_bloc 0) 7)).grille_environnement
      (1 * (automate_exemple grille_bloc 0).largeur_grille + 1)).toxicite_locale % 5 = 0 ∧
    ((iterer flottants_exemple 2
      (initialiser_grille_aleatoire (automate_exemple grille_bloc 0) 7)).grille_environnement
      (1 * (automate_exemple grille_bloc 0).largeur_grille + 1)).toxicite_locale ≤ 60 :=
  ⟨rfl, rfl, ⟨7, Or.inr (Or.inr (Or.inr (Or.inl rfl)))⟩, by decide, by decide,
    (toxicite_dans_les_bornes_atteignables flottants_exemple (automate_exemple grille_bloc 0)
      (initialiser_grille_aleatoire (automate_exemple grille_bloc 0) 7) grille_bloc grille_vide
      rfl rfl ⟨7, Or.inr (Or.inr (Or.inr (Or.inl rfl)))⟩ 2 1 1 (by decide) (by decide)).1,
    (toxicite_dans_les_bornes_atteignables flottants_exemple (automate_exemple grille_bloc 0)
      (initialiser_grille_aleatoire (automate_exemple grille_bloc 0) 7) grille_bloc grille_vide
      rfl rfl ⟨7, Or.inr (Or.inr (Or.inr (Or.inl rfl)))⟩ 2 1 1 (by decide) (by decide)).2.1⟩

/-! ## The toxicity update on the values it can store (C33) -/

theorem deux_puissance_eq (e : Int) : deux_puissance e = (2 : ℚ) ^ e := by
  unfold deux_puissance
  by_cases h : 0 ≤ e
  · rw [if_pos h]
    obtain ⟨n, rfl⟩ := Int.eq_ofNat_of_zero_le h
    simp
  · rw [if_neg h]
    have hn : 0 ≤ -e := by omega
    obtain ⟨n, hn2⟩ := Int.eq_ofNat_of_zero_le hn
    have he : e = -(n : Int) := by omega
    subst he
    simp

theorem deux_puissance_pos (e : Int) : 0 < deux_puissance e := by
  rw [deux_puissance_eq]
  positivity

theorem deux_puissance_mono {e f : Int} (h : e ≤ f) : deux_puissance e ≤ deux_puissance f := by
  rw [deux_puissance_eq, deux_puissance_eq]
  exact zpow_le_zpow_right₀ (by norm_num) h

theorem exposant_entier_bornes (k : Nat) : ∀ n, 0 < n → n < 2 ^ k →
    2 ^ exposant_entier k n ≤ n ∧ n < 2 ^ (exposant_entier k n + 1) := by
  induction k with
  | zero =>
    intro n h0 h1
    simp at h1
    omega
  | succ k ih =>
    intro n h0 h1
    show 2 ^ (if n < 2 then 0 else exposant_entier k (n / 2) + 1) ≤ n ∧
      n < 2 ^ ((if n < 2 then 0 else exposant_entier k (n / 2) + 1) + 1)
    by_cases h2 : n < 2
    · rw [if_pos h2]
      constructor
      · simp; omega
      · simp; omega
    · rw [if_neg h2]
      have hk : n / 2 < 2 ^ k := by
        rw [Nat.pow_succ] at h1
        omega
      have := ih (n / 2) (by omega) hk
      rw [Nat.pow_succ, Nat.pow_succ]
      omega

theorem exposant_binaire_le (a : ℚ) (ha : 0 < a) : deux_puissance (exposant_binaire a) ≤ a := by
  unfold exposant_binaire
  simp only
  split
  · assumption
  · have hnum : 0 < a.num := Rat.num_pos.mpr ha
    have hN : 0 < a.num.natAbs := Int.natAbs_pos.mpr (by omega)
    have hD : 0 < a.den := a.den_pos
    have h1 := (exposant_entier_bornes a.num.natAbs a.num.natAbs hN (Nat.lt_two_pow _)).1
    have h2 := (exposant_entier_bornes a.den a.den hD (Nat.lt_two_pow _)).2
    rw [deux_puissance_eq]
    have hN' : ((2 : ℚ) ^ exposant_entier a.num.natAbs a.num.natAbs) ≤ (a.num.natAbs : ℚ) := by
      exact_mod_cast h1
    have hD' : (a.den : ℚ) < (2 : ℚ) ^ (exposant_entier a.den a.den + 1) := by
      exact_mod_cast h2
    have hDpos : (0 : ℚ) < a.den := by exact_mod_cast hD
    have ha' : a = (a.num.natAbs : ℚ) / (a.den : ℚ) := by
      have h3 : ((a.num.natAbs : Int) : ℚ) = (a.num : ℚ) := by
        rw [Int.natAbs_of_nonneg (le_of_lt hnum)]
      rw [← Int.cast_natCast, h3, Rat.num_div_den]
    have hpow : (2 : ℚ) ^ ((exposant_entier a.num.natAbs a.num.natAbs : Int) -
        (exposant_entier a.den a.den : Int) - 1) =
        (2 : ℚ) ^ exposant_entier a.num.natAbs a.num.natAbs /
          (2 : ℚ) ^ (exposant_entier a.den a.den + 1) := by
      rw [show ((exposant_entier a.num.natAbs a.num.natAbs : Int) -
        (exposant_entier a.den a.den : Int) - 1) =
        (exposant_entier a.num.natAbs a.num.natAbs : Int) -
          ((exposant_entier a.den a.den + 1 : Nat) : Int) by push_cast; ring]
      rw [zpow_sub₀ (by norm_num : (2 : ℚ) ≠ 0), zpow_natCast, zpow_natCast]
    rw [hpow]
    conv_rhs => rw [ha']
    have hpos2 : (0 : ℚ) < (2 : ℚ) ^ (exposant_entier a.den a.den + 1) := by positivity
    rw [div_le_div_iff₀ hpos2 hDpos]
    calc (2 : ℚ) ^ exposant_entier a.num.natAbs a.num.natAbs * (a.den : ℚ)
        ≤ (a.num.natAbs : ℚ) * (a.den : ℚ) :=
          mul_le_mul_of_nonneg_right hN' (le_of_lt hDpos)
      _ ≤ (a.num.natAbs : ℚ) * (2 : ℚ) ^ (exposant_entier a.den a.den + 1) :=
          mul_le_mul_of_nonneg_left (le_of_lt hD') (by positivity)

theorem floor_bornes (m : ℚ) : ((Rat.floor m : Int) : ℚ) ≤ m ∧ m < ((Rat.floor m : Int) : ℚ) + 1 := by
  constructor
  · exact Rat.le_floor.mp (le_refl _)
  · by_contra h
    push_neg at h
    have h1 : ((Rat.floor m + 1 : Int) : ℚ) ≤ m := by push_cast; exact h
    have := Rat.le_floor.mpr h1
    omega

theorem entier_le_plus_proche_bornes (m : ℚ) :
    ((entier_le_plus_proche m : Int) : ℚ) ≤ m + 1 / 2 ∧
    m - 1 / 2 ≤ ((entier_le_plus_proche m : Int) : ℚ) ∧
    (0 ≤ m → 0 ≤ entier_le_plus_proche m) := by
  have hf := floor_bornes m
  have h0 : 0 ≤ m → 0 ≤ Rat.floor m := fun h => Rat.le_floor.mpr (by exact_mod_cast h)
  unfold entier_le_plus_proche
  simp only
  by_cases h1 : 2 * (m - ((Rat.floor m : Int) : ℚ)) < 1
  · rw [if_pos h1]
    refine ⟨by linarith [hf.1], by linarith, h0⟩
  · rw [if_neg h1]
    by_cases h2 : 2 * (m - ((Rat.floor m : Int) : ℚ)) > 1
    · rw [if_pos h2]
      push_cast
      refine ⟨by linarith, by linarith [hf.2], fun h => by have := h0 h; omega⟩
    · rw [if_neg h2]
      by_cases h3 : Rat.floor m % 2 = 0
      · rw [if_pos h3]
        refine ⟨by linarith [hf.1], by linarith, h0⟩
      · rw [if_neg h3]
        push_cast
        refine ⟨by linarith, by linarith [hf.2], fun h => by have := h0 h; omega⟩

theorem arrondi_binaire32_pos (q : ℚ) (hq : 0 < q) :
    arrondi_binaire32 q =
      ((entier_le_plus_proche
        (q / deux_puissance (max (exposant_binaire q) (-126) - 23)) : Int) : ℚ) *
        deux_puissance (max (exposant_binaire q) (-126) - 23) := by
  unfold arrondi_binaire32
  rw [if_neg (ne_of_gt hq)]
  simp only [if_neg (not_lt.mpr (le_of_lt hq))]

theorem arrondi_binaire32_neg (q : ℚ) (hq : q < 0) :
    arrondi_binaire32 q = -arrondi_binaire32 (-q) := by
  rw [arrondi_binaire32_pos (-q) (by linarith)]
  unfold arrondi_binaire32
  rw [if_neg (ne_of_lt hq)]
  simp only [if_pos hq]

theorem arrondi_binaire32_zero : arrondi_binaire32 0 = 0 := by
  unfold arrondi_binaire32
  rw [if_pos rfl]

theorem arrondi_binaire32_bornes (q : ℚ) (hq : 0 < q) (K : Int) (hK : -125 ≤ K)
    (hqK : q < deux_puissance K) :
    0 ≤ arrondi_binaire32 q ∧ arrondi_binaire32 q ≤ q + deux_puissance (K - 25) ∧
      q - deux_puissance (K - 25) ≤ arrondi_binaire32 q := by
  rw [arrondi_binaire32_pos q hq]
  have he := exposant_binaire_le q hq
  have heK : exposant_binaire q < K := by
    by_contra h
    push_neg at h
    have := deux_puissance_mono h
    linarith
  have hpas : deux_puissance (max (exposant_binaire q) (-126) - 23) ≤ deux_puissance (K - 24) := by
    apply deux_puissance_mono
    rcases max_cases (exposant_binaire q) (-126) with ⟨h1, _⟩ | ⟨h1, _⟩ <;> rw [h1] <;> omega
  have hpos := deux_puissance_pos (max (exposant_binaire q) (-126) - 23)
  have hdemi : deux_puissance (K - 24) = 2 * deux_puissance (K - 25) := by
    rw [deux_puissance_eq, deux_puissance_eq, show K - 24 = (K - 25) + 1 by ring,
      zpow_add_one₀ (by norm_num : (2 : ℚ) ≠ 0)]
    ring
  have hn := entier_le_plus_proche_bornes
    (q / deux_puissance (max (exposant_binaire q) (-126) - 23))
  have hdiv : q / deux_puissance (max (exposant_binaire q) (-126) - 23) *
      deux_puissance (max (exposant_binaire q) (-126) - 23) = q := by
    field_simp
  refine ⟨?_, ?_, ?_⟩
  · have h0 := hn.2.2 (by positivity)
    have : (0 : ℚ) ≤ ((entier_le_plus_proche
        (q / deux_puissance (max (exposant_binaire q) (-126) - 23)) : Int) : ℚ) := by
      exact_mod_cast h0
    positivity
  · have := mul_le_mul_of_nonneg_right hn.1 (le_of_lt hpos)
    rw [add_mul, hdiv] at this
    linarith
  · have := mul_le_mul_of_nonneg_right hn.2.1 (le_of_lt hpos)
    rw [sub_mul, hdiv] at this
    linarith

theorem arrondi_binaire32_nonneg (q : ℚ) (hq : 0 ≤ q) : 0 ≤ arrondi_binaire32 q := by
  rcases eq_or_lt_of_le hq with h | h
  · rw [← h, arrondi_binaire32_zero]
  · rw [arrondi_binaire32_pos q h]
    have h0 := (entier_le_plus_proche_bornes
      (q / deux_puissance (max (exposant_binaire q) (-126) - 23))).2.2
      (div_nonneg hq (le_of_lt (deux_puissance_pos _)))
    have h1 : (0 : ℚ) ≤ ((entier_le_plus_proche
        (q / deux_puissance (max (exposant_binaire q) (-126) - 23)) : Int) : ℚ) := by
      exact_mod_cast h0
    exact mul_nonneg h1 (le_of_lt (deux_puissance_pos _))

/-- The rounding of a value from 0 to `2 ^ K` is at most `2 ^ (K - 25)` above it. -/
theorem arrondi_binaire32_majore (q : ℚ) (hq : 0 ≤ q) (K : Int) (hK : -125 ≤ K)
    (hqK : q < deux_puissance K) :
    arrondi_binaire32 q ≤ q + deux_puissance (K - 25) := by
  rcases eq_or_lt_of_le hq with h | h
  · rw [← h, arrondi_binaire32_zero]
    have := deux_puissance_pos (K - 25)
    linarith
  · exact (arrondi_binaire32_bornes q h K hK hqK).2.1

theorem PI_F_valeur : PI_F = 823549 / 262144 := by decide!

theorem DEUX_PI_F_valeur : DEUX_PI_F = 823549 / 131072 := by decide!

theorem deux_puissance_27 : deux_puissance 27 = 134217728 := by
  rw [deux_puissance_eq]; norm_num

theorem deux_puissance_2 : deux_puissance 2 = 4 := by
  rw [deux_puissance_eq]; norm_num

theorem deux_puissance_m23 : deux_puissance (-23) = 1 / 8388608 := by
  rw [deux_puissance_eq]; norm_num

/-- One turn of the first loop of `simple_sin` from a value between `3.14159f` and
`2 ^ 27`: the new value is at least 2 below the old one, or is not positive, and is not
below `-6.28318f`. -/
theorem normaliser_haut_pas (x : ℚ) (h1 : PI_F < x) (h2 : x ≤ 134217728) :
    -DEUX_PI_F ≤ arrondi_binaire32 (x - DEUX_PI_F) ∧
    (arrondi_binaire32 (x - DEUX_PI_F) ≤ x - 2 ∨ arrondi_binaire32 (x - DEUX_PI_F) ≤ 0) := by
  rw [PI_F_valeur] at h1
  rw [DEUX_PI_F_valeur]
  rcases lt_trichotomy (x - 823549 / 131072) 0 with h | h | h
  · rw [arrondi_binaire32_neg _ h]
    have hb := arrondi_binaire32_bornes (-(x - 823549 / 131072)) (by linarith) 2 (by norm_num)
      (by rw [deux_puissance_2]; linarith)
    rw [show (2 : Int) - 25 = -23 by norm_num, deux_puissance_m23] at hb
    constructor
    · linarith [hb.2.1]
    · right
      linarith [hb.1]
  · rw [h, arrondi_binaire32_zero]
    constructor
    · norm_num
    · right
      exact le_refl _
  · have hb := arrondi_binaire32_bornes (x - 823549 / 131072) h 27 (by norm_num)
      (by rw [deux_puissance_27]; linarith)
    rw [show (27 : Int) - 25 = 2 by norm_num, deux_puissance_2] at hb
    constructor
    · linarith [hb.1]
    · left
      linarith [hb.2.1]

theorem normaliser_haut_succ (n : Nat) (x : ℚ) :
    normaliser_haut (n + 1) x =
      if x > PI_F then normaliser_haut n (arrondi_binaire32 (x - DEUX_PI_F)) else some x := rfl

theorem normaliser_bas_succ (n : Nat) (x : ℚ) :
    normaliser_bas (n + 1) x =
      if x < -PI_F then normaliser_bas n (arrondi_binaire32 (x + DEUX_PI_F)) else some x := rfl

/-- From a value between `-6.28318f` and `2 ^ 27` the first loop of `simple_sin` ends
within `n + 1` evaluations of its test when the value is at most `3.14159f + 2 * n`. -/
theorem normaliser_haut_termine (n : Nat) : ∀ x : ℚ, -DEUX_PI_F ≤ x → x ≤ 134217728 →
    x ≤ PI_F + 2 * n →
    ∃ y, normaliser_haut (n + 1) x = some y ∧ -DEUX_PI_F ≤ y ∧ y ≤ PI_F := by
  induction n with
  | zero =>
    intro x h1 _ h3
    refine ⟨x, ?_, h1, by simpa using h3⟩
    rw [normaliser_haut_succ, if_neg (not_lt.mpr (by simpa using h3))]
  | succ n ih =>
    intro x h1 h2 h3
    by_cases hx : x > PI_F
    · rw [normaliser_haut_succ, if_pos hx]
      have hp := normaliser_haut_pas x hx h2
      have hpi : (0 : ℚ) ≤ PI_F := by rw [PI_F_valeur]; norm_num
      apply ih _ hp.1
      · rcases hp.2 with h | h <;> linarith
      · push_cast at h3
        rcases hp.2 with h | h
        · linarith
        · have : (0 : ℚ) ≤ 2 * (n : ℚ) := by positivity
          linarith
    · refine ⟨x, ?_, h1, not_lt.mp hx⟩
      rw [normaliser_haut_succ, if_neg hx]

/-- From a value between `-6.28318f` and `3.14159f` the second loop of `simple_sin` ends
within two evaluations of its test. -/
theorem normaliser_bas_termine (y : ℚ) (h1 : -DEUX_PI_F ≤ y) :
    ∃ z, normaliser_bas 2 y = some z := by
  by_cases hy : y < -PI_F
  · rw [normaliser_bas_succ, if_pos hy, normaliser_bas_succ]
    have h0 := arrondi_binaire32_nonneg (y + DEUX_PI_F) (by linarith)
    have hpi : (0 : ℚ) < PI_F := by rw [PI_F_valeur]; norm_num
    rw [if_neg (not_lt.mpr (by linarith))]
    exact ⟨_, rfl⟩
  · rw [normaliser_bas_succ, if_neg hy]
    exact ⟨_, rfl⟩

theorem normaliser_haut_carburant (c d : Nat) : ∀ (x y : ℚ),
    normaliser_haut c x = some y → normaliser_haut (c + d) x = some y := by
  induction c with
  | zero => intro x y h; exact absurd h (by simp [normaliser_haut])
  | succ c ih =>
    intro x y h
    rw [show c + 1 + d = (c + d) + 1 by omega, normaliser_haut_succ]
    rw [normaliser_haut_succ] at h
    by_cases hx : x > PI_F
    · rw [if_pos hx] at h ⊢
      exact ih _ _ h
    · rw [if_neg hx] at h ⊢
      exact h

theorem normaliser_bas_carburant (c d : Nat) : ∀ (x y : ℚ),
    normaliser_bas c x = some y → normaliser_bas (c + d) x = some y := by
  induction c with
  | zero => intro x y h; exact absurd h (by simp [normaliser_bas])
  | succ c ih =>
    intro x y h
    rw [show c + 1 + d = (c + d) + 1 by omega, normaliser_bas_succ]
    rw [normaliser_bas_succ] at h
    by_cases hx : x < -PI_F
    · rw [if_pos hx] at h ⊢
      exact ih _ _ h
    · rw [if_neg hx] at h ⊢
      exact h

/-- On an argument from 0 to `2 ^ 27` the function `simple_sin` returns: 67108865
evaluations of each loop test are enough. -/
theorem simple_sin_retourne (x : ℚ) (h0 : 0 ≤ x) (h1 : x ≤ 134217728) :
    (simple_sin 67108865 x).isSome = true := by
  have hpi : (0 : ℚ) ≤ DEUX_PI_F := by rw [DEUX_PI_F_valeur]; norm_num
  have hpi2 : (0 : ℚ) ≤ PI_F := by rw [PI_F_valeur]; norm_num
  obtain ⟨y, hy, hy1, _⟩ := normaliser_haut_termine 67108864 x (by linarith) h1
    (by push_cast; linarith)
  obtain ⟨z, hz⟩ := normaliser_bas_termine y hy1
  have hz2 := normaliser_bas_carburant 2 67108863 y z hz
  unfold simple_sin
  rw [hy]
  simp only
  rw [show (67108865 : Nat) = 2 + 67108863 by norm_num, hz2]
  rfl

theorem arrondi_deux_pi : arrondi_binaire32 (2 * PI_F) = 823549 / 131072 := by decide!

/-- The arguments `2.0f * 3.14159f * generation / d` of `simple_sin`, for a generation
below `2 ^ 31` and a divisor of 80 or more, are not negative and exceed
`6.28318f * generation / d` by at most `(6.28318f * 64 + 512) / d + 8`. -/
theorem cycle_borne (g : Nat) (hg : g < 2147483648) (d : ℚ) (hd : 80 ≤ d) :
    0 ≤ arrondi_binaire32 (arrondi_binaire32 (arrondi_binaire32 (2 * PI_F) *
      arrondi_binaire32 (g : ℚ)) / d) ∧
    arrondi_binaire32 (arrondi_binaire32 (arrondi_binaire32 (2 * PI_F) *
      arrondi_binaire32 (g : ℚ)) / d) ≤ (823549 / 131072 * ((g : ℚ) + 64) + 512) / d + 8 := by
  rw [arrondi_deux_pi]
  have hg0 : (0 : ℚ) ≤ (g : ℚ) := by positivity
  have hgq : (g : ℚ) < 2147483648 := by exact_mod_cast hg
  have hd0 : (0 : ℚ) < d := by linarith
  have h1a := arrondi_binaire32_nonneg (g : ℚ) hg0
  have h1b := arrondi_binaire32_majore (g : ℚ) hg0 31 (by norm_num)
    (by rw [deux_puissance_eq]; norm_num; exact_mod_cast hg)
  rw [show (31 : Int) - 25 = 6 by norm_num, deux_puissance_eq] at h1b
  norm_num at h1b
  have h2pos : (0 : ℚ) ≤ 823549 / 131072 * arrondi_binaire32 (g : ℚ) := by positivity
  have h2a := arrondi_binaire32_nonneg _ h2pos
  have h2b := arrondi_binaire32_majore _ h2pos 34 (by norm_num)
    (by rw [deux_puissance_eq]; norm_num; nlinarith)
  rw [show (34 : Int) - 25 = 9 by norm_num, deux_puissance_eq] at h2b
  norm_num at h2b
  have h3pos : (0 : ℚ) ≤
      arrondi_binaire32 (823549 / 131072 * arrondi_binaire32 (g : ℚ)) / d :=
    div_nonneg h2a (le_of_lt hd0)
  have h2c : arrondi_binaire32 (823549 / 131072 * arrondi_binaire32 (g : ℚ)) ≤
      823549 / 131072 * ((g : ℚ) + 64) + 512 := by nlinarith
  have h3le : arrondi_binaire32 (823549 / 131072 * arrondi_binaire32 (g : ℚ)) / d ≤
      (823549 / 131072 * ((g : ℚ) + 64) + 512) / d :=
    div_le_div_of_nonneg_right h2c (le_of_lt hd0)
  have h3lt : arrondi_binaire32 (823549 / 131072 * arrondi_binaire32 (g : ℚ)) / d <
      268435456 := by
    rw [div_lt_iff₀ hd0]
    nlinarith
  have h3a := arrondi_binaire32_nonneg _ h3pos
  have h3b := arrondi_binaire32_majore _ h3pos 28 (by norm_num)
    (by rw [deux_puissance_eq]; norm_num; exact h3lt)
  rw [show (28 : Int) - 25 = 3 by norm_num, deux_puissance_eq] at h3b
  norm_num at h3b
  exact ⟨h3a, by linarith⟩

theorem cycle_predation_fin_de_plage :
    ∀ i, i < 324 → cycle_predation (1708914300 + i) ≤ 134217728 := by decide!

/-- Below generation 1708914624 the argument of `simple_sin` in
`calculer_pression_predation` lies between 0 and `2 ^ 27`. -/
theorem cycle_predation_borne (g : Nat) (hg : g < 1708914624) :
    0 ≤ cycle_predation g ∧ cycle_predation g ≤ 134217728 := by
  have hb := cycle_borne g (by omega) 80 (le_refl _)
  have hc : cycle_predation g = arrondi_binaire32 (arrondi_binaire32
      (arrondi_binaire32 (2 * PI_F) * arrondi_binaire32 (g : ℚ)) / 80) := by
    unfold cycle_predation
    norm_num [PREDATION_CYCLE]
  rw [hc]
  refine ⟨hb.1, ?_⟩
  by_cases h : g < 1708914300
  · have hgq : (g : ℚ) ≤ 1708914299 := by exact_mod_cast Nat.le_of_lt_succ h
    have := hb.2
    have h2 : (823549 / 131072 * ((g : ℚ) + 64) + 512) / 80 + 8 ≤ 134217728 := by
      rw [← le_sub_iff_add_le, div_le_iff₀ (by norm_num)]
      nlinarith
    linarith
  · have hi := cycle_predation_fin_de_plage (g - 1708914300) (by omega)
    rw [show 1708914300 + (g - 1708914300) = g by omega, hc] at hi
    exact hi

theorem cycle_epidemie_borne (g : Nat) (hg : g < 1708914624) :
    0 ≤ cycle_epidemie g ∧ cycle_epidemie g ≤ 134217728 := by
  have hb := cycle_borne g (by omega) 120 (by norm_num)
  have hc : cycle_epidemie g = arrondi_binaire32 (arrondi_binaire32
      (arrondi_binaire32 (2 * PI_F) * arrondi_binaire32 (g : ℚ)) / 120) := by
    unfold cycle_epidemie
    norm_num [EPIDEMIC_CYCLE]
  rw [hc]
  refine ⟨hb.1, ?_⟩
  have hgq : (g : ℚ) ≤ 1708914623 := by exact_mod_cast Nat.le_of_lt_succ hg
  have h2 : (823549 / 131072 * ((g : ℚ) + 64) + 512) / 120 + 8 ≤ 134217728 := by
    rw [← le_sub_iff_add_le, div_le_iff₀ (by norm_num)]
    nlinarith
  linarith [hb.2]

theorem arrondi_157 : arrondi_binaire32 (157 / 100) = 13170115 / 8388608 := by decide!

theorem phase_nourriture_borne (g : Nat) (hg : g < 1708914624) :
    0 ≤ phase_nourriture g ∧ phase_nourriture g ≤ 134217728 := by
  have hb := cycle_borne g (by omega) 90 (by norm_num)
  have hc : phase_nourriture g = arrondi_binaire32 (arrondi_binaire32 (arrondi_binaire32
      (arrondi_binaire32 (2 * PI_F) * arrondi_binaire32 (g : ℚ)) / 90) +
      arrondi_binaire32 (157 / 100)) := by
    unfold phase_nourriture
    norm_num [FOOD_SCARCITY_CYCLE]
  rw [hc, arrondi_157]
  have hgq : (g : ℚ) ≤ 1708914623 := by exact_mod_cast Nat.le_of_lt_succ hg
  have h2 : (823549 / 131072 * ((g : ℚ) + 64) + 512) / 90 + 8 ≤ 134217000 := by
    rw [← le_sub_iff_add_le, div_le_iff₀ (by norm_num)]
    nlinarith
  have hpos : (0 : ℚ) ≤ arrondi_binaire32 (arrondi_binaire32
      (arrondi_binaire32 (2 * PI_F) * arrondi_binaire32 (g : ℚ)) / 90) + 13170115 / 8388608 := by
    linarith [hb.1]
  have h3 := arrondi_binaire32_majore _ hpos 27 (by norm_num)
    (by rw [deux_puissance_27]; linarith [hb.2])
  rw [show (27 : Int) - 25 = 2 by norm_num, deux_puissance_2] at h3
  exact ⟨arrondi_binaire32_nonneg _ hpos, by linarith [hb.2]⟩

/-- Below generation 1708914624 the call of `mettre_a_jour_environnement` returns. -/
theorem mettre_a_jour_environnement_retourne_avant (largeur hauteur g : Nat)
    (hg : g < 1708914624) :
    mettre_a_jour_environnement_retourne 67108865 largeur hauteur g = true := by
  unfold mettre_a_jour_environnement_retourne
  rw [simple_sin_retourne _ (phase_nourriture_borne g hg).1 (phase_nourriture_borne g hg).2,
    simple_sin_retourne _ (cycle_predation_borne g hg).1 (cycle_predation_borne g hg).2,
    simple_sin_retourne _ (cycle_epidemie_borne g hg).1 (cycle_epidemie_borne g hg).2]
  simp

/-! ### The first loop of `simple_sin` from `2 ^ 27 + 16` -/

theorem cycle_predation_seuil : cycle_predation 1708914624 = 134217744 := by decide!

theorem cycle_predation_au_dessus : (134217744 : ℚ) > PI_F := by decide!

theorem cycle_predation_absorbe : arrondi_binaire32 (134217744 - DEUX_PI_F) = 134217744 := by
  decide!

/-- From `2 ^ 27 + 16` the first loop of `simple_sin` does not end: the value is above
`3.14159f` and the subtraction of `6.28318f` rounds back to it. -/
theorem normaliser_haut_sans_fin (carburant : Nat) :
    normaliser_haut carburant 134217744 = none := by
  induction carburant with
  | zero => rfl
  | succ n ih =>
    show (if (134217744 : ℚ) > PI_F then
      normaliser_haut n (arrondi_binaire32 (134217744 - DEUX_PI_F)) else some 134217744) = none
    rw [if_pos cycle_predation_au_dessus, cycle_predation_absorbe, ih]

theorem simple_sin_sans_fin (carburant : Nat) :
    simple_sin carburant (cycle_predation 1708914624) = none := by
  unfold simple_sin
  rw [cycle_predation_seuil, normaliser_haut_sans_fin]

theorem pression_finale_binaire32_sans_fin (carburant x y largeur hauteur : Nat) :
    pression_finale_binaire32 carburant 1708914624 x y largeur hauteur = none := by
  unfold pression_finale_binaire32
  rw [simple_sin_sans_fin]

theorem mettre_a_jour_environnement_sans_retour (carburant largeur hauteur : Nat)
    (h : 0 < largeur * hauteur) :
    mettre_a_jour_environnement_retourne carburant largeur hauteur 1708914624 = false := by
  unfold mettre_a_jour_environnement_retourne
  have h0 : (largeur * hauteur == 0) = false := by
    rw [beq_eq_false_iff_ne]
    omega
  rw [simple_sin_sans_fin, h0]
  simp

/-- At generation 0 on the 4x4 grid the predation pressure of `flottants_exemple` is the
`binary32` value of `pression_finale`, which lies between 0 and 255, without its
fraction. -/
theorem flottants_exemple_pression_predation :
    ∀ x, x < 4 → ∀ y, y < 4 →
      (pression_finale_binaire32 1 0 x y 4 4).map Rat.floor =
        some ((flottants_exemple.calculer_pression_predation 0 x y 4 4 : Nat) : Int) := by
  decide!

/-- C5 (evaluation at a failing input): at generation 1708914624 the argument
`cycle_predation` of the call of `simple_sin` in `calculer_pression_predation` is the
`binary32` value `134217744 = 2 ^ 27 + 16`.  It is above `3.14159f`, and subtracting
`6.28318f` from it rounds back to it (consecutive `binary32` values are 16 apart there),
so the loop `while (x > 3.14159f) x -= 6.28318f;` does not end: whatever the number of
evaluations of its test, `simple_sin` has not returned, `calculer_pression_predation`
has no `pression_finale` for any cell of any grid, and `mettre_a_jour_environnement` has
not returned on a 4x4 grid.  The step, which starts with this call and increments
`generation_actuelle` at its end, does not reach the increment.  At every generation
below 1708914624 the call of `mettre_a_jour_environnement` returns; one generation
before, the argument is `2 ^ 27`, from which the subtraction gives `2 ^ 27 - 8`; at
generation 80 `simple_sin` returns after two evaluations of the test. -/
theorem simple_sin_sans_retour :
    PI_F = 823549 / 262144 ∧ DEUX_PI_F = 823549 / 131072 ∧
    cycle_predation 1708914624 = 134217744 ∧
    cycle_predation 1708914624 > PI_F ∧
    arrondi_binaire32 (cycle_predation 1708914624 - DEUX_PI_F) = cycle_predation 1708914624 ∧
    (∀ carburant, simple_sin carburant (cycle_predation 1708914624) = none) ∧
    (∀ carburant x y largeur hauteur,
      pression_finale_binaire32 carburant 1708914624 x y largeur hauteur = none) ∧
    (∀ carburant, mettre_a_jour_environnement_retourne carburant 4 4 1708914624 = false) ∧
    (∀ generation, generation < 1708914624 →
      mettre_a_jour_environnement_retourne 67108865 4 4 generation = true) ∧
    cycle_predation 1708914623 = 134217728 ∧
    arrondi_binaire32 (cycle_predation 1708914623 - DEUX_PI_F) = 134217720 ∧
    simple_sin 1 (cycle_predation 80) = none ∧
    simple_sin 2 (cycle_predation 80) = some 0 := by
  refine ⟨by decide!, by decide!, cycle_predation_seuil, ?_, ?_, simple_sin_sans_fin,
    pression_finale_binaire32_sans_fin,
    fun carburant => mettre_a_jour_environnement_sans_retour carburant 4 4 (by decide),
    fun generation h => mettre_a_jour_environnement_retourne_avant 4 4 generation h,
    by decide!, by decide!, by decide!, by decide!⟩
  · rw [cycle_predation_seuil]
    exact cycle_predation_au_dessus
  · rw [cycle_predation_seuil]
    exact cycle_predation_absorbe

/-- The steps of an all-dead automaton keep its dimensions and count the generations. -/
theorem iterer_tous_morts_generation (F : Flottants) (n : Nat) (a : AutomateCellulaire)
    (h : tous_morts a) (hg : a.generation_actuelle < 4294967296) :
    (iterer F n a).largeur_grille = a.largeur_grille ∧
    (iterer F n a).hauteur_grille = a.hauteur_grille ∧
    (iterer F n a).generation_actuelle = (a.generation_actuelle + n) % 4294967296 := by
  induction n with
  | zero => exact ⟨rfl, rfl, (Nat.mod_eq_of_lt hg).symm⟩
  | succ k ih =>
    have hk := (iterer_tous_morts F k a h).1
    have h1 := calculer_generation_suivante_tous_morts F (iterer F k a) hk
    obtain ⟨actuelles, suivantes, ha, hs, _⟩ := hk
    refine ⟨h1.2.2.1.trans ih.1, h1.2.2.2.trans ih.2.1, ?_⟩
    show (calculer_generation_suivante F (iterer F k a)).generation_actuelle = _
    rw [calculer_generation_suivante_presents F (iterer F k a) actuelles suivantes ha hs]
    show ((iterer F k a).generation_actuelle + 1) % 4294967296 = _
    rw [ih.2.2]
    omega

/-- C6 (evaluation at a failing input): whatever the `float` expressions return, the
all-dead 4x4 automaton `automate_exemple grille_vide 0`, stepped `n` times with
`n ≤ 1708914624`, has both buffers, no live cell in its current grid, its 4x4 cells,
generation `n` and, after the first step, population 0; in each of the first 1708914624
steps the call of `mettre_a_jour_environnement` returns.  In the next step, on the
all-dead grid at generation 1708914624, this call has not returned whatever the number
of evaluations of a loop test of `simple_sin`: the step yields no grid, no population
and no incremented generation. -/
theorem grille_morte_sans_retour (F : Flottants) :
    (∀ n, n ≤ 1708914624 →
      tous_morts (iterer F n (automate_exemple grille_vide 0)) ∧
      (0 < n → (iterer F n (automate_exemple grille_vide 0)).population_totale = 0) ∧
      (iterer F n (automate_exemple grille_vide 0)).largeur_grille = 4 ∧
      (iterer F n (automate_exemple grille_vide 0)).hauteur_grille = 4 ∧
      (iterer F n (automate_exemple grille_vide 0)).generation_actuelle = n) ∧
    (∀ n, n < 1708914624 →
      mettre_a_jour_environnement_retourne 67108865
        (iterer F n (automate_exemple grille_vide 0)).largeur_grille
        (iterer F n (automate_exemple grille_vide 0)).hauteur_grille
        (iterer F n (automate_exemple grille_vide 0)).generation_actuelle = true) ∧
    ∀ carburant, mettre_a_jour_environnement_retourne carburant
      (iterer F 1708914624 (automate_exemple grille_vide 0)).largeur_grille
      (iterer F 1708914624 (automate_exemple grille_vide 0)).hauteur_grille
      (iterer F 1708914624 (automate_exemple grille_vide 0)).generation_actuelle =
        false := by
  have h0 : tous_morts (automate_exemple grille_vide 0) :=
    ⟨grille_vide, grille_vide, rfl, rfl, fun _ _ => rfl⟩
  have hgen : ∀ n, n ≤ 1708914624 →
      (iterer F n (automate_exemple grille_vide 0)).generation_actuelle = n := by
    intro n hn
    have h2 := (iterer_tous_morts_generation F n (automate_exemple grille_vide 0) h0
      (by decide)).2.2
    have h4 : (automate_exemple grille_vide 0).generation_actuelle = 0 := rfl
    rw [h2, h4]
    omega
  refine ⟨fun n hn => ?_, fun n hn => ?_, fun carburant => ?_⟩
  · have h1 := iterer_tous_morts F n (automate_exemple grille_vide 0) h0
    have h2 := iterer_tous_morts_generation F n (automate_exemple grille_vide 0) h0
      (by decide)
    exact ⟨h1.1, h1.2, h2.1, h2.2.1, hgen n hn⟩
  · rw [hgen n (Nat.le_of_lt hn)]
    exact mettre_a_jour_environnement_retourne_avant _ _ n hn
  · have h2 := iterer_tous_morts_generation F 1708914624 (automate_exemple grille_vide 0) h0
      (by decide)
    rw [hgen 1708914624 (Nat.le_refl _), h2.1, h2.2.1]
    exact mettre_a_jour_environnement_sans_retour carburant _ _ (by decide)

end CA
